import Mathlib

/-! # Workflow-ID reuse policy resolution

A shallow embedding of `service/history/api/workflow_id_reuse_policy.go`
(`ResolveDuplicateWorkflowID`, `terminateWorkflowAction`,
`generateWorkflowAlreadyStartedError`) together with the declarations of other
packages that the file uses.

Conventions of the embedding:

* protobuf enums are `int32` in Go; they are kept as integers wrapped in one
  structure per enum type, so that values outside the declared constants exist;
* a Go result `(x, err)` is a pair of options, `none` standing for `nil`;
* the action closure mutates the leased mutable state in place; here it takes
  the state and returns the state it leaves behind;
* the collaborators the file only calls (`IsWorkflowExecutionRunning`,
  `workflow.TerminateWorkflow`, the `String` methods of the enums) are fields of
  an environment the functions take as their first argument.
-/

/-! ## Enumerations -/

namespace enumsspb

/-- Go type `enumsspb.WorkflowExecutionState` (an `int32`). -/
structure WorkflowExecutionState where
  val : Int
  deriving DecidableEq, Repr

/-- Modelled from the spec: the declaration of the execution-state enum is not
under `src/`; the spec names `Created`, `Running`, `Completed` and `Zombie`, and
the numbers are those of the protobuf declaration (0 is the unspecified value). -/
def WORKFLOW_EXECUTION_STATE_UNSPECIFIED : WorkflowExecutionState := ⟨0⟩
/-- Modelled from the spec: state `Created` of the execution-state enum. -/
def WORKFLOW_EXECUTION_STATE_CREATED : WorkflowExecutionState := ⟨1⟩
/-- Modelled from the spec: state `Running` of the execution-state enum. -/
def WORKFLOW_EXECUTION_STATE_RUNNING : WorkflowExecutionState := ⟨2⟩
/-- Modelled from the spec: state `Completed` of the execution-state enum. -/
def WORKFLOW_EXECUTION_STATE_COMPLETED : WorkflowExecutionState := ⟨3⟩
/-- Modelled from the spec: state `Zombie` of the execution-state enum. -/
def WORKFLOW_EXECUTION_STATE_ZOMBIE : WorkflowExecutionState := ⟨4⟩

end enumsspb

namespace enumspb

/-- Go type `enumspb.WorkflowExecutionStatus` (an `int32`). -/
structure WorkflowExecutionStatus where
  val : Int
  deriving DecidableEq, Repr

/-- Modelled from the spec: the declaration of the execution-status enum is not
under `src/`; the spec names `Succeeded` (constant `..._COMPLETED`), `Failed`,
`Canceled`, `TimedOut`, `Terminated` and `ContinuedAsNew`; the numbers are those
of the protobuf declaration (0 is the unspecified value, 1 is `Running`). -/
def WORKFLOW_EXECUTION_STATUS_UNSPECIFIED : WorkflowExecutionStatus := ⟨0⟩
/-- Modelled from the spec: status `Running`. -/
def WORKFLOW_EXECUTION_STATUS_RUNNING : WorkflowExecutionStatus := ⟨1⟩
/-- Modelled from the spec: status `Succeeded`. -/
def WORKFLOW_EXECUTION_STATUS_COMPLETED : WorkflowExecutionStatus := ⟨2⟩
/-- Modelled from the spec: status `Failed`. -/
def WORKFLOW_EXECUTION_STATUS_FAILED : WorkflowExecutionStatus := ⟨3⟩
/-- Modelled from the spec: status `Canceled`. -/
def WORKFLOW_EXECUTION_STATUS_CANCELED : WorkflowExecutionStatus := ⟨4⟩
/-- Modelled from the spec: status `Terminated`. -/
def WORKFLOW_EXECUTION_STATUS_TERMINATED : WorkflowExecutionStatus := ⟨5⟩
/-- Modelled from the spec: status `ContinuedAsNew`. -/
def WORKFLOW_EXECUTION_STATUS_CONTINUED_AS_NEW : WorkflowExecutionStatus := ⟨6⟩
/-- Modelled from the spec: status `TimedOut`. -/
def WORKFLOW_EXECUTION_STATUS_TIMED_OUT : WorkflowExecutionStatus := ⟨7⟩

/-- Go type `enumspb.WorkflowIdReusePolicy` (an `int32`). -/
structure WorkflowIdReusePolicy where
  val : Int
  deriving DecidableEq, Repr

/-- Modelled from the spec: the declaration of the reuse-policy enum is not
under `src/`; the spec names `AllowDuplicate`, `AllowDuplicateFailedOnly`,
`RejectDuplicate` and `TerminateIfRunning`; the numbers are those of the
protobuf declaration (0 is the unspecified value). -/
def WORKFLOW_ID_REUSE_POLICY_UNSPECIFIED : WorkflowIdReusePolicy := ⟨0⟩
/-- Modelled from the spec: policy `AllowDuplicate`. -/
def WORKFLOW_ID_REUSE_POLICY_ALLOW_DUPLICATE : WorkflowIdReusePolicy := ⟨1⟩
/-- Modelled from the spec: policy `AllowDuplicateFailedOnly`. -/
def WORKFLOW_ID_REUSE_POLICY_ALLOW_DUPLICATE_FAILED_ONLY : WorkflowIdReusePolicy := ⟨2⟩
/-- Modelled from the spec: policy `RejectDuplicate`. -/
def WORKFLOW_ID_REUSE_POLICY_REJECT_DUPLICATE : WorkflowIdReusePolicy := ⟨3⟩
/-- Modelled from the spec: policy `TerminateIfRunning`. -/
def WORKFLOW_ID_REUSE_POLICY_TERMINATE_IF_RUNNING : WorkflowIdReusePolicy := ⟨4⟩

end enumspb

/-! ## Errors -/

namespace serviceerror

/-- The Go `error` values the file can return.  `WorkflowExecutionAlreadyStarted`
and `Internal` are built by the file itself; `NotFound` is the kind of
`consts.ErrWorkflowCompleted`; `Other` stands for any other error a collaborator
may hand back. -/
inductive Error where
  | WorkflowExecutionAlreadyStarted (Message StartRequestId RunId : String)
  | Internal (Message : String)
  | NotFound (Message : String)
  | Other (Message : String)
  deriving DecidableEq, Repr

/-- Go `serviceerror.NewWorkflowExecutionAlreadyStarted(message, startRequestId, runId)`. -/
def NewWorkflowExecutionAlreadyStarted (message startRequestId runId : String) : Error :=
  Error.WorkflowExecutionAlreadyStarted message startRequestId runId

/-- Go `serviceerror.NewInternal(message)`. -/
def NewInternal (message : String) : Error :=
  Error.Internal message

/-- Go `serviceerror.NewNotFound(message)`. -/
def NewNotFound (message : String) : Error :=
  Error.NotFound message

/-- The error is of kind `WorkflowExecutionAlreadyStarted`. -/
def Error.isAlreadyStarted : Error → Bool
  | Error.WorkflowExecutionAlreadyStarted _ _ _ => true
  | _ => false

/-- The error is of kind `Internal`. -/
def Error.isInternal : Error → Bool
  | Error.Internal _ => true
  | _ => false

/-- The message of an error. -/
def Error.message : Error → String
  | Error.WorkflowExecutionAlreadyStarted m _ _ => m
  | Error.Internal m => m
  | Error.NotFound m => m
  | Error.Other m => m

/-- The start-request ID carried by an already-started error. -/
def Error.startRequestId : Error → Option String
  | Error.WorkflowExecutionAlreadyStarted _ r _ => some r
  | _ => none

/-- The run ID carried by an already-started error. -/
def Error.runId : Error → Option String
  | Error.WorkflowExecutionAlreadyStarted _ _ r => some r
  | _ => none

end serviceerror

/-! ## `fmt.Sprintf` on string operands -/

namespace fmt

/-- What Go appends for operands no verb consumed: `%!(EXTRA string=a, string=b)`. -/
def extraOperands : List String → List Char
  | [] => []
  | a :: rest =>
    "%!(EXTRA ".toList ++
      (String.intercalate ", " ((a :: rest).map (fun s => "string=" ++ s))).toList ++ [')']

/-- The formatting loop of `fmt.Sprintf` for operands that print as strings, on
verbs without flags or width: `%v` and `%s` print the next operand, `%%` a
percent sign, a verb without operand prints `%!v(MISSING)`, a lone `%` at the
end `%!(NOVERB)`, another verb the bad-verb form.  The other verbs Go accepts
for a string (`q`, `x`, `X`, `T`, `p`) occur in no format of the file and are
not told apart from bad verbs. -/
def SprintfAux : List Char → List String → List Char
  | [], args => extraOperands args
  | [c], args =>
    if c = '%' then "%!(NOVERB)".toList ++ extraOperands args
    else c :: extraOperands args
  | c :: v :: rest, args =>
    if c = '%' then
      if v = '%' then '%' :: SprintfAux rest args
      else
        match args with
        | [] => ("%!".toList ++ [v] ++ "(MISSING)".toList) ++ SprintfAux rest []
        | a :: args' =>
          (if v = 'v' ∨ v = 's' then a.toList
           else "%!".toList ++ [v] ++ "(string=".toList ++ a.toList ++ [')'])
            ++ SprintfAux rest args'
    else c :: SprintfAux (v :: rest) args

/-- Go `fmt.Sprintf(format, a...)` for operands that print as the given strings. -/
def Sprintf (format : String) (args : List String) : String :=
  String.mk (SprintfAux format.toList args)

end fmt

/-! ## Constants and collaborators of other packages -/

namespace payloads

/-- Go `*commonpb.Payloads`, kept as the string it encodes. -/
structure Payloads where
  encoded : String
  deriving DecidableEq, Repr

/-- Modelled from the spec: `payloads.EncodeString` is not under `src/`; the
payload is kept as the string handed to the encoder. -/
def EncodeString (str : String) : Payloads := ⟨str⟩

end payloads

namespace consts

open enumspb

/-- Modelled from the spec: the table `consts.FailedWorkflowStatuses` is not under
`src/`; the spec classifies `Failed`, `TimedOut`, `Terminated` and `Canceled` as
the failed outcomes.  The Go map is kept as the list of its keys. -/
def FailedWorkflowStatuses : List WorkflowExecutionStatus :=
  [WORKFLOW_EXECUTION_STATUS_FAILED, WORKFLOW_EXECUTION_STATUS_CANCELED,
   WORKFLOW_EXECUTION_STATUS_TERMINATED, WORKFLOW_EXECUTION_STATUS_TIMED_OUT]

/-- Modelled from the spec: `consts.ErrWorkflowCompleted` is not under `src/`;
the "workflow already completed" condition, a not-found service error. -/
def ErrWorkflowCompleted : serviceerror.Error :=
  serviceerror.NewNotFound "workflow execution already completed"

/-- Modelled from the spec: `consts.IdentityHistoryService` is not under `src/`;
the fixed string identifying the history service as originator. -/
def IdentityHistoryService : String := "history-service"

end consts

namespace api

open enumsspb enumspb serviceerror

/-- The methods and functions of other packages that the file calls, for a
mutable-state type `MS`.  `TerminateWorkflow` returns the state it leaves and its
error; the two `String` methods are what `%v` prints for an enum value. -/
structure Env (MS : Type) where
  IsWorkflowExecutionRunning : MS → Bool
  TerminateWorkflow : MS → String → payloads.Payloads → String → Bool → MS × Option Error
  stateString : WorkflowExecutionState → String
  policyString : WorkflowIdReusePolicy → String

/-- Go interface `WorkflowLease`, reduced to the mutable state it hands out. -/
structure WorkflowLease (MS : Type) where
  mutableState : MS

/-- Go `workflowLease.GetMutableState()`. -/
def WorkflowLease.GetMutableState {MS : Type} (workflowLease : WorkflowLease MS) : MS :=
  workflowLease.mutableState

/-- Go struct `UpdateWorkflowAction`, the post-action directive. -/
structure UpdateWorkflowAction where
  Noop : Bool
  CreateWorkflowTask : Bool
  deriving DecidableEq, Repr

/-- Modelled from the spec: the variable `UpdateWorkflowWithoutWorkflowTask` is
not under `src/`; the directive to persist the mutation without scheduling a new
workflow task. -/
def UpdateWorkflowWithoutWorkflowTask : UpdateWorkflowAction :=
  { Noop := false, CreateWorkflowTask := false }

/-- What one invocation of an action leaves: the mutable state after the call
and the two Go results. -/
structure ActionResult (MS : Type) where
  mutableState : MS
  action : Option UpdateWorkflowAction
  err : Option Error

/-- Go type `UpdateWorkflowActionFunc`. -/
abbrev UpdateWorkflowActionFunc (MS : Type) := WorkflowLease MS → ActionResult MS

/-- Go `generateWorkflowAlreadyStartedError`. -/
def generateWorkflowAlreadyStartedError
    (errMsg createRequestID workflowID runID : String) : Error :=
  NewWorkflowExecutionAlreadyStarted
    (fmt.Sprintf errMsg [workflowID, runID])
    createRequestID
    runID

/-- The closure returned by Go `terminateWorkflowAction`. -/
def terminateWorkflowActionFunc {MS : Type} (d : Env MS) (newRunID : String) :
    UpdateWorkflowActionFunc MS :=
  fun workflowLease =>
    let mutableState := workflowLease.GetMutableState
    if !d.IsWorkflowExecutionRunning mutableState then
      { mutableState := mutableState, action := none, err := some consts.ErrWorkflowCompleted }
    else
      let r := d.TerminateWorkflow
        mutableState
        "TerminateIfRunning WorkflowIdReusePolicy"
        (payloads.EncodeString (fmt.Sprintf "terminated by new runID: %s" [newRunID]))
        consts.IdentityHistoryService
        false
      { mutableState := r.1, action := some UpdateWorkflowWithoutWorkflowTask, err := r.2 }

/-- Go `terminateWorkflowAction`. -/
def terminateWorkflowAction {MS : Type} (d : Env MS) (newRunID : String) :
    Option (UpdateWorkflowActionFunc MS) × Option Error :=
  (some (terminateWorkflowActionFunc d newRunID), none)

/-- Go `ResolveDuplicateWorkflowID`. -/
def ResolveDuplicateWorkflowID {MS : Type} (d : Env MS)
    (workflowID newRunID currentRunID : String)
    (currentState : WorkflowExecutionState)
    (currentStatus : WorkflowExecutionStatus)
    (currentStartRequestID : String)
    (wfIDReusePolicy : WorkflowIdReusePolicy) :
    Option (UpdateWorkflowActionFunc MS) × Option Error :=
  if currentState = WORKFLOW_EXECUTION_STATE_CREATED
      ∨ currentState = WORKFLOW_EXECUTION_STATE_RUNNING then
    if wfIDReusePolicy = WORKFLOW_ID_REUSE_POLICY_TERMINATE_IF_RUNNING then
      terminateWorkflowAction d newRunID
    else
      let msg := "Workflow execution is already running. WorkflowId: %v, RunId: %v."
      (none, some (generateWorkflowAlreadyStartedError msg currentStartRequestID workflowID currentRunID))
  else if currentState = WORKFLOW_EXECUTION_STATE_COMPLETED then
    if wfIDReusePolicy = WORKFLOW_ID_REUSE_POLICY_ALLOW_DUPLICATE
        ∨ wfIDReusePolicy = WORKFLOW_ID_REUSE_POLICY_TERMINATE_IF_RUNNING then
      (none, none)
    else if wfIDReusePolicy = WORKFLOW_ID_REUSE_POLICY_ALLOW_DUPLICATE_FAILED_ONLY then
      if ¬ currentStatus ∈ consts.FailedWorkflowStatuses then
        let msg := "Workflow execution already finished successfully. WorkflowId: %v, RunId: %v. Workflow Id reuse policy: allow duplicate workflow Id if last run failed."
        (none, some (generateWorkflowAlreadyStartedError msg currentStartRequestID workflowID currentRunID))
      else
        (none, none)
    else if wfIDReusePolicy = WORKFLOW_ID_REUSE_POLICY_REJECT_DUPLICATE then
      let msg := "Workflow execution already finished. WorkflowId: %v, RunId: %v. Workflow Id reuse policy: reject duplicate workflow Id."
      (none, some (generateWorkflowAlreadyStartedError msg currentStartRequestID workflowID currentRunID))
    else
      (none, some (NewInternal
        (fmt.Sprintf "Failed to process start workflow id reuse policy: %v." [d.policyString wfIDReusePolicy])))
  else
    (none, some (NewInternal
      (fmt.Sprintf "Failed to process workflow, workflow has invalid state: %v." [d.stateString currentState])))

/-! ## A concrete mutable state -/

/-- One recorded call of `workflow.TerminateWorkflow`. -/
structure TerminateRequest where
  terminateReason : String
  terminateDetails : payloads.Payloads
  terminateIdentity : String
  deleteAfterTerminate : Bool
  deriving DecidableEq, Repr

/-- Modelled from the spec: the mutable-state implementation is not under
`src/`; the in-memory projection of one run, reduced to its state, its status
and the terminations applied to it. -/
structure MutableState where
  state : WorkflowExecutionState
  status : WorkflowExecutionStatus
  terminations : List TerminateRequest
  deriving DecidableEq, Repr

/-- Modelled from the spec: `IsWorkflowExecutionRunning` is not under `src/`; an
execution is running while its state is `Created` or `Running`. -/
def MutableState.IsWorkflowExecutionRunning (ms : MutableState) : Bool :=
  decide (ms.state = WORKFLOW_EXECUTION_STATE_CREATED
    ∨ ms.state = WORKFLOW_EXECUTION_STATE_RUNNING)

/-- Modelled from the spec: `workflow.TerminateWorkflow` is not under `src/`; it
mutates the execution to `Terminated` (state `Completed`, status `Terminated`),
recording the reason, details, identity and flag it was given, and succeeds. -/
def MutableState.TerminateWorkflow (ms : MutableState) (terminateReason : String)
    (terminateDetails : payloads.Payloads) (terminateIdentity : String)
    (deleteAfterTerminate : Bool) : MutableState × Option Error :=
  ({ state := WORKFLOW_EXECUTION_STATE_COMPLETED,
     status := WORKFLOW_EXECUTION_STATUS_TERMINATED,
     terminations := ms.terminations ++
       [{ terminateReason := terminateReason, terminateDetails := terminateDetails,
          terminateIdentity := terminateIdentity,
          deleteAfterTerminate := deleteAfterTerminate }] },
   none)

/-- Modelled from the spec: the environment built from the mutable state above;
the `String` methods of the enums, which the spec does not describe, print the
number of the value. -/
def specEnv : Env MutableState where
  IsWorkflowExecutionRunning := MutableState.IsWorkflowExecutionRunning
  TerminateWorkflow := MutableState.TerminateWorkflow
  stateString := fun s => toString s.val
  policyString := fun p => toString p.val

end api


/-! ## Two callers and one lease -/

namespace api

open serviceerror

/-- Lines 98-106 of the closure of `terminateWorkflowAction`: the call of
`TerminateWorkflow` and the directive returned with its error. -/
def terminateStep {MS : Type} (d : Env MS) (newRunID : String) (mutableState : MS) :
    ActionResult MS :=
  let r := d.TerminateWorkflow
    mutableState
    "TerminateIfRunning WorkflowIdReusePolicy"
    (payloads.EncodeString (fmt.Sprintf "terminated by new runID: %s" [newRunID]))
    consts.IdentityHistoryService
    false
  { mutableState := r.1, action := some UpdateWorkflowWithoutWorkflowTask, err := r.2 }

/-- The two callers that resolved against the same run. -/
inductive Caller where
  | first
  | second
  deriving DecidableEq, Repr

/-- Where a caller stands in its acquire-lease, run-action, release sequence:
`leased` holds the lease with the mutable state the lease handed out and has not
yet invoked its action, `returned` has the two results of the action and still
holds the lease, `released` has given the lease back. -/
inductive Phase (MS : Type) where
  | waiting
  | leased (mutableState : MS)
  | returned (action : Option UpdateWorkflowAction) (err : Option Error)
  | released (action : Option UpdateWorkflowAction) (err : Option Error)
  deriving DecidableEq, Repr

/-- The caller is between acquiring and releasing the lease. -/
def Phase.holdsLease {MS : Type} : Phase MS → Bool
  | Phase.leased _ => true
  | Phase.returned _ _ => true
  | _ => false

/-- The two results of the action, once it has returned. -/
def Phase.outcome {MS : Type} :
    Phase MS → Option (Option UpdateWorkflowAction × Option Error)
  | Phase.returned action err => some (action, err)
  | Phase.released action err => some (action, err)
  | _ => none

/-- The action of the caller has returned a nil error: it terminated the run. -/
def Phase.terminated {MS : Type} (p : Phase MS) : Bool :=
  match p.outcome with
  | some (_, none) => true
  | _ => false

/-- Modelled from the spec: the lease provider is not under `src/`; one
execution with its mutable state, the holder of its exclusive lease and the
phase of each caller. -/
structure LeasedExecution (MS : Type) where
  mutableState : MS
  holder : Option Caller
  phase : Caller → Phase MS

/-- Modelled from the spec: both callers have resolved and hold nothing. -/
def LeasedExecution.initial {MS : Type} (mutableState : MS) : LeasedExecution MS :=
  { mutableState := mutableState, holder := none, phase := fun _ => Phase.waiting }

/-- Modelled from the spec: one step of caller `c`.  Acquiring the lease blocks
while another caller holds it, and hands out the mutable state of the execution
as it is then.  Under the lease the caller invokes the closure of
`terminateWorkflowAction`, built from its own `newRunID`, on that lease; the
mutable state the closure leaves becomes the state of the execution.  Then the
caller releases the lease. -/
def LeasedExecution.step {MS : Type} (d : Env MS) (newRunID : Caller → String)
    (s : LeasedExecution MS) (c : Caller) : LeasedExecution MS :=
  match s.phase c with
  | Phase.waiting =>
    if s.holder = none then
      { s with holder := some c,
               phase := Function.update s.phase c (Phase.leased s.mutableState) }
    else s
  | Phase.leased mutableState =>
    let r := terminateWorkflowActionFunc d (newRunID c) (WorkflowLease.mk mutableState)
    { s with mutableState := r.mutableState,
             phase := Function.update s.phase c (Phase.returned r.action r.err) }
  | Phase.returned action err =>
    { s with holder := none, phase := Function.update s.phase c (Phase.released action err) }
  | Phase.released _ _ => s

/-- Modelled from the spec: an interleaving is the list of the callers in the
order in which they take their steps. -/
def LeasedExecution.run {MS : Type} (d : Env MS) (newRunID : Caller → String)
    (s : LeasedExecution MS) (interleaving : List Caller) : LeasedExecution MS :=
  interleaving.foldl (LeasedExecution.step d newRunID) s

/-- What holds of every state the two callers can reach from the mutable state
`initialState` with the environment `specEnv`: the lease is held by exactly the
caller inside its critical section, the state a lease handed out is still the
state of the execution, an action that has returned has one of the two results
of the closure and has left the execution not running, at most one caller has
terminated it, and the execution carries one more termination than at the start
when a caller has terminated it and is untouched otherwise. -/
structure LeasedExecution.Invariant (initialState : MutableState)
    (s : LeasedExecution MutableState) : Prop where
  lease : ∀ c, (s.phase c).holdsLease = true ↔ s.holder = some c
  fresh : ∀ c mutableState, s.phase c = Phase.leased mutableState →
    mutableState = s.mutableState
  shape : ∀ c action err, (s.phase c).outcome = some (action, err) →
    (action = none ∧ err = some consts.ErrWorkflowCompleted)
    ∨ (action = some UpdateWorkflowWithoutWorkflowTask ∧ err = none)
  stopped : ∀ c, (s.phase c).outcome ≠ none →
    specEnv.IsWorkflowExecutionRunning s.mutableState = false
  single : ∀ c c', (s.phase c).terminated = true → (s.phase c').terminated = true → c = c'
  untouched : (∀ c, (s.phase c).terminated = false) → s.mutableState = initialState
  applied : ∀ c, (s.phase c).terminated = true →
    s.mutableState.terminations.length = initialState.terminations.length + 1

/-- The environment `specEnv` with a `TerminateWorkflow` that fails: it records
the call, leaves the state and the status of the execution as they are and
returns an internal error. -/
def failingEnv : Env MutableState :=
  { specEnv with
    TerminateWorkflow := fun ms terminateReason terminateDetails terminateIdentity
        deleteAfterTerminate =>
      ({ ms with
         terminations := ms.terminations ++
           [{ terminateReason := terminateReason, terminateDetails := terminateDetails,
              terminateIdentity := terminateIdentity,
              deleteAfterTerminate := deleteAfterTerminate }] },
       some (Error.Internal "unable to add terminated event")) }

end api

/-! ## Outcomes of the resolver and sequences of actions -/

namespace api

open serviceerror

/-- The kinds of outcome of `ResolveDuplicateWorkflowID`: proceed (nil, nil), an
already-started error, an internal error, a terminate action; `other` is any
other pair of results. -/
inductive OutcomeKind where
  | proceed
  | alreadyStarted
  | internal
  | terminateAction
  | other
  deriving DecidableEq, Repr

/-- The kind of a pair of results of `ResolveDuplicateWorkflowID`. -/
def outcomeKind {MS : Type} (r : Option (UpdateWorkflowActionFunc MS) × Option Error) :
    OutcomeKind :=
  match r with
  | (none, none) => OutcomeKind.proceed
  | (none, some (Error.WorkflowExecutionAlreadyStarted _ _ _)) => OutcomeKind.alreadyStarted
  | (none, some (Error.Internal _)) => OutcomeKind.internal
  | (some _, none) => OutcomeKind.terminateAction
  | _ => OutcomeKind.other

/-- The terminate actions built from the given `newRunID` values, invoked one
after the other on the same mutable state: the state they leave and, in order,
the directive and the error of each invocation. -/
def invokeInSequence {MS : Type} (d : Env MS) (mutableState : MS) :
    List String → MS × List (Option UpdateWorkflowAction × Option Error)
  | [] => (mutableState, [])
  | newRunID :: rest =>
    let r := terminateWorkflowActionFunc d newRunID (WorkflowLease.mk mutableState)
    let later := invokeInSequence d r.mutableState rest
    (later.1, (r.action, r.err) :: later.2)

end api

/-! ## Generated Thrift helpers

`.gen/go/cadence/workflowservice_getworkflowexecutionhistory.go` and
`.gen/go/matching/matchingservice_queryworkflow.go`.  A Go pointer is an option,
`none` standing for `nil`; the structs of package `shared`, which the two files
only pass around, are type parameters. -/

namespace shared

/-- The structs of package `shared` that the two generated files mention; the
package is not under `src/`, and the files never look inside these structs. -/
structure Types where
  GetWorkflowExecutionHistoryResponse : Type
  QueryWorkflowResponse : Type
  BadRequestError : Type
  InternalServiceError : Type
  EntityNotExistsError : Type
  ServiceBusyError : Type
  QueryFailedError : Type
  LimitExceededError : Type

/-- A non-nil Go `error` as the type switches of the helpers tell it apart: a
pointer of one of the exception types of package `shared`, which may be a nil
pointer (`none`), or a value of any other type, kept as its message. -/
inductive Error (T : Types) where
  | BadRequestError (e : Option T.BadRequestError)
  | InternalServiceError (e : Option T.InternalServiceError)
  | EntityNotExistsError (e : Option T.EntityNotExistsError)
  | ServiceBusyError (e : Option T.ServiceBusyError)
  | QueryFailedError (e : Option T.QueryFailedError)
  | LimitExceededError (e : Option T.LimitExceededError)
  | other (message : String)

/-- The error is a typed nil pointer: a non-nil `error` whose pointer is nil. -/
def Error.isNilPointer {T : Types} : Error T → Bool
  | Error.BadRequestError e => e.isNone
  | Error.InternalServiceError e => e.isNone
  | Error.EntityNotExistsError e => e.isNone
  | Error.ServiceBusyError e => e.isNone
  | Error.QueryFailedError e => e.isNone
  | Error.LimitExceededError e => e.isNone
  | Error.other _ => false

/-- Go `errors.New(text)`. -/
def errors_New {T : Types} (text : String) : Error T := Error.other text

/-- Go `fmt.Errorf(format, a...)` for operands that print as the given strings. -/
def fmt_Errorf {T : Types} (format : String) (args : List String) : Error T :=
  Error.other (fmt.Sprintf format args)

end shared

namespace wire

/-- Go `wire.Field`, over the type of wire values. -/
structure Field (V : Type) where
  ID : Int
  Value : V

/-- Go `wire.Value`: the zero value `wire.Value{}`, or a value of one of the
Thrift wire types. -/
inductive Value where
  | zero
  | bool (b : Bool)
  | i8 (n : Int)
  | double (bits : Nat)
  | i16 (n : Int)
  | i32 (n : Int)
  | i64 (n : Int)
  | binary (bytes : List Nat)
  | struct (fields : List (Field Value))
  | map (items : List (Value × Value))
  | set (items : List Value)
  | list (items : List Value)

/-- Go `wire.NewValueStruct(wire.Struct{Fields: fields})`. -/
def NewValueStruct (fields : List (Field Value)) : Value := Value.struct fields

end wire

namespace shared

/-- The `ToWire` methods of the structs of package `shared`, which the result
structs call on their fields; each returns a wire value and an error. -/
structure Encoders (T : Types) where
  GetWorkflowExecutionHistoryResponse_ToWire :
    T.GetWorkflowExecutionHistoryResponse → wire.Value × Option (Error T)
  QueryWorkflowResponse_ToWire : T.QueryWorkflowResponse → wire.Value × Option (Error T)
  BadRequestError_ToWire : T.BadRequestError → wire.Value × Option (Error T)
  InternalServiceError_ToWire : T.InternalServiceError → wire.Value × Option (Error T)
  EntityNotExistsError_ToWire : T.EntityNotExistsError → wire.Value × Option (Error T)
  ServiceBusyError_ToWire : T.ServiceBusyError → wire.Value × Option (Error T)
  QueryFailedError_ToWire : T.QueryFailedError → wire.Value × Option (Error T)
  LimitExceededError_ToWire : T.LimitExceededError → wire.Value × Option (Error T)

end shared

namespace wire

/-- One block of a generated `ToWire`:
`if v.X != nil { w, err = v.X.ToWire(); if err != nil { return w, err };
fields[i] = wire.Field{ID: id, Value: w}; i++ }`.  The fields written so far are
`fields[:i]`; an early return is the `error` case. -/
def putField {α E : Type} (toWire : α → Value × Option E) (x : Option α) (id : Int)
    (fields : List (Field Value)) : Except (Value × E) (List (Field Value)) :=
  match x with
  | none => Except.ok fields
  | some a =>
    match toWire a with
    | (w, some err) => Except.error (w, err)
    | (w, none) => Except.ok (fields ++ [{ ID := id, Value := w }])

/-- What a block of `ToWire` appends for a field: nothing for a nil field, the
encoded field under its Thrift ID for a set one. -/
def written {α E : Type} (toWire : α → Value × Option E) (x : Option α) (id : Int) :
    List (Field Value) :=
  match x with
  | none => []
  | some a => [{ ID := id, Value := (toWire a).1 }]

end wire

namespace cadence

open shared

/-- Go struct `WorkflowService_GetWorkflowExecutionHistory_Result`. -/
structure WorkflowService_GetWorkflowExecutionHistory_Result (T : Types) where
  Success : Option T.GetWorkflowExecutionHistoryResponse := none
  BadRequestError : Option T.BadRequestError := none
  InternalServiceError : Option T.InternalServiceError := none
  EntityNotExistError : Option T.EntityNotExistsError := none
  ServiceBusyError : Option T.ServiceBusyError := none

/-- Go `WorkflowService_GetWorkflowExecutionHistory_Helper.IsException`. -/
def WorkflowService_GetWorkflowExecutionHistory_Helper.IsException {T : Types}
    (err : Option (Error T)) : Bool :=
  match err with
  | some (Error.BadRequestError _) => true
  | some (Error.InternalServiceError _) => true
  | some (Error.EntityNotExistsError _) => true
  | some (Error.ServiceBusyError _) => true
  | _ => false

/-- Go `WorkflowService_GetWorkflowExecutionHistory_Helper.WrapResponse`. -/
def WorkflowService_GetWorkflowExecutionHistory_Helper.WrapResponse {T : Types}
    (success : Option T.GetWorkflowExecutionHistoryResponse) (err : Option (Error T)) :
    Option (WorkflowService_GetWorkflowExecutionHistory_Result T) × Option (Error T) :=
  match err with
  | none => (some { Success := success }, none)
  | some (Error.BadRequestError e) =>
    if e.isNone then
      (none, some (errors_New "WrapResponse received non-nil error type with nil value for WorkflowService_GetWorkflowExecutionHistory_Result.BadRequestError"))
    else (some { BadRequestError := e }, none)
  | some (Error.InternalServiceError e) =>
    if e.isNone then
      (none, some (errors_New "WrapResponse received non-nil error type with nil value for WorkflowService_GetWorkflowExecutionHistory_Result.InternalServiceError"))
    else (some { InternalServiceError := e }, none)
  | some (Error.EntityNotExistsError e) =>
    if e.isNone then
      (none, some (errors_New "WrapResponse received non-nil error type with nil value for WorkflowService_GetWorkflowExecutionHistory_Result.EntityNotExistError"))
    else (some { EntityNotExistError := e }, none)
  | some (Error.ServiceBusyError e) =>
    if e.isNone then
      (none, some (errors_New "WrapResponse received non-nil error type with nil value for WorkflowService_GetWorkflowExecutionHistory_Result.ServiceBusyError"))
    else (some { ServiceBusyError := e }, none)
  | some other => (none, some other)

/-- Go `WorkflowService_GetWorkflowExecutionHistory_Helper.UnwrapResponse`, on a
non-nil result. -/
def WorkflowService_GetWorkflowExecutionHistory_Helper.UnwrapResponse {T : Types}
    (result : WorkflowService_GetWorkflowExecutionHistory_Result T) :
    Option T.GetWorkflowExecutionHistoryResponse × Option (Error T) :=
  if result.BadRequestError.isSome then
    (none, some (Error.BadRequestError result.BadRequestError))
  else if result.InternalServiceError.isSome then
    (none, some (Error.InternalServiceError result.InternalServiceError))
  else if result.EntityNotExistError.isSome then
    (none, some (Error.EntityNotExistsError result.EntityNotExistError))
  else if result.ServiceBusyError.isSome then
    (none, some (Error.ServiceBusyError result.ServiceBusyError))
  else if result.Success.isSome then
    (result.Success, none)
  else
    (none, some (errors_New "expected a non-void result"))

/-- The count of the non-nil fields, as `FromWire` computes it (lines 462-477). -/
def WorkflowService_GetWorkflowExecutionHistory_Result.count {T : Types}
    (v : WorkflowService_GetWorkflowExecutionHistory_Result T) : Nat :=
  (if v.Success.isSome then 1 else 0)
  + (if v.BadRequestError.isSome then 1 else 0)
  + (if v.InternalServiceError.isSome then 1 else 0)
  + (if v.EntityNotExistError.isSome then 1 else 0)
  + (if v.ServiceBusyError.isSome then 1 else 0)

/-- Go `(*WorkflowService_GetWorkflowExecutionHistory_Result).ToWire`. -/
def WorkflowService_GetWorkflowExecutionHistory_Result.ToWire {T : Types}
    (enc : Encoders T) (v : WorkflowService_GetWorkflowExecutionHistory_Result T) :
    wire.Value × Option (Error T) :=
  let written : Except (wire.Value × Error T) (List (wire.Field wire.Value)) := do
    let fields : List (wire.Field wire.Value) := []
    let fields ← wire.putField enc.GetWorkflowExecutionHistoryResponse_ToWire v.Success 0 fields
    let fields ← wire.putField enc.BadRequestError_ToWire v.BadRequestError 1 fields
    let fields ← wire.putField enc.InternalServiceError_ToWire v.InternalServiceError 2 fields
    let fields ← wire.putField enc.EntityNotExistsError_ToWire v.EntityNotExistError 3 fields
    let fields ← wire.putField enc.ServiceBusyError_ToWire v.ServiceBusyError 4 fields
    pure fields
  match written with
  | Except.error (w, err) => (w, some err)
  | Except.ok fields =>
    if fields.length ≠ 1 then
      (wire.Value.zero,
        some (fmt_Errorf "WorkflowService_GetWorkflowExecutionHistory_Result should have exactly one field: got %v fields"
          [toString fields.length]))
    else
      (wire.NewValueStruct fields, none)

end cadence

namespace matching

open shared

/-- Go struct `MatchingService_QueryWorkflow_Result`. -/
structure MatchingService_QueryWorkflow_Result (T : Types) where
  Success : Option T.QueryWorkflowResponse := none
  BadRequestError : Option T.BadRequestError := none
  InternalServiceError : Option T.InternalServiceError := none
  EntityNotExistError : Option T.EntityNotExistsError := none
  QueryFailedError : Option T.QueryFailedError := none
  LimitExceededError : Option T.LimitExceededError := none
  ServiceBusyError : Option T.ServiceBusyError := none

/-- Go `MatchingService_QueryWorkflow_Helper.IsException`. -/
def MatchingService_QueryWorkflow_Helper.IsException {T : Types}
    (err : Option (Error T)) : Bool :=
  match err with
  | some (Error.BadRequestError _) => true
  | some (Error.InternalServiceError _) => true
  | some (Error.EntityNotExistsError _) => true
  | some (Error.QueryFailedError _) => true
  | some (Error.LimitExceededError _) => true
  | some (Error.ServiceBusyError _) => true
  | _ => false

/-- Go `MatchingService_QueryWorkflow_Helper.WrapResponse`. -/
def MatchingService_QueryWorkflow_Helper.WrapResponse {T : Types}
    (success : Option T.QueryWorkflowResponse) (err : Option (Error T)) :
    Option (MatchingService_QueryWorkflow_Result T) × Option (Error T) :=
  match err with
  | none => (some { Success := success }, none)
  | some (Error.BadRequestError e) =>
    if e.isNone then
      (none, some (errors_New "WrapResponse received non-nil error type with nil value for MatchingService_QueryWorkflow_Result.BadRequestError"))
    else (some { BadRequestError := e }, none)
  | some (Error.InternalServiceError e) =>
    if e.isNone then
      (none, some (errors_New "WrapResponse received non-nil error type with nil value for MatchingService_QueryWorkflow_Result.InternalServiceError"))
    else (some { InternalServiceError := e }, none)
  | some (Error.EntityNotExistsError e) =>
    if e.isNone then
      (none, some (errors_New "WrapResponse received non-nil error type with nil value for MatchingService_QueryWorkflow_Result.EntityNotExistError"))
    else (some { EntityNotExistError := e }, none)
  | some (Error.QueryFailedError e) =>
    if e.isNone then
      (none, some (errors_New "WrapResponse received non-nil error type with nil value for MatchingService_QueryWorkflow_Result.QueryFailedError"))
    else (some { QueryFailedError := e }, none)
  | some (Error.LimitExceededError e) =>
    if e.isNone then
      (none, some (errors_New "WrapResponse received non-nil error type with nil value for MatchingService_QueryWorkflow_Result.LimitExceededError"))
    else (some { LimitExceededError := e }, none)
  | some (Error.ServiceBusyError e) =>
    if e.isNone then
      (none, some (errors_New "WrapResponse received non-nil error type with nil value for MatchingService_QueryWorkflow_Result.ServiceBusyError"))
    else (some { ServiceBusyError := e }, none)
  | some other => (none, some other)

/-- Go `MatchingService_QueryWorkflow_Helper.UnwrapResponse`, on a non-nil
result. -/
def MatchingService_QueryWorkflow_Helper.UnwrapResponse {T : Types}
    (result : MatchingService_QueryWorkflow_Result T) :
    Option T.QueryWorkflowResponse × Option (Error T) :=
  if result.BadRequestError.isSome then
    (none, some (Error.BadRequestError result.BadRequestError))
  else if result.InternalServiceError.isSome then
    (none, some (Error.InternalServiceError result.InternalServiceError))
  else if result.EntityNotExistError.isSome then
    (none, some (Error.EntityNotExistsError result.EntityNotExistError))
  else if result.QueryFailedError.isSome then
    (none, some (Error.QueryFailedError result.QueryFailedError))
  else if result.LimitExceededError.isSome then
    (none, some (Error.LimitExceededError result.LimitExceededError))
  else if result.ServiceBusyError.isSome then
    (none, some (Error.ServiceBusyError result.ServiceBusyError))
  else if result.Success.isSome then
    (result.Success, none)
  else
    (none, some (errors_New "expected a non-void result"))

/-- The count of the non-nil fields, as `FromWire` computes it (lines 518-539). -/
def MatchingService_QueryWorkflow_Result.count {T : Types}
    (v : MatchingService_QueryWorkflow_Result T) : Nat :=
  (if v.Success.isSome then 1 else 0)
  + (if v.BadRequestError.isSome then 1 else 0)
  + (if v.InternalServiceError.isSome then 1 else 0)
  + (if v.EntityNotExistError.isSome then 1 else 0)
  + (if v.QueryFailedError.isSome then 1 else 0)
  + (if v.LimitExceededError.isSome then 1 else 0)
  + (if v.ServiceBusyError.isSome then 1 else 0)

/-- Go `(*MatchingService_QueryWorkflow_Result).ToWire`. -/
def MatchingService_QueryWorkflow_Result.ToWire {T : Types}
    (enc : Encoders T) (v : MatchingService_QueryWorkflow_Result T) :
    wire.Value × Option (Error T) :=
  let written : Except (wire.Value × Error T) (List (wire.Field wire.Value)) := do
    let fields : List (wire.Field wire.Value) := []
    let fields ← wire.putField enc.QueryWorkflowResponse_ToWire v.Success 0 fields
    let fields ← wire.putField enc.BadRequestError_ToWire v.BadRequestError 1 fields
    let fields ← wire.putField enc.InternalServiceError_ToWire v.InternalServiceError 2 fields
    let fields ← wire.putField enc.EntityNotExistsError_ToWire v.EntityNotExistError 3 fields
    let fields ← wire.putField enc.QueryFailedError_ToWire v.QueryFailedError 4 fields
    let fields ← wire.putField enc.LimitExceededError_ToWire v.LimitExceededError 5 fields
    let fields ← wire.putField enc.ServiceBusyError_ToWire v.ServiceBusyError 6 fields
    pure fields
  match written with
  | Except.error (w, err) => (w, some err)
  | Except.ok fields =>
    if fields.length ≠ 1 then
      (wire.Value.zero,
        some (fmt_Errorf "MatchingService_QueryWorkflow_Result should have exactly one field: got %v fields"
          [toString fields.length]))
    else
      (wire.NewValueStruct fields, none)

end matching

namespace shared

/-- A sample instance of the structs of package `shared`, every one kept as a
string, on which the helpers can be evaluated. -/
def sampleTypes : Types :=
  { GetWorkflowExecutionHistoryResponse := String
    QueryWorkflowResponse := String
    BadRequestError := String
    InternalServiceError := String
    EntityNotExistsError := String
    ServiceBusyError := String
    QueryFailedError := String
    LimitExceededError := String }

/-- Sample `ToWire` methods for `sampleTypes`: each string becomes a struct with
one binary field and the method succeeds. -/
def sampleEncoders : Encoders sampleTypes :=
  let encode : String → wire.Value × Option (Error sampleTypes) := fun str =>
    (wire.Value.struct
      [{ ID := 1, Value := wire.Value.binary (str.toList.map Char.toNat) }], none)
  { GetWorkflowExecutionHistoryResponse_ToWire := encode
    QueryWorkflowResponse_ToWire := encode
    BadRequestError_ToWire := encode
    InternalServiceError_ToWire := encode
    EntityNotExistsError_ToWire := encode
    ServiceBusyError_ToWire := encode
    QueryFailedError_ToWire := encode
    LimitExceededError_ToWire := encode }

end shared

/-! ## Generated Thrift helpers: reading from the wire -/

namespace wire

/-- Go `wire.TStruct`, the type tag of struct values. -/
def TStruct : Nat := 12

/-- Go `(wire.Value).Type()`: the type tag of the value, 0 for the zero value. -/
def Value.typ : Value → Nat
  | Value.zero => 0
  | Value.bool _ => 2
  | Value.i8 _ => 3
  | Value.double _ => 4
  | Value.i16 _ => 6
  | Value.i32 _ => 8
  | Value.i64 _ => 10
  | Value.binary _ => 11
  | Value.struct _ => 12
  | Value.map _ => 13
  | Value.set _ => 14
  | Value.list _ => 15

/-- Go `w.GetStruct().Fields`: the fields of a struct value, none for a value of
another type. -/
def Value.GetStruct : Value → List (Field Value)
  | Value.struct fields => fields
  | _ => []

/-- The generated readers `_X_Read`:
`var v X; err := v.FromWire(w); return &v, err`.  The pointer returned is never
nil.  The readers of the two files and those generated into the other files of
the packages have this one shape. -/
def Read {α E : Type} (fromWire : Value → α × Option E) (w : Value) : Option α × Option E :=
  let r := fromWire w
  (some r.1, r.2)

/-- The loop `for _, field := range w.GetStruct().Fields` of a generated
`FromWire`, which returns as soon as the body yields an error. -/
def forFields {V E : Type} (body : V → Field Value → V × Option E) :
    V → List (Field Value) → V × Option E
  | v, [] => (v, none)
  | v, field :: rest =>
    match body v field with
    | (v', some err) => (v', some err)
    | (v', none) => forFields body v' rest

/-- The field ID occurs in the wire value with a value of type `TStruct`. -/
def Value.occurs (w : Value) (id : Int) : Bool :=
  w.GetStruct.any (fun field => decide (field.ID = id) && decide (field.Value.typ = TStruct))

end wire

namespace shared

/-- The `FromWire` methods of the structs of package `shared`, called on a
fresh struct: the struct read and the error. -/
structure Decoders (T : Types) where
  GetWorkflowExecutionHistoryResponse_FromWire :
    wire.Value → T.GetWorkflowExecutionHistoryResponse × Option (Error T)
  QueryWorkflowResponse_FromWire : wire.Value → T.QueryWorkflowResponse × Option (Error T)
  BadRequestError_FromWire : wire.Value → T.BadRequestError × Option (Error T)
  InternalServiceError_FromWire : wire.Value → T.InternalServiceError × Option (Error T)
  EntityNotExistsError_FromWire : wire.Value → T.EntityNotExistsError × Option (Error T)
  ServiceBusyError_FromWire : wire.Value → T.ServiceBusyError × Option (Error T)
  QueryFailedError_FromWire : wire.Value → T.QueryFailedError × Option (Error T)
  LimitExceededError_FromWire : wire.Value → T.LimitExceededError × Option (Error T)

/-- The `Equals` methods of the structs of package `shared`. -/
structure Comparers (T : Types) where
  GetWorkflowExecutionHistoryResponse_Equals :
    T.GetWorkflowExecutionHistoryResponse → T.GetWorkflowExecutionHistoryResponse → Bool
  QueryWorkflowResponse_Equals : T.QueryWorkflowResponse → T.QueryWorkflowResponse → Bool
  BadRequestError_Equals : T.BadRequestError → T.BadRequestError → Bool
  InternalServiceError_Equals : T.InternalServiceError → T.InternalServiceError → Bool
  EntityNotExistsError_Equals : T.EntityNotExistsError → T.EntityNotExistsError → Bool
  ServiceBusyError_Equals : T.ServiceBusyError → T.ServiceBusyError → Bool
  QueryFailedError_Equals : T.QueryFailedError → T.QueryFailedError → Bool
  LimitExceededError_Equals : T.LimitExceededError → T.LimitExceededError → Bool

/-- One clause of a generated `Equals`:
`(v.X == nil && rhs.X == nil) || (v.X != nil && rhs.X != nil && v.X.Equals(rhs.X))`. -/
def equalsPointer {α : Type} (equals : α → α → Bool) (x y : Option α) : Bool :=
  match x, y with
  | none, none => true
  | some a, some b => equals a b
  | _, _ => false

end shared

namespace cadence

open shared

/-- Go struct `WorkflowService_GetWorkflowExecutionHistory_Args`; the request struct, of package `shared`, is
the type parameter `Req`. -/
structure WorkflowService_GetWorkflowExecutionHistory_Args (Req : Type) where
  GetRequest : Option Req := none

/-- Go `(*WorkflowService_GetWorkflowExecutionHistory_Args).ToWire`. -/
def WorkflowService_GetWorkflowExecutionHistory_Args.ToWire {T : Types} {Req : Type}
    (toWire : Req → wire.Value × Option (Error T)) (v : WorkflowService_GetWorkflowExecutionHistory_Args Req) :
    wire.Value × Option (Error T) :=
  let written : Except (wire.Value × Error T) (List (wire.Field wire.Value)) := do
    let fields : List (wire.Field wire.Value) := []
    let fields ← wire.putField toWire v.GetRequest 1 fields
    pure fields
  match written with
  | Except.error (w, err) => (w, some err)
  | Except.ok fields => (wire.NewValueStruct fields, none)

/-- Go `(*WorkflowService_GetWorkflowExecutionHistory_Args).FromWire`: the struct after the call and the error. -/
def WorkflowService_GetWorkflowExecutionHistory_Args.FromWire {T : Types} {Req : Type}
    (fromWire : wire.Value → Req × Option (Error T)) (v : WorkflowService_GetWorkflowExecutionHistory_Args Req)
    (w : wire.Value) : WorkflowService_GetWorkflowExecutionHistory_Args Req × Option (Error T) :=
  wire.forFields
    (fun v field =>
      if field.ID = 1 then
        if field.Value.typ = wire.TStruct then
          let r := wire.Read fromWire field.Value
          ({ v with GetRequest := r.1 }, r.2)
        else (v, none)
      else (v, none))
    v w.GetStruct

/-- Go `(*WorkflowService_GetWorkflowExecutionHistory_Args).Equals`. -/
def WorkflowService_GetWorkflowExecutionHistory_Args.Equals {Req : Type} (equals : Req → Req → Bool)
    (v rhs : WorkflowService_GetWorkflowExecutionHistory_Args Req) : Bool :=
  if !(equalsPointer equals v.GetRequest rhs.GetRequest) then false
  else true

/-- The body of the loop of
`(*WorkflowService_GetWorkflowExecutionHistory_Result).FromWire`: the
`switch field.ID`. -/
def WorkflowService_GetWorkflowExecutionHistory_Result.readField {T : Types}
    (dec : Decoders T) (v : WorkflowService_GetWorkflowExecutionHistory_Result T)
    (field : wire.Field wire.Value) :
    WorkflowService_GetWorkflowExecutionHistory_Result T × Option (Error T) :=
  if field.ID = 0 then
    if field.Value.typ = wire.TStruct then
      let r := wire.Read dec.GetWorkflowExecutionHistoryResponse_FromWire field.Value
      ({ v with Success := r.1 }, r.2)
    else (v, none)
  else if field.ID = 1 then
    if field.Value.typ = wire.TStruct then
      let r := wire.Read dec.BadRequestError_FromWire field.Value
      ({ v with BadRequestError := r.1 }, r.2)
    else (v, none)
  else if field.ID = 2 then
    if field.Value.typ = wire.TStruct then
      let r := wire.Read dec.InternalServiceError_FromWire field.Value
      ({ v with InternalServiceError := r.1 }, r.2)
    else (v, none)
  else if field.ID = 3 then
    if field.Value.typ = wire.TStruct then
      let r := wire.Read dec.EntityNotExistsError_FromWire field.Value
      ({ v with EntityNotExistError := r.1 }, r.2)
    else (v, none)
  else if field.ID = 4 then
    if field.Value.typ = wire.TStruct then
      let r := wire.Read dec.ServiceBusyError_FromWire field.Value
      ({ v with ServiceBusyError := r.1 }, r.2)
    else (v, none)
  else (v, none)

/-- Go `(*WorkflowService_GetWorkflowExecutionHistory_Result).FromWire`: the
struct after the call and the error. -/
def WorkflowService_GetWorkflowExecutionHistory_Result.FromWire {T : Types}
    (dec : Decoders T) (v : WorkflowService_GetWorkflowExecutionHistory_Result T)
    (w : wire.Value) :
    WorkflowService_GetWorkflowExecutionHistory_Result T × Option (Error T) :=
  match wire.forFields (WorkflowService_GetWorkflowExecutionHistory_Result.readField dec)
      v w.GetStruct with
  | (v', some err) => (v', some err)
  | (v', none) =>
    if v'.count ≠ 1 then
      (v', some (fmt_Errorf "WorkflowService_GetWorkflowExecutionHistory_Result should have exactly one field: got %v fields"
        [toString v'.count]))
    else (v', none)

/-- Go `(*WorkflowService_GetWorkflowExecutionHistory_Result).Equals`. -/
def WorkflowService_GetWorkflowExecutionHistory_Result.Equals {T : Types}
    (eq : Comparers T) (v rhs : WorkflowService_GetWorkflowExecutionHistory_Result T) :
    Bool :=
  if !(equalsPointer eq.GetWorkflowExecutionHistoryResponse_Equals v.Success rhs.Success) then
    false
  else if !(equalsPointer eq.BadRequestError_Equals v.BadRequestError rhs.BadRequestError) then
    false
  else if !(equalsPointer eq.InternalServiceError_Equals v.InternalServiceError
      rhs.InternalServiceError) then
    false
  else if !(equalsPointer eq.EntityNotExistsError_Equals v.EntityNotExistError
      rhs.EntityNotExistError) then
    false
  else if !(equalsPointer eq.ServiceBusyError_Equals v.ServiceBusyError
      rhs.ServiceBusyError) then
    false
  else true

end cadence

namespace matching

open shared

/-- Go struct `MatchingService_QueryWorkflow_Args`; the request struct, of another file of the package, is
the type parameter `Req`. -/
structure MatchingService_QueryWorkflow_Args (Req : Type) where
  QueryRequest : Option Req := none

/-- Go `(*MatchingService_QueryWorkflow_Args).ToWire`. -/
def MatchingService_QueryWorkflow_Args.ToWire {T : Types} {Req : Type}
    (toWire : Req → wire.Value × Option (Error T)) (v : MatchingService_QueryWorkflow_Args Req) :
    wire.Value × Option (Error T) :=
  let written : Except (wire.Value × Error T) (List (wire.Field wire.Value)) := do
    let fields : List (wire.Field wire.Value) := []
    let fields ← wire.putField toWire v.QueryRequest 1 fields
    pure fields
  match written with
  | Except.error (w, err) => (w, some err)
  | Except.ok fields => (wire.NewValueStruct fields, none)

/-- Go `(*MatchingService_QueryWorkflow_Args).FromWire`: the struct after the call and the error. -/
def MatchingService_QueryWorkflow_Args.FromWire {T : Types} {Req : Type}
    (fromWire : wire.Value → Req × Option (Error T)) (v : MatchingService_QueryWorkflow_Args Req)
    (w : wire.Value) : MatchingService_QueryWorkflow_Args Req × Option (Error T) :=
  wire.forFields
    (fun v field =>
      if field.ID = 1 then
        if field.Value.typ = wire.TStruct then
          let r := wire.Read fromWire field.Value
          ({ v with QueryRequest := r.1 }, r.2)
        else (v, none)
      else (v, none))
    v w.GetStruct

/-- Go `(*MatchingService_QueryWorkflow_Args).Equals`. -/
def MatchingService_QueryWorkflow_Args.Equals {Req : Type} (equals : Req → Req → Bool)
    (v rhs : MatchingService_QueryWorkflow_Args Req) : Bool :=
  if !(equalsPointer equals v.QueryRequest rhs.QueryRequest) then false
  else true

/-- The body of the loop of `(*MatchingService_QueryWorkflow_Result).FromWire`:
the `switch field.ID`. -/
def MatchingService_QueryWorkflow_Result.readField {T : Types}
    (dec : Decoders T) (v : MatchingService_QueryWorkflow_Result T)
    (field : wire.Field wire.Value) :
    MatchingService_QueryWorkflow_Result T × Option (Error T) :=
  if field.ID = 0 then
    if field.Value.typ = wire.TStruct then
      let r := wire.Read dec.QueryWorkflowResponse_FromWire field.Value
      ({ v with Success := r.1 }, r.2)
    else (v, none)
  else if field.ID = 1 then
    if field.Value.typ = wire.TStruct then
      let r := wire.Read dec.BadRequestError_FromWire field.Value
      ({ v with BadRequestError := r.1 }, r.2)
    else (v, none)
  else if field.ID = 2 then
    if field.Value.typ = wire.TStruct then
      let r := wire.Read dec.InternalServiceError_FromWire field.Value
      ({ v with InternalServiceError := r.1 }, r.2)
    else (v, none)
  else if field.ID = 3 then
    if field.Value.typ = wire.TStruct then
      let r := wire.Read dec.EntityNotExistsError_FromWire field.Value
      ({ v with EntityNotExistError := r.1 }, r.2)
    else (v, none)
  else if field.ID = 4 then
    if field.Value.typ = wire.TStruct then
      let r := wire.Read dec.QueryFailedError_FromWire field.Value
      ({ v with QueryFailedError := r.1 }, r.2)
    else (v, none)
  else if field.ID = 5 then
    if field.Value.typ = wire.TStruct then
      let r := wire.Read dec.LimitExceededError_FromWire field.Value
      ({ v with LimitExceededError := r.1 }, r.2)
    else (v, none)
  else if field.ID = 6 then
    if field.Value.typ = wire.TStruct then
      let r := wire.Read dec.ServiceBusyError_FromWire field.Value
      ({ v with ServiceBusyError := r.1 }, r.2)
    else (v, none)
  else (v, none)

/-- Go `(*MatchingService_QueryWorkflow_Result).FromWire`: the struct after the
call and the error. -/
def MatchingService_QueryWorkflow_Result.FromWire {T : Types}
    (dec : Decoders T) (v : MatchingService_QueryWorkflow_Result T) (w : wire.Value) :
    MatchingService_QueryWorkflow_Result T × Option (Error T) :=
  match wire.forFields (MatchingService_QueryWorkflow_Result.readField dec)
      v w.GetStruct with
  | (v', some err) => (v', some err)
  | (v', none) =>
    if v'.count ≠ 1 then
      (v', some (fmt_Errorf "MatchingService_QueryWorkflow_Result should have exactly one field: got %v fields"
        [toString v'.count]))
    else (v', none)

/-- Go `(*MatchingService_QueryWorkflow_Result).Equals`. -/
def MatchingService_QueryWorkflow_Result.Equals {T : Types}
    (eq : Comparers T) (v rhs : MatchingService_QueryWorkflow_Result T) : Bool :=
  if !(equalsPointer eq.QueryWorkflowResponse_Equals v.Success rhs.Success) then false
  else if !(equalsPointer eq.BadRequestError_Equals v.BadRequestError rhs.BadRequestError) then
    false
  else if !(equalsPointer eq.InternalServiceError_Equals v.InternalServiceError
      rhs.InternalServiceError) then
    false
  else if !(equalsPointer eq.EntityNotExistsError_Equals v.EntityNotExistError
      rhs.EntityNotExistError) then
    false
  else if !(equalsPointer eq.QueryFailedError_Equals v.QueryFailedError
      rhs.QueryFailedError) then
    false
  else if !(equalsPointer eq.LimitExceededError_Equals v.LimitExceededError
      rhs.LimitExceededError) then
    false
  else if !(equalsPointer eq.ServiceBusyError_Equals v.ServiceBusyError
      rhs.ServiceBusyError) then
    false
  else true

end matching

namespace shared

/-- The value `x` of a nested struct round-trips: its `ToWire` succeeds with a
struct value, and `FromWire` of that value succeeds with a struct that `Equals`
`x`. -/
def roundTrips {α E : Type} (toWire : α → wire.Value × Option E)
    (fromWire : wire.Value → α × Option E) (equals : α → α → Bool) (x : α) : Prop :=
  (toWire x).2 = none ∧ (toWire x).1.typ = wire.TStruct
  ∧ (fromWire (toWire x).1).2 = none ∧ equals (fromWire (toWire x).1).1 x = true

/-- Every struct of package `shared` round-trips through its `ToWire` and
`FromWire`. -/
def RoundTrip {T : Types} (enc : Encoders T) (dec : Decoders T) (eq : Comparers T) : Prop :=
  (∀ x, roundTrips enc.GetWorkflowExecutionHistoryResponse_ToWire
      dec.GetWorkflowExecutionHistoryResponse_FromWire
      eq.GetWorkflowExecutionHistoryResponse_Equals x)
  ∧ (∀ x, roundTrips enc.QueryWorkflowResponse_ToWire dec.QueryWorkflowResponse_FromWire
      eq.QueryWorkflowResponse_Equals x)
  ∧ (∀ x, roundTrips enc.BadRequestError_ToWire dec.BadRequestError_FromWire
      eq.BadRequestError_Equals x)
  ∧ (∀ x, roundTrips enc.InternalServiceError_ToWire dec.InternalServiceError_FromWire
      eq.InternalServiceError_Equals x)
  ∧ (∀ x, roundTrips enc.EntityNotExistsError_ToWire dec.EntityNotExistsError_FromWire
      eq.EntityNotExistsError_Equals x)
  ∧ (∀ x, roundTrips enc.ServiceBusyError_ToWire dec.ServiceBusyError_FromWire
      eq.ServiceBusyError_Equals x)
  ∧ (∀ x, roundTrips enc.QueryFailedError_ToWire dec.QueryFailedError_FromWire
      eq.QueryFailedError_Equals x)
  ∧ (∀ x, roundTrips enc.LimitExceededError_ToWire dec.LimitExceededError_FromWire
      eq.LimitExceededError_Equals x)

/-- Sample `FromWire` methods for `sampleTypes`, reading back what
`sampleEncoders` writes and failing on any other value. -/
def sampleDecoders : Decoders sampleTypes :=
  let decode : wire.Value → String × Option (Error sampleTypes) := fun w =>
    match w with
    | wire.Value.struct [{ ID := _, Value := wire.Value.binary bytes }] =>
      (String.mk (bytes.map Char.ofNat), none)
    | _ => ("", some (Error.other "unexpected wire value"))
  { GetWorkflowExecutionHistoryResponse_FromWire := decode
    QueryWorkflowResponse_FromWire := decode
    BadRequestError_FromWire := decode
    InternalServiceError_FromWire := decode
    EntityNotExistsError_FromWire := decode
    ServiceBusyError_FromWire := decode
    QueryFailedError_FromWire := decode
    LimitExceededError_FromWire := decode }

/-- Sample `Equals` methods for `sampleTypes`: equality of the strings. -/
def sampleComparers : Comparers sampleTypes :=
  let equals : String → String → Bool := fun a b => decide (a = b)
  { GetWorkflowExecutionHistoryResponse_Equals := equals
    QueryWorkflowResponse_Equals := equals
    BadRequestError_Equals := equals
    InternalServiceError_Equals := equals
    EntityNotExistsError_Equals := equals
    ServiceBusyError_Equals := equals
    QueryFailedError_Equals := equals
    LimitExceededError_Equals := equals }

end shared

/-! ## Visibility query interceptors

`common/persistence/visibility/store/elasticsearch/query_interceptors.go`:
`parseHHMMSSDuration`, `parseSystemSearchAttributeValues` and
`validateValueType`.  The functions of the Go library and of other packages that
they call are fields of an environment. -/

namespace int64

/-- The value of a Go `int64` expression whose exact value is `x`: arithmetic
wraps around modulo 2^64. -/
def wrap (x : Int) : Int :=
  (x + 9223372036854775808) % 18446744073709551616 - 9223372036854775808

/-- Go `a * b` on `int64`. -/
def mul (a b : Int) : Int := wrap (a * b)

/-- Go `a + b` on `int64`. -/
def add (a b : Int) : Int := wrap (a + b)

end int64

namespace time

/-- Go `time.Second`, in nanoseconds. -/
def Second : Int := 1000000000

/-- Go `time.Minute`, in nanoseconds. -/
def Minute : Int := 60 * Second

/-- Go `time.Hour`, in nanoseconds. -/
def Hour : Int := 60 * Minute

end time

namespace enumspb

/-- Go type `enumspb.IndexedValueType` (an `int32`). -/
structure IndexedValueType where
  val : Int
  deriving DecidableEq, Repr

/-- Modelled from the spec: the declaration of the indexed-value-type enum is
not under `src/` and the spec does not describe it; the constants carry the
numbers of the protobuf declaration. -/
def INDEXED_VALUE_TYPE_UNSPECIFIED : IndexedValueType := ⟨0⟩
/-- Modelled from the spec: indexed value type `Text`. -/
def INDEXED_VALUE_TYPE_TEXT : IndexedValueType := ⟨1⟩
/-- Modelled from the spec: indexed value type `Keyword`. -/
def INDEXED_VALUE_TYPE_KEYWORD : IndexedValueType := ⟨2⟩
/-- Modelled from the spec: indexed value type `Int`. -/
def INDEXED_VALUE_TYPE_INT : IndexedValueType := ⟨3⟩
/-- Modelled from the spec: indexed value type `Double`. -/
def INDEXED_VALUE_TYPE_DOUBLE : IndexedValueType := ⟨4⟩
/-- Modelled from the spec: indexed value type `Bool`. -/
def INDEXED_VALUE_TYPE_BOOL : IndexedValueType := ⟨5⟩
/-- Modelled from the spec: indexed value type `Datetime`. -/
def INDEXED_VALUE_TYPE_DATETIME : IndexedValueType := ⟨6⟩

end enumspb

namespace searchattribute

/-- Modelled from the spec: the constant `searchattribute.StartTime` is not
under `src/` and the spec does not describe it; it is the name of the system
search attribute. -/
def StartTime : String := "StartTime"
/-- Modelled from the spec: the constant `searchattribute.CloseTime`. -/
def CloseTime : String := "CloseTime"
/-- Modelled from the spec: the constant `searchattribute.ExecutionTime`. -/
def ExecutionTime : String := "ExecutionTime"
/-- Modelled from the spec: the constant `searchattribute.ExecutionStatus`. -/
def ExecutionStatus : String := "ExecutionStatus"
/-- Modelled from the spec: the constant `searchattribute.ExecutionDuration`. -/
def ExecutionDuration : String := "ExecutionDuration"

end searchattribute

namespace elasticsearch

open enumspb

/-- A Go value of type `any`, by its dynamic type: `int64`, `float64` (kept as
its bits), `string`, `bool`, or a value of any other type (nil included), kept
as its Go-syntax text. -/
inductive Value where
  | int64 (n : Int)
  | float64 (bits : Nat)
  | string (s : String)
  | bool (b : Bool)
  | other (goSyntax : String)
  deriving DecidableEq, Repr

/-- The errors of the file: a plain error of `errors.New`, or a
`*query.ConverterError`. -/
inductive Error where
  | errorString (text : String)
  | ConverterError (message : String)
  deriving DecidableEq, Repr

/-- Go `errors.As(err, &converterErr)` for `converterErr *query.ConverterError`. -/
def Error.isConverterError : Error → Bool
  | Error.ConverterError _ => true
  | Error.errorString _ => false

/-- Modelled from the spec: `query.NewConverterError` is not under `src/` and the
spec does not describe it; it builds a `*query.ConverterError` whose message is
`fmt.Sprintf(format, a...)`. -/
def NewConverterError (format : String) (a : List String) : Error :=
  Error.ConverterError (fmt.Sprintf format a)

/-- The functions of the Go library and of other packages that the file calls.
`Sscanf` is `fmt.Sscanf(d, "%d:%d:%d", &hours, &minutes, &seconds)`: the three
`int64` scanned, or `none` when it returns an error.  `ParseDuration` is
`timestamp.ParseDuration`: the duration in nanoseconds, or `none` on error.
`ParseFloat` and `ParseTime` tell whether `strconv.ParseFloat(v, 64)` and
`time.Parse(time.RFC3339Nano, v)` return a nil error.  `FormatTime` is
`time.Unix(0, nanos).UTC().Format(time.RFC3339Nano)`, `StatusName` the lookup
`enumspb.WorkflowExecutionStatus_name[int32(status)]`, and `invalidValue` the
text `fmt.Sprintf("invalid value for search attribute %s of type %s: %#v", name,
fieldType.String(), value)`. -/
structure Env where
  Sscanf : String → Option (Int × Int × Int)
  ParseDuration : String → Option Int
  ParseFloat : String → Bool
  ParseTime : String → Bool
  FormatTime : Int → String
  StatusName : Int → String
  invalidValue : String → IndexedValueType → Value → String

/-- Go `(*valuesInterceptor).parseHHMMSSDuration`. -/
def parseHHMMSSDuration (env : Env) (d : String) : Int × Option Error :=
  match env.Sscanf d with
  | none => (0, some (Error.errorString "value is not a duration"))
  | some (hours, minutes, seconds) =>
    let nanos : Int := 0
    if hours < 0 then
      (0, some (NewConverterError "invalid duration: hours must be positive number" []))
    else if minutes < 0 ∨ minutes > 59 then
      (0, some (NewConverterError "invalid duration: minutes must be from 0 to 59" []))
    else if seconds < 0 ∨ seconds > 59 then
      (0, some (NewConverterError "invalid duration: seconds must be from 0 to 59" []))
    else
      (int64.add
        (int64.add
          (int64.add (int64.mul hours time.Hour) (int64.mul minutes time.Minute))
          (int64.mul seconds time.Second))
        nanos,
       none)

/-- Go `(*valuesInterceptor).parseSystemSearchAttributeValues`; a nil value
returned with an error is `none`. -/
def parseSystemSearchAttributeValues (env : Env) (name : String) (value : Value) :
    Option Value × Option Error :=
  if name = searchattribute.StartTime ∨ name = searchattribute.CloseTime
      ∨ name = searchattribute.ExecutionTime then
    match value with
    | Value.int64 nanos => (some (Value.string (env.FormatTime nanos)), none)
    | _ => (some value, none)
  else if name = searchattribute.ExecutionStatus then
    match value with
    | Value.int64 status => (some (Value.string (env.StatusName status)), none)
    | _ => (some value, none)
  else if name = searchattribute.ExecutionDuration then
    match value with
    | Value.string durationStr =>
      match env.ParseDuration durationStr with
      | some duration => (some (Value.int64 duration), none)
      | none =>
        let r := parseHHMMSSDuration env durationStr
        match r.2 with
        | some (Error.ConverterError message) => (none, some (Error.ConverterError message))
        | some (Error.errorString _) => (some value, none)
        | none => (some (Value.int64 r.1), none)
    | _ => (some value, none)
  else (some value, none)

/-- Go `validateValueType`; a nil value returned with an error is `none`. -/
def validateValueType (env : Env) (name : String) (value : Value)
    (fieldType : IndexedValueType) : Option Value × Option Error :=
  if fieldType = INDEXED_VALUE_TYPE_INT ∨ fieldType = INDEXED_VALUE_TYPE_DOUBLE then
    match value with
    | Value.int64 _ => (some value, none)
    | Value.float64 _ => (some value, none)
    | Value.string v =>
      if !env.ParseFloat v then
        (none, some (Error.ConverterError (env.invalidValue name fieldType value)))
      else (some value, none)
    | _ => (none, some (Error.ConverterError (env.invalidValue name fieldType value)))
  else if fieldType = INDEXED_VALUE_TYPE_BOOL then
    match value with
    | Value.bool _ => (some value, none)
    | _ => (none, some (Error.ConverterError (env.invalidValue name fieldType value)))
  else if fieldType = INDEXED_VALUE_TYPE_DATETIME then
    match value with
    | Value.int64 v => (some (Value.string (env.FormatTime v)), none)
    | Value.string v =>
      if !env.ParseTime v then
        (none, some (Error.ConverterError (env.invalidValue name fieldType value)))
      else (some value, none)
    | _ => (none, some (Error.ConverterError (env.invalidValue name fieldType value)))
  else (some value, none)

/-- A sample environment on which the functions can be evaluated: it knows a few
strings and fails on every other. -/
def sampleEnv : Env where
  Sscanf := fun d =>
    if d = "01:02:03" then some (1, 2, 3)
    else if d = "00:00:07" then some (0, 0, 7)
    else if d = "01:99:03" then some (1, 99, 3)
    else if d = "2562047:59:59" then some (2562047, 59, 59)
    else if d = "2562048:00:00" then some (2562048, 0, 0)
    else none
  ParseDuration := fun d => if d = "300ms" then some 300000000 else none
  ParseFloat := fun v => decide (v = "1.5")
  ParseTime := fun v => decide (v = "2024-01-02T03:04:05Z")
  FormatTime := fun nanos => toString nanos
  StatusName := fun status => toString status
  invalidValue := fun name _ _ => "invalid value for search attribute " ++ name

end elasticsearch

/-! ## Theorems -/

namespace api

open enumsspb enumspb serviceerror

/-- C1: with the current run in state `Created` or `Running` and any reuse policy
other than `TerminateIfRunning` (the unspecified value and unknown integers
included), `ResolveDuplicateWorkflowID` returns a nil action and a
`WorkflowExecutionAlreadyStarted` error whose start-request ID is
`currentStartRequestID` and whose run ID is `currentRunID`. -/
theorem resolve_running_other_policy_already_started {MS : Type} (d : Env MS)
    (workflowID newRunID currentRunID : String)
    (currentState : WorkflowExecutionState) (currentStatus : WorkflowExecutionStatus)
    (currentStartRequestID : String) (wfIDReusePolicy : WorkflowIdReusePolicy)
    (hstate : currentState = WORKFLOW_EXECUTION_STATE_CREATED
      ∨ currentState = WORKFLOW_EXECUTION_STATE_RUNNING)
    (hpolicy : wfIDReusePolicy ≠ WORKFLOW_ID_REUSE_POLICY_TERMINATE_IF_RUNNING) :
    ∃ message : String,
      ResolveDuplicateWorkflowID d workflowID newRunID currentRunID currentState
          currentStatus currentStartRequestID wfIDReusePolicy
        = (none, some (Error.WorkflowExecutionAlreadyStarted message
            currentStartRequestID currentRunID))
      ∧ message = fmt.Sprintf
          "Workflow execution is already running. WorkflowId: %v, RunId: %v."
          [workflowID, currentRunID] := by
  refine ⟨_, ?_, rfl⟩
  unfold ResolveDuplicateWorkflowID
  rw [if_pos hstate, if_neg hpolicy]
  rfl

/-- Witness of C1: a running run under the unspecified policy. -/
theorem resolve_running_other_policy_already_started_witness :
    (WORKFLOW_EXECUTION_STATE_RUNNING = WORKFLOW_EXECUTION_STATE_CREATED
      ∨ WORKFLOW_EXECUTION_STATE_RUNNING = WORKFLOW_EXECUTION_STATE_RUNNING)
    ∧ WORKFLOW_ID_REUSE_POLICY_UNSPECIFIED ≠ WORKFLOW_ID_REUSE_POLICY_TERMINATE_IF_RUNNING
    ∧ ∃ message : String,
      ResolveDuplicateWorkflowID specEnv "wf" "run-2" "run-1" WORKFLOW_EXECUTION_STATE_RUNNING
          WORKFLOW_EXECUTION_STATUS_RUNNING "req-1" WORKFLOW_ID_REUSE_POLICY_UNSPECIFIED
        = (none, some (Error.WorkflowExecutionAlreadyStarted message "req-1" "run-1"))
      ∧ message = fmt.Sprintf
          "Workflow execution is already running. WorkflowId: %v, RunId: %v."
          ["wf", "run-1"] :=
  ⟨by decide, by decide,
   resolve_running_other_policy_already_started specEnv "wf" "run-2" "run-1"
     WORKFLOW_EXECUTION_STATE_RUNNING WORKFLOW_EXECUTION_STATUS_RUNNING "req-1"
     WORKFLOW_ID_REUSE_POLICY_UNSPECIFIED (by decide) (by decide)⟩

/-- C2: with the current run in state `Created` or `Running` and policy
`TerminateIfRunning`, `ResolveDuplicateWorkflowID` returns a non-nil action (the
closure built by `terminateWorkflowAction newRunID`) and a nil error, whatever
the other arguments. -/
theorem resolve_running_terminate_if_running_action {MS : Type} (d : Env MS)
    (workflowID newRunID currentRunID : String)
    (currentState : WorkflowExecutionState) (currentStatus : WorkflowExecutionStatus)
    (currentStartRequestID : String)
    (hstate : currentState = WORKFLOW_EXECUTION_STATE_CREATED
      ∨ currentState = WORKFLOW_EXECUTION_STATE_RUNNING) :
    (ResolveDuplicateWorkflowID d workflowID newRunID currentRunID currentState
        currentStatus currentStartRequestID
        WORKFLOW_ID_REUSE_POLICY_TERMINATE_IF_RUNNING).1.isSome = true
    ∧ (ResolveDuplicateWorkflowID d workflowID newRunID currentRunID currentState
        currentStatus currentStartRequestID
        WORKFLOW_ID_REUSE_POLICY_TERMINATE_IF_RUNNING).2 = none
    ∧ ResolveDuplicateWorkflowID d workflowID newRunID currentRunID currentState
        currentStatus currentStartRequestID WORKFLOW_ID_REUSE_POLICY_TERMINATE_IF_RUNNING
      = terminateWorkflowAction d newRunID := by
  unfold ResolveDuplicateWorkflowID
  rw [if_pos hstate, if_pos rfl]
  exact ⟨rfl, rfl, rfl⟩

/-- Witness of C2: a created run under `TerminateIfRunning`. -/
theorem resolve_running_terminate_if_running_action_witness :
    (WORKFLOW_EXECUTION_STATE_CREATED = WORKFLOW_EXECUTION_STATE_CREATED
      ∨ WORKFLOW_EXECUTION_STATE_CREATED = WORKFLOW_EXECUTION_STATE_RUNNING)
    ∧ (ResolveDuplicateWorkflowID specEnv "wf" "run-2" "run-1"
        WORKFLOW_EXECUTION_STATE_CREATED WORKFLOW_EXECUTION_STATUS_RUNNING "req-1"
        WORKFLOW_ID_REUSE_POLICY_TERMINATE_IF_RUNNING).1.isSome = true
    ∧ (ResolveDuplicateWorkflowID specEnv "wf" "run-2" "run-1"
        WORKFLOW_EXECUTION_STATE_CREATED WORKFLOW_EXECUTION_STATUS_RUNNING "req-1"
        WORKFLOW_ID_REUSE_POLICY_TERMINATE_IF_RUNNING).2 = none
    ∧ ResolveDuplicateWorkflowID specEnv "wf" "run-2" "run-1"
        WORKFLOW_EXECUTION_STATE_CREATED WORKFLOW_EXECUTION_STATUS_RUNNING "req-1"
        WORKFLOW_ID_REUSE_POLICY_TERMINATE_IF_RUNNING
      = terminateWorkflowAction specEnv "run-2" :=
  ⟨by decide,
   resolve_running_terminate_if_running_action specEnv "wf" "run-2" "run-1"
     WORKFLOW_EXECUTION_STATE_CREATED WORKFLOW_EXECUTION_STATUS_RUNNING "req-1"
     (by decide)⟩

/-- C3: on a lease whose mutable state reports the execution as running, the
action built by `terminateWorkflowAction newRunID` applies `TerminateWorkflow`
to that mutable state and returns the directive
`UpdateWorkflowWithoutWorkflowTask`, which schedules no workflow task; its error
is the one `TerminateWorkflow` returns, so it is nil when the termination
succeeds. -/
theorem terminate_action_on_running {MS : Type} (d : Env MS) (newRunID : String)
    (workflowLease : WorkflowLease MS)
    (hrunning : d.IsWorkflowExecutionRunning workflowLease.GetMutableState = true) :
    ∃ action : UpdateWorkflowActionFunc MS,
      terminateWorkflowAction d newRunID = (some action, none)
      ∧ (action workflowLease).mutableState
          = (d.TerminateWorkflow workflowLease.GetMutableState
              "TerminateIfRunning WorkflowIdReusePolicy"
              (payloads.EncodeString
                (fmt.Sprintf "terminated by new runID: %s" [newRunID]))
              consts.IdentityHistoryService false).1
      ∧ (action workflowLease).action = some UpdateWorkflowWithoutWorkflowTask
      ∧ UpdateWorkflowWithoutWorkflowTask.CreateWorkflowTask = false
      ∧ UpdateWorkflowWithoutWorkflowTask.Noop = false
      ∧ (action workflowLease).err
          = (d.TerminateWorkflow workflowLease.GetMutableState
              "TerminateIfRunning WorkflowIdReusePolicy"
              (payloads.EncodeString
                (fmt.Sprintf "terminated by new runID: %s" [newRunID]))
              consts.IdentityHistoryService false).2
      ∧ ((d.TerminateWorkflow workflowLease.GetMutableState
              "TerminateIfRunning WorkflowIdReusePolicy"
              (payloads.EncodeString
                (fmt.Sprintf "terminated by new runID: %s" [newRunID]))
              consts.IdentityHistoryService false).2 = none
          → (action workflowLease).err = none) := by
  refine ⟨terminateWorkflowActionFunc d newRunID, rfl, ?_⟩
  simp only [terminateWorkflowActionFunc, hrunning]
  refine ⟨rfl, rfl, rfl, rfl, rfl, ?_⟩
  intro h
  exact h

/-- Witness of C3: a running execution in the concrete mutable state; the
action leaves it completed with status `Terminated` and returns no error. -/
theorem terminate_action_on_running_witness :
    specEnv.IsWorkflowExecutionRunning
        (WorkflowLease.mk (MutableState.mk WORKFLOW_EXECUTION_STATE_RUNNING
          WORKFLOW_EXECUTION_STATUS_RUNNING [])).GetMutableState = true
    ∧ ∃ action : UpdateWorkflowActionFunc MutableState,
      terminateWorkflowAction specEnv "run-2" = (some action, none)
      ∧ (action (WorkflowLease.mk (MutableState.mk WORKFLOW_EXECUTION_STATE_RUNNING
          WORKFLOW_EXECUTION_STATUS_RUNNING []))).mutableState.state
          = WORKFLOW_EXECUTION_STATE_COMPLETED
      ∧ (action (WorkflowLease.mk (MutableState.mk WORKFLOW_EXECUTION_STATE_RUNNING
          WORKFLOW_EXECUTION_STATUS_RUNNING []))).mutableState.status
          = WORKFLOW_EXECUTION_STATUS_TERMINATED
      ∧ (action (WorkflowLease.mk (MutableState.mk WORKFLOW_EXECUTION_STATE_RUNNING
          WORKFLOW_EXECUTION_STATUS_RUNNING []))).action
          = some UpdateWorkflowWithoutWorkflowTask
      ∧ (action (WorkflowLease.mk (MutableState.mk WORKFLOW_EXECUTION_STATE_RUNNING
          WORKFLOW_EXECUTION_STATUS_RUNNING []))).err = none := by
  refine ⟨by decide, ?_⟩
  obtain ⟨action, hact, hms, hdir, _, _, herr, _⟩ :=
    terminate_action_on_running specEnv "run-2"
      (WorkflowLease.mk (MutableState.mk WORKFLOW_EXECUTION_STATE_RUNNING
        WORKFLOW_EXECUTION_STATUS_RUNNING [])) (by decide)
  exact ⟨action, hact, by rw [hms]; rfl, by rw [hms]; rfl, hdir, by rw [herr]; rfl⟩

/-- C4: on a lease whose mutable state reports the execution as no longer
running, the action built by `terminateWorkflowAction newRunID` returns a nil
directive together with the error value `ErrWorkflowCompleted`. -/
theorem terminate_action_on_completed {MS : Type} (d : Env MS) (newRunID : String)
    (workflowLease : WorkflowLease MS)
    (hstopped : d.IsWorkflowExecutionRunning workflowLease.GetMutableState = false) :
    ∃ action : UpdateWorkflowActionFunc MS,
      terminateWorkflowAction d newRunID = (some action, none)
      ∧ (action workflowLease).action = none
      ∧ (action workflowLease).err = some consts.ErrWorkflowCompleted := by
  refine ⟨terminateWorkflowActionFunc d newRunID, rfl, ?_⟩
  simp only [terminateWorkflowActionFunc, hstopped]
  exact ⟨rfl, rfl⟩

/-- Witness of C4: an execution that completed successfully before the action
ran. -/
theorem terminate_action_on_completed_witness :
    specEnv.IsWorkflowExecutionRunning
        (WorkflowLease.mk (MutableState.mk WORKFLOW_EXECUTION_STATE_COMPLETED
          WORKFLOW_EXECUTION_STATUS_COMPLETED [])).GetMutableState = false
    ∧ ∃ action : UpdateWorkflowActionFunc MutableState,
      terminateWorkflowAction specEnv "run-2" = (some action, none)
      ∧ (action (WorkflowLease.mk (MutableState.mk WORKFLOW_EXECUTION_STATE_COMPLETED
          WORKFLOW_EXECUTION_STATUS_COMPLETED []))).action = none
      ∧ (action (WorkflowLease.mk (MutableState.mk WORKFLOW_EXECUTION_STATE_COMPLETED
          WORKFLOW_EXECUTION_STATUS_COMPLETED []))).err
          = some (Error.NotFound "workflow execution already completed") :=
  ⟨by decide,
   terminate_action_on_completed specEnv "run-2"
     (WorkflowLease.mk (MutableState.mk WORKFLOW_EXECUTION_STATE_COMPLETED
       WORKFLOW_EXECUTION_STATUS_COMPLETED [])) (by decide)⟩

/-- C5: with the current run `Completed` and policy `AllowDuplicateFailedOnly`,
`ResolveDuplicateWorkflowID` returns (nil, nil) if and only if `currentStatus`
is in `FailedWorkflowStatuses`; otherwise it returns a nil action and a
`WorkflowExecutionAlreadyStarted` error whose message says the execution already
finished successfully.  Status `Succeeded` is rejected, status `Failed`
proceeds. -/
theorem resolve_completed_failed_only {MS : Type} (d : Env MS)
    (workflowID newRunID currentRunID : String)
    (currentStatus : WorkflowExecutionStatus) (currentStartRequestID : String) :
    (ResolveDuplicateWorkflowID d workflowID newRunID currentRunID
        WORKFLOW_EXECUTION_STATE_COMPLETED currentStatus currentStartRequestID
        WORKFLOW_ID_REUSE_POLICY_ALLOW_DUPLICATE_FAILED_ONLY = (none, none)
      ↔ currentStatus ∈ consts.FailedWorkflowStatuses)
    ∧ ResolveDuplicateWorkflowID d workflowID newRunID currentRunID
        WORKFLOW_EXECUTION_STATE_COMPLETED currentStatus currentStartRequestID
        WORKFLOW_ID_REUSE_POLICY_ALLOW_DUPLICATE_FAILED_ONLY
      = (if currentStatus ∈ consts.FailedWorkflowStatuses then (none, none)
         else (none, some (Error.WorkflowExecutionAlreadyStarted
          (fmt.Sprintf "Workflow execution already finished successfully. WorkflowId: %v, RunId: %v. Workflow Id reuse policy: allow duplicate workflow Id if last run failed."
            [workflowID, currentRunID])
          currentStartRequestID currentRunID)))
    ∧ ResolveDuplicateWorkflowID d workflowID newRunID currentRunID
        WORKFLOW_EXECUTION_STATE_COMPLETED WORKFLOW_EXECUTION_STATUS_COMPLETED
        currentStartRequestID WORKFLOW_ID_REUSE_POLICY_ALLOW_DUPLICATE_FAILED_ONLY
      = (none, some (Error.WorkflowExecutionAlreadyStarted
          (fmt.Sprintf "Workflow execution already finished successfully. WorkflowId: %v, RunId: %v. Workflow Id reuse policy: allow duplicate workflow Id if last run failed."
            [workflowID, currentRunID])
          currentStartRequestID currentRunID))
    ∧ ResolveDuplicateWorkflowID d workflowID newRunID currentRunID
        WORKFLOW_EXECUTION_STATE_COMPLETED WORKFLOW_EXECUTION_STATUS_FAILED
        currentStartRequestID WORKFLOW_ID_REUSE_POLICY_ALLOW_DUPLICATE_FAILED_ONLY
      = (none, none) := by
  have hgen : ∀ status : WorkflowExecutionStatus,
      ResolveDuplicateWorkflowID d workflowID newRunID currentRunID
        WORKFLOW_EXECUTION_STATE_COMPLETED status currentStartRequestID
        WORKFLOW_ID_REUSE_POLICY_ALLOW_DUPLICATE_FAILED_ONLY
      = (if status ∈ consts.FailedWorkflowStatuses then (none, none)
         else (none, some (Error.WorkflowExecutionAlreadyStarted
          (fmt.Sprintf "Workflow execution already finished successfully. WorkflowId: %v, RunId: %v. Workflow Id reuse policy: allow duplicate workflow Id if last run failed."
            [workflowID, currentRunID])
          currentStartRequestID currentRunID))) := by
    intro status
    unfold ResolveDuplicateWorkflowID
    rw [if_neg (by decide), if_pos rfl, if_neg (by decide), if_pos rfl]
    by_cases hmem : status ∈ consts.FailedWorkflowStatuses
    · rw [if_neg (not_not.mpr hmem), if_pos hmem]
    · rw [if_pos hmem, if_neg hmem]
      rfl
  refine ⟨?_, hgen currentStatus, ?_, ?_⟩
  · rw [hgen currentStatus]
    by_cases hmem : currentStatus ∈ consts.FailedWorkflowStatuses
    · simp [hmem]
    · simp [hmem]
  · rw [hgen, if_neg (by decide)]
  · rw [hgen, if_pos (by decide)]

/-- C6: the statuses treated as failed outcomes are exactly `Failed`,
`TimedOut`, `Terminated` and `Canceled`: with the current run `Completed` and
policy `AllowDuplicateFailedOnly`, `ResolveDuplicateWorkflowID` proceeds with
(nil, nil) for these four statuses and rejects with
`WorkflowExecutionAlreadyStarted` for every other status value, among them
`Succeeded`, `ContinuedAsNew`, `Running` and the unspecified value. -/
theorem failed_statuses_exactly_four {MS : Type} (d : Env MS)
    (workflowID newRunID currentRunID : String)
    (currentStatus : WorkflowExecutionStatus) (currentStartRequestID : String) :
    (currentStatus ∈ consts.FailedWorkflowStatuses
      ↔ currentStatus = WORKFLOW_EXECUTION_STATUS_FAILED
        ∨ currentStatus = WORKFLOW_EXECUTION_STATUS_TIMED_OUT
        ∨ currentStatus = WORKFLOW_EXECUTION_STATUS_TERMINATED
        ∨ currentStatus = WORKFLOW_EXECUTION_STATUS_CANCELED)
    ∧ ResolveDuplicateWorkflowID d workflowID newRunID currentRunID
        WORKFLOW_EXECUTION_STATE_COMPLETED currentStatus currentStartRequestID
        WORKFLOW_ID_REUSE_POLICY_ALLOW_DUPLICATE_FAILED_ONLY
      = (if currentStatus = WORKFLOW_EXECUTION_STATUS_FAILED
            ∨ currentStatus = WORKFLOW_EXECUTION_STATUS_TIMED_OUT
            ∨ currentStatus = WORKFLOW_EXECUTION_STATUS_TERMINATED
            ∨ currentStatus = WORKFLOW_EXECUTION_STATUS_CANCELED
         then (none, none)
         else (none, some (Error.WorkflowExecutionAlreadyStarted
          (fmt.Sprintf "Workflow execution already finished successfully. WorkflowId: %v, RunId: %v. Workflow Id reuse policy: allow duplicate workflow Id if last run failed."
            [workflowID, currentRunID])
          currentStartRequestID currentRunID)))
    ∧ ResolveDuplicateWorkflowID d workflowID newRunID currentRunID
        WORKFLOW_EXECUTION_STATE_COMPLETED WORKFLOW_EXECUTION_STATUS_COMPLETED
        currentStartRequestID WORKFLOW_ID_REUSE_POLICY_ALLOW_DUPLICATE_FAILED_ONLY
      = (none, some (Error.WorkflowExecutionAlreadyStarted
          (fmt.Sprintf "Workflow execution already finished successfully. WorkflowId: %v, RunId: %v. Workflow Id reuse policy: allow duplicate workflow Id if last run failed."
            [workflowID, currentRunID])
          currentStartRequestID currentRunID))
    ∧ ResolveDuplicateWorkflowID d workflowID newRunID currentRunID
        WORKFLOW_EXECUTION_STATE_COMPLETED WORKFLOW_EXECUTION_STATUS_CONTINUED_AS_NEW
        currentStartRequestID WORKFLOW_ID_REUSE_POLICY_ALLOW_DUPLICATE_FAILED_ONLY
      = (none, some (Error.WorkflowExecutionAlreadyStarted
          (fmt.Sprintf "Workflow execution already finished successfully. WorkflowId: %v, RunId: %v. Workflow Id reuse policy: allow duplicate workflow Id if last run failed."
            [workflowID, currentRunID])
          currentStartRequestID currentRunID))
    ∧ ResolveDuplicateWorkflowID d workflowID newRunID currentRunID
        WORKFLOW_EXECUTION_STATE_COMPLETED WORKFLOW_EXECUTION_STATUS_RUNNING
        currentStartRequestID WORKFLOW_ID_REUSE_POLICY_ALLOW_DUPLICATE_FAILED_ONLY
      = (none, some (Error.WorkflowExecutionAlreadyStarted
          (fmt.Sprintf "Workflow execution already finished successfully. WorkflowId: %v, RunId: %v. Workflow Id reuse policy: allow duplicate workflow Id if last run failed."
            [workflowID, currentRunID])
          currentStartRequestID currentRunID))
    ∧ ResolveDuplicateWorkflowID d workflowID newRunID currentRunID
        WORKFLOW_EXECUTION_STATE_COMPLETED WORKFLOW_EXECUTION_STATUS_UNSPECIFIED
        currentStartRequestID WORKFLOW_ID_REUSE_POLICY_ALLOW_DUPLICATE_FAILED_ONLY
      = (none, some (Error.WorkflowExecutionAlreadyStarted
          (fmt.Sprintf "Workflow execution already finished successfully. WorkflowId: %v, RunId: %v. Workflow Id reuse policy: allow duplicate workflow Id if last run failed."
            [workflowID, currentRunID])
          currentStartRequestID currentRunID)) := by
  have hmem : ∀ status : WorkflowExecutionStatus,
      status ∈ consts.FailedWorkflowStatuses
      ↔ status = WORKFLOW_EXECUTION_STATUS_FAILED
        ∨ status = WORKFLOW_EXECUTION_STATUS_TIMED_OUT
        ∨ status = WORKFLOW_EXECUTION_STATUS_TERMINATED
        ∨ status = WORKFLOW_EXECUTION_STATUS_CANCELED := by
    intro status
    simp only [consts.FailedWorkflowStatuses, List.mem_cons, List.mem_singleton,
      List.not_mem_nil, or_false]
    tauto
  have hgen : ∀ status : WorkflowExecutionStatus,
      ResolveDuplicateWorkflowID d workflowID newRunID currentRunID
        WORKFLOW_EXECUTION_STATE_COMPLETED status currentStartRequestID
        WORKFLOW_ID_REUSE_POLICY_ALLOW_DUPLICATE_FAILED_ONLY
      = (if status = WORKFLOW_EXECUTION_STATUS_FAILED
            ∨ status = WORKFLOW_EXECUTION_STATUS_TIMED_OUT
            ∨ status = WORKFLOW_EXECUTION_STATUS_TERMINATED
            ∨ status = WORKFLOW_EXECUTION_STATUS_CANCELED
         then (none, none)
         else (none, some (Error.WorkflowExecutionAlreadyStarted
          (fmt.Sprintf "Workflow execution already finished successfully. WorkflowId: %v, RunId: %v. Workflow Id reuse policy: allow duplicate workflow Id if last run failed."
            [workflowID, currentRunID])
          currentStartRequestID currentRunID))) := by
    intro status
    unfold ResolveDuplicateWorkflowID
    rw [if_neg (by decide), if_pos rfl, if_neg (by decide), if_pos rfl]
    by_cases hin : status ∈ consts.FailedWorkflowStatuses
    · rw [if_neg (not_not.mpr hin), if_pos ((hmem status).mp hin)]
    · rw [if_pos hin, if_neg (fun h => hin ((hmem status).mpr h))]
      rfl
  refine ⟨hmem currentStatus, hgen currentStatus, ?_, ?_, ?_, ?_⟩
  · rw [hgen, if_neg (by decide)]
  · rw [hgen, if_neg (by decide)]
  · rw [hgen, if_neg (by decide)]
  · rw [hgen, if_neg (by decide)]

/-- C7: with the current run `Completed` and policy `RejectDuplicate`,
`ResolveDuplicateWorkflowID` returns a nil action and a
`WorkflowExecutionAlreadyStarted` error, for every status. -/
theorem resolve_completed_reject_duplicate {MS : Type} (d : Env MS)
    (workflowID newRunID currentRunID : String)
    (currentStatus : WorkflowExecutionStatus) (currentStartRequestID : String) :
    ResolveDuplicateWorkflowID d workflowID newRunID currentRunID
        WORKFLOW_EXECUTION_STATE_COMPLETED currentStatus currentStartRequestID
        WORKFLOW_ID_REUSE_POLICY_REJECT_DUPLICATE
      = (none, some (Error.WorkflowExecutionAlreadyStarted
          (fmt.Sprintf "Workflow execution already finished. WorkflowId: %v, RunId: %v. Workflow Id reuse policy: reject duplicate workflow Id."
            [workflowID, currentRunID])
          currentStartRequestID currentRunID)) := by
  unfold ResolveDuplicateWorkflowID
  rw [if_neg (by decide), if_pos rfl, if_neg (by decide), if_neg (by decide), if_pos rfl]
  rfl

/-- C8: with the current run `Completed` and policy `AllowDuplicate` or
`TerminateIfRunning`, `ResolveDuplicateWorkflowID` returns (nil, nil) whatever
the status and the string arguments; no terminate action is produced for a
completed run. -/
theorem resolve_completed_allow_or_terminate {MS : Type} (d : Env MS)
    (workflowID newRunID currentRunID : String)
    (currentStatus : WorkflowExecutionStatus) (currentStartRequestID : String) :
    ResolveDuplicateWorkflowID d workflowID newRunID currentRunID
        WORKFLOW_EXECUTION_STATE_COMPLETED currentStatus currentStartRequestID
        WORKFLOW_ID_REUSE_POLICY_ALLOW_DUPLICATE = (none, none)
    ∧ ResolveDuplicateWorkflowID d workflowID newRunID currentRunID
        WORKFLOW_EXECUTION_STATE_COMPLETED currentStatus currentStartRequestID
        WORKFLOW_ID_REUSE_POLICY_TERMINATE_IF_RUNNING = (none, none)
    ∧ (ResolveDuplicateWorkflowID d workflowID newRunID currentRunID
        WORKFLOW_EXECUTION_STATE_COMPLETED currentStatus currentStartRequestID
        WORKFLOW_ID_REUSE_POLICY_TERMINATE_IF_RUNNING).1.isNone = true := by
  have hterm : ResolveDuplicateWorkflowID d workflowID newRunID currentRunID
      WORKFLOW_EXECUTION_STATE_COMPLETED currentStatus currentStartRequestID
      WORKFLOW_ID_REUSE_POLICY_TERMINATE_IF_RUNNING = (none, none) := by
    unfold ResolveDuplicateWorkflowID
    rw [if_neg (by decide), if_pos rfl, if_pos (Or.inr rfl)]
  refine ⟨?_, hterm, ?_⟩
  · unfold ResolveDuplicateWorkflowID
    rw [if_neg (by decide), if_pos rfl, if_pos (Or.inl rfl)]
  · rw [hterm]
    rfl

/-- C9: for every state other than `Created`, `Running` and `Completed` (so for
`Zombie`, the unspecified value and unknown integers) and for every policy,
status and strings, `ResolveDuplicateWorkflowID` returns a nil action and an
`Internal` error: no already-started error, no terminate action and not
(nil, nil). -/
theorem resolve_other_state_internal {MS : Type} (d : Env MS)
    (workflowID newRunID currentRunID : String)
    (currentState : WorkflowExecutionState) (currentStatus : WorkflowExecutionStatus)
    (currentStartRequestID : String) (wfIDReusePolicy : WorkflowIdReusePolicy)
    (hcreated : currentState ≠ WORKFLOW_EXECUTION_STATE_CREATED)
    (hrunning : currentState ≠ WORKFLOW_EXECUTION_STATE_RUNNING)
    (hcompleted : currentState ≠ WORKFLOW_EXECUTION_STATE_COMPLETED) :
    ResolveDuplicateWorkflowID d workflowID newRunID currentRunID currentState
        currentStatus currentStartRequestID wfIDReusePolicy
      = (none, some (Error.Internal
          (fmt.Sprintf "Failed to process workflow, workflow has invalid state: %v."
            [d.stateString currentState])))
    ∧ (ResolveDuplicateWorkflowID d workflowID newRunID currentRunID currentState
        currentStatus currentStartRequestID wfIDReusePolicy).1.isNone = true
    ∧ (ResolveDuplicateWorkflowID d workflowID newRunID currentRunID currentState
        currentStatus currentStartRequestID wfIDReusePolicy).2.map Error.isInternal
      = some true
    ∧ (ResolveDuplicateWorkflowID d workflowID newRunID currentRunID currentState
        currentStatus currentStartRequestID wfIDReusePolicy).2.map Error.isAlreadyStarted
      = some false
    ∧ ResolveDuplicateWorkflowID d workflowID newRunID currentRunID currentState
        currentStatus currentStartRequestID wfIDReusePolicy ≠ (none, none) := by
  have hres : ResolveDuplicateWorkflowID d workflowID newRunID currentRunID currentState
        currentStatus currentStartRequestID wfIDReusePolicy
      = (none, some (Error.Internal
          (fmt.Sprintf "Failed to process workflow, workflow has invalid state: %v."
            [d.stateString currentState]))) := by
    unfold ResolveDuplicateWorkflowID
    rw [if_neg (fun h => h.elim hcreated hrunning), if_neg hcompleted]
    rfl
  rw [hres]
  refine ⟨rfl, rfl, rfl, rfl, ?_⟩
  intro h
  cases h

/-- Witness of C9: a zombie run under `AllowDuplicate`. -/
theorem resolve_other_state_internal_witness :
    WORKFLOW_EXECUTION_STATE_ZOMBIE ≠ WORKFLOW_EXECUTION_STATE_CREATED
    ∧ WORKFLOW_EXECUTION_STATE_ZOMBIE ≠ WORKFLOW_EXECUTION_STATE_RUNNING
    ∧ WORKFLOW_EXECUTION_STATE_ZOMBIE ≠ WORKFLOW_EXECUTION_STATE_COMPLETED
    ∧ ResolveDuplicateWorkflowID specEnv "wf" "run-2" "run-1"
        WORKFLOW_EXECUTION_STATE_ZOMBIE WORKFLOW_EXECUTION_STATUS_RUNNING "req-1"
        WORKFLOW_ID_REUSE_POLICY_ALLOW_DUPLICATE
      = (none, some (Error.Internal
          (fmt.Sprintf "Failed to process workflow, workflow has invalid state: %v."
            [specEnv.stateString WORKFLOW_EXECUTION_STATE_ZOMBIE]))) :=
  ⟨by decide, by decide, by decide,
   (resolve_other_state_internal specEnv "wf" "run-2" "run-1"
     WORKFLOW_EXECUTION_STATE_ZOMBIE WORKFLOW_EXECUTION_STATUS_RUNNING "req-1"
     WORKFLOW_ID_REUSE_POLICY_ALLOW_DUPLICATE (by decide) (by decide) (by decide)).1⟩

/-- C10: with the current run `Completed` and a policy value that is none of
`AllowDuplicate`, `AllowDuplicateFailedOnly`, `RejectDuplicate` and
`TerminateIfRunning`, `ResolveDuplicateWorkflowID` returns a nil action and an
`Internal` error for every status: no already-started error and not
(nil, nil). -/
theorem resolve_completed_unknown_policy_internal {MS : Type} (d : Env MS)
    (workflowID newRunID currentRunID : String)
    (currentStatus : WorkflowExecutionStatus)
    (currentStartRequestID : String) (wfIDReusePolicy : WorkflowIdReusePolicy)
    (hallow : wfIDReusePolicy ≠ WORKFLOW_ID_REUSE_POLICY_ALLOW_DUPLICATE)
    (hfailed : wfIDReusePolicy ≠ WORKFLOW_ID_REUSE_POLICY_ALLOW_DUPLICATE_FAILED_ONLY)
    (hreject : wfIDReusePolicy ≠ WORKFLOW_ID_REUSE_POLICY_REJECT_DUPLICATE)
    (hterminate : wfIDReusePolicy ≠ WORKFLOW_ID_REUSE_POLICY_TERMINATE_IF_RUNNING) :
    ResolveDuplicateWorkflowID d workflowID newRunID currentRunID
        WORKFLOW_EXECUTION_STATE_COMPLETED currentStatus currentStartRequestID
        wfIDReusePolicy
      = (none, some (Error.Internal
          (fmt.Sprintf "Failed to process start workflow id reuse policy: %v."
            [d.policyString wfIDReusePolicy])))
    ∧ (ResolveDuplicateWorkflowID d workflowID newRunID currentRunID
        WORKFLOW_EXECUTION_STATE_COMPLETED currentStatus currentStartRequestID
        wfIDReusePolicy).1.isNone = true
    ∧ (ResolveDuplicateWorkflowID d workflowID newRunID currentRunID
        WORKFLOW_EXECUTION_STATE_COMPLETED currentStatus currentStartRequestID
        wfIDReusePolicy).2.map Error.isInternal = some true
    ∧ (ResolveDuplicateWorkflowID d workflowID newRunID currentRunID
        WORKFLOW_EXECUTION_STATE_COMPLETED currentStatus currentStartRequestID
        wfIDReusePolicy).2.map Error.isAlreadyStarted = some false
    ∧ ResolveDuplicateWorkflowID d workflowID newRunID currentRunID
        WORKFLOW_EXECUTION_STATE_COMPLETED currentStatus currentStartRequestID
        wfIDReusePolicy ≠ (none, none) := by
  have hres : ResolveDuplicateWorkflowID d workflowID newRunID currentRunID
        WORKFLOW_EXECUTION_STATE_COMPLETED currentStatus currentStartRequestID
        wfIDReusePolicy
      = (none, some (Error.Internal
          (fmt.Sprintf "Failed to process start workflow id reuse policy: %v."
            [d.policyString wfIDReusePolicy]))) := by
    unfold ResolveDuplicateWorkflowID
    rw [if_neg (by decide), if_pos rfl, if_neg (fun h => h.elim hallow hterminate),
      if_neg hfailed, if_neg hreject]
    rfl
  rw [hres]
  refine ⟨rfl, rfl, rfl, rfl, ?_⟩
  intro h
  cases h

/-- Witness of C10: a completed run under the unspecified policy value. -/
theorem resolve_completed_unknown_policy_internal_witness :
    WORKFLOW_ID_REUSE_POLICY_UNSPECIFIED ≠ WORKFLOW_ID_REUSE_POLICY_ALLOW_DUPLICATE
    ∧ WORKFLOW_ID_REUSE_POLICY_UNSPECIFIED
        ≠ WORKFLOW_ID_REUSE_POLICY_ALLOW_DUPLICATE_FAILED_ONLY
    ∧ WORKFLOW_ID_REUSE_POLICY_UNSPECIFIED ≠ WORKFLOW_ID_REUSE_POLICY_REJECT_DUPLICATE
    ∧ WORKFLOW_ID_REUSE_POLICY_UNSPECIFIED ≠ WORKFLOW_ID_REUSE_POLICY_TERMINATE_IF_RUNNING
    ∧ ResolveDuplicateWorkflowID specEnv "wf" "run-2" "run-1"
        WORKFLOW_EXECUTION_STATE_COMPLETED WORKFLOW_EXECUTION_STATUS_FAILED "req-1"
        WORKFLOW_ID_REUSE_POLICY_UNSPECIFIED
      = (none, some (Error.Internal
          (fmt.Sprintf "Failed to process start workflow id reuse policy: %v."
            [specEnv.policyString WORKFLOW_ID_REUSE_POLICY_UNSPECIFIED]))) :=
  ⟨by decide, by decide, by decide, by decide,
   (resolve_completed_unknown_policy_internal specEnv "wf" "run-2" "run-1"
     WORKFLOW_EXECUTION_STATUS_FAILED "req-1" WORKFLOW_ID_REUSE_POLICY_UNSPECIFIED
     (by decide) (by decide) (by decide) (by decide)).1⟩

end api

namespace api

open enumsspb enumspb serviceerror

/-- Counterexample of C11: `Zombie` is a declared state and `AllowDuplicate` a
declared policy, yet the resolver returns a nil action and an `Internal`
error for them. -/
theorem resolve_declared_zombie_internal_counterexample :
    WORKFLOW_EXECUTION_STATE_ZOMBIE ∈
        [WORKFLOW_EXECUTION_STATE_CREATED, WORKFLOW_EXECUTION_STATE_RUNNING,
         WORKFLOW_EXECUTION_STATE_COMPLETED, WORKFLOW_EXECUTION_STATE_ZOMBIE]
    ∧ WORKFLOW_ID_REUSE_POLICY_ALLOW_DUPLICATE ∈
        [WORKFLOW_ID_REUSE_POLICY_ALLOW_DUPLICATE,
         WORKFLOW_ID_REUSE_POLICY_ALLOW_DUPLICATE_FAILED_ONLY,
         WORKFLOW_ID_REUSE_POLICY_REJECT_DUPLICATE,
         WORKFLOW_ID_REUSE_POLICY_TERMINATE_IF_RUNNING]
    ∧ (ResolveDuplicateWorkflowID specEnv "wf" "run-2" "run-1"
        WORKFLOW_EXECUTION_STATE_ZOMBIE WORKFLOW_EXECUTION_STATUS_RUNNING "req-1"
        WORKFLOW_ID_REUSE_POLICY_ALLOW_DUPLICATE).2
      = some (Error.Internal
          "Failed to process workflow, workflow has invalid state: 4.")
    ∧ (ResolveDuplicateWorkflowID specEnv "wf" "run-2" "run-1"
        WORKFLOW_EXECUTION_STATE_ZOMBIE WORKFLOW_EXECUTION_STATUS_RUNNING "req-1"
        WORKFLOW_ID_REUSE_POLICY_ALLOW_DUPLICATE).2.map Error.isInternal
      = some true := by
  refine ⟨by decide, by decide, ?_, ?_⟩ <;> decide

/-- C11 as amended: when the state is `Created`, `Running` or `Completed` and
the policy is one of the four declared values, the result of
`ResolveDuplicateWorkflowID` is not an `Internal` error; the declared state
`Zombie` has no branch of its own and yields the `Internal` error of the
default branch under every policy. -/
theorem resolve_handled_values_not_internal {MS : Type} (d : Env MS)
    (workflowID newRunID currentRunID : String)
    (currentState : WorkflowExecutionState) (currentStatus : WorkflowExecutionStatus)
    (currentStartRequestID : String) (wfIDReusePolicy : WorkflowIdReusePolicy)
    (hstate : currentState = WORKFLOW_EXECUTION_STATE_CREATED
      ∨ currentState = WORKFLOW_EXECUTION_STATE_RUNNING
      ∨ currentState = WORKFLOW_EXECUTION_STATE_COMPLETED)
    (hpolicy : wfIDReusePolicy = WORKFLOW_ID_REUSE_POLICY_ALLOW_DUPLICATE
      ∨ wfIDReusePolicy = WORKFLOW_ID_REUSE_POLICY_ALLOW_DUPLICATE_FAILED_ONLY
      ∨ wfIDReusePolicy = WORKFLOW_ID_REUSE_POLICY_REJECT_DUPLICATE
      ∨ wfIDReusePolicy = WORKFLOW_ID_REUSE_POLICY_TERMINATE_IF_RUNNING) :
    (ResolveDuplicateWorkflowID d workflowID newRunID currentRunID currentState
        currentStatus currentStartRequestID wfIDReusePolicy).2.map Error.isInternal
      ≠ some true
    ∧ ResolveDuplicateWorkflowID d workflowID newRunID currentRunID
        WORKFLOW_EXECUTION_STATE_ZOMBIE currentStatus currentStartRequestID
        wfIDReusePolicy
      = (none, some (Error.Internal
          (fmt.Sprintf "Failed to process workflow, workflow has invalid state: %v."
            [d.stateString WORKFLOW_EXECUTION_STATE_ZOMBIE]))) := by
  constructor
  · unfold ResolveDuplicateWorkflowID
    split_ifs <;>
      first
      | (exfalso; tauto)
      | simp [terminateWorkflowAction, generateWorkflowAlreadyStartedError,
          NewWorkflowExecutionAlreadyStarted, Error.isInternal]
  · unfold ResolveDuplicateWorkflowID
    rw [if_neg (by decide), if_neg (by decide)]
    rfl

/-- Witness of C11 as amended: a completed run under `RejectDuplicate`. -/
theorem resolve_handled_values_not_internal_witness :
    (WORKFLOW_EXECUTION_STATE_COMPLETED = WORKFLOW_EXECUTION_STATE_CREATED
      ∨ WORKFLOW_EXECUTION_STATE_COMPLETED = WORKFLOW_EXECUTION_STATE_RUNNING
      ∨ WORKFLOW_EXECUTION_STATE_COMPLETED = WORKFLOW_EXECUTION_STATE_COMPLETED)
    ∧ (WORKFLOW_ID_REUSE_POLICY_REJECT_DUPLICATE = WORKFLOW_ID_REUSE_POLICY_ALLOW_DUPLICATE
      ∨ WORKFLOW_ID_REUSE_POLICY_REJECT_DUPLICATE
          = WORKFLOW_ID_REUSE_POLICY_ALLOW_DUPLICATE_FAILED_ONLY
      ∨ WORKFLOW_ID_REUSE_POLICY_REJECT_DUPLICATE = WORKFLOW_ID_REUSE_POLICY_REJECT_DUPLICATE
      ∨ WORKFLOW_ID_REUSE_POLICY_REJECT_DUPLICATE
          = WORKFLOW_ID_REUSE_POLICY_TERMINATE_IF_RUNNING)
    ∧ (ResolveDuplicateWorkflowID specEnv "wf" "run-2" "run-1"
        WORKFLOW_EXECUTION_STATE_COMPLETED WORKFLOW_EXECUTION_STATUS_COMPLETED "req-1"
        WORKFLOW_ID_REUSE_POLICY_REJECT_DUPLICATE).2.map Error.isInternal
      ≠ some true :=
  ⟨by decide, by decide,
   (resolve_handled_values_not_internal specEnv "wf" "run-2" "run-1"
     WORKFLOW_EXECUTION_STATE_COMPLETED WORKFLOW_EXECUTION_STATUS_COMPLETED "req-1"
     WORKFLOW_ID_REUSE_POLICY_REJECT_DUPLICATE (by decide) (by decide)).1⟩

end api

namespace api

open enumsspb enumspb serviceerror

/-- C12: for every input `ResolveDuplicateWorkflowID` returns one of the three
shapes (nil action, nil error), (nil action, non-nil error) and (non-nil action,
nil error); it never returns a non-nil action together with a non-nil error. -/
theorem resolve_three_shapes {MS : Type} (d : Env MS)
    (workflowID newRunID currentRunID : String)
    (currentState : WorkflowExecutionState) (currentStatus : WorkflowExecutionStatus)
    (currentStartRequestID : String) (wfIDReusePolicy : WorkflowIdReusePolicy) :
    (((ResolveDuplicateWorkflowID d workflowID newRunID currentRunID currentState
          currentStatus currentStartRequestID wfIDReusePolicy).1.isNone = true
        ∧ (ResolveDuplicateWorkflowID d workflowID newRunID currentRunID currentState
          currentStatus currentStartRequestID wfIDReusePolicy).2.isNone = true)
      ∨ ((ResolveDuplicateWorkflowID d workflowID newRunID currentRunID currentState
          currentStatus currentStartRequestID wfIDReusePolicy).1.isNone = true
        ∧ (ResolveDuplicateWorkflowID d workflowID newRunID currentRunID currentState
          currentStatus currentStartRequestID wfIDReusePolicy).2.isSome = true)
      ∨ ((ResolveDuplicateWorkflowID d workflowID newRunID currentRunID currentState
          currentStatus currentStartRequestID wfIDReusePolicy).1.isSome = true
        ∧ (ResolveDuplicateWorkflowID d workflowID newRunID currentRunID currentState
          currentStatus currentStartRequestID wfIDReusePolicy).2.isNone = true))
    ∧ ¬ ((ResolveDuplicateWorkflowID d workflowID newRunID currentRunID currentState
          currentStatus currentStartRequestID wfIDReusePolicy).1.isSome = true
        ∧ (ResolveDuplicateWorkflowID d workflowID newRunID currentRunID currentState
          currentStatus currentStartRequestID wfIDReusePolicy).2.isSome = true) := by
  unfold ResolveDuplicateWorkflowID
  split_ifs <;> simp [terminateWorkflowAction]

end api

/-! ### Formatting lemmas -/

namespace fmt

set_option maxRecDepth 8000

/-- The template of the already-running rejection, formatted. -/
theorem Sprintf_already_running (workflowID runID : String) :
    Sprintf "Workflow execution is already running. WorkflowId: %v, RunId: %v."
        [workflowID, runID]
      = "Workflow execution is already running. WorkflowId: " ++ workflowID
        ++ ", RunId: " ++ runID ++ "." := by
  apply String.ext
  simp [Sprintf, SprintfAux, extraOperands, String.toList]

/-- The template of the finished-successfully rejection, formatted. -/
theorem Sprintf_finished_successfully (workflowID runID : String) :
    Sprintf "Workflow execution already finished successfully. WorkflowId: %v, RunId: %v. Workflow Id reuse policy: allow duplicate workflow Id if last run failed."
        [workflowID, runID]
      = "Workflow execution already finished successfully. WorkflowId: " ++ workflowID
        ++ ", RunId: " ++ runID
        ++ ". Workflow Id reuse policy: allow duplicate workflow Id if last run failed." := by
  apply String.ext
  simp [Sprintf, SprintfAux, extraOperands, String.toList]

/-- The template of the reject-duplicate rejection, formatted. -/
theorem Sprintf_finished_reject (workflowID runID : String) :
    Sprintf "Workflow execution already finished. WorkflowId: %v, RunId: %v. Workflow Id reuse policy: reject duplicate workflow Id."
        [workflowID, runID]
      = "Workflow execution already finished. WorkflowId: " ++ workflowID
        ++ ", RunId: " ++ runID
        ++ ". Workflow Id reuse policy: reject duplicate workflow Id." := by
  apply String.ext
  simp [Sprintf, SprintfAux, extraOperands, String.toList]

/-- The termination details, formatted. -/
theorem Sprintf_terminated_by (newRunID : String) :
    Sprintf "terminated by new runID: %s" [newRunID]
      = "terminated by new runID: " ++ newRunID := by
  apply String.ext
  simp [Sprintf, SprintfAux, extraOperands, String.toList]

end fmt

namespace api

open enumsspb enumspb serviceerror

/-- C14: whenever `ResolveDuplicateWorkflowID` returns a
`WorkflowExecutionAlreadyStarted` error, the error carries
`currentStartRequestID` and `currentRunID`, and its message is the template of
the path taken (running run; completed run under `RejectDuplicate`; completed
run under `AllowDuplicateFailedOnly`) with `workflowID` substituted first and
`currentRunID` second; the error returned does not depend on `newRunID`. -/
theorem already_started_error_contents {MS : Type} (d : Env MS)
    (workflowID newRunID currentRunID : String)
    (currentState : WorkflowExecutionState) (currentStatus : WorkflowExecutionStatus)
    (currentStartRequestID : String) (wfIDReusePolicy : WorkflowIdReusePolicy)
    (e : Error)
    (hres : (ResolveDuplicateWorkflowID d workflowID newRunID currentRunID currentState
        currentStatus currentStartRequestID wfIDReusePolicy).2 = some e)
    (hkind : e.isAlreadyStarted = true) :
    e.startRequestId = some currentStartRequestID
    ∧ e.runId = some currentRunID
    ∧ e.message
      = (if currentState = WORKFLOW_EXECUTION_STATE_CREATED
            ∨ currentState = WORKFLOW_EXECUTION_STATE_RUNNING then
          "Workflow execution is already running. WorkflowId: " ++ workflowID
            ++ ", RunId: " ++ currentRunID ++ "."
         else if wfIDReusePolicy = WORKFLOW_ID_REUSE_POLICY_REJECT_DUPLICATE then
          "Workflow execution already finished. WorkflowId: " ++ workflowID
            ++ ", RunId: " ++ currentRunID
            ++ ". Workflow Id reuse policy: reject duplicate workflow Id."
         else
          "Workflow execution already finished successfully. WorkflowId: " ++ workflowID
            ++ ", RunId: " ++ currentRunID
            ++ ". Workflow Id reuse policy: allow duplicate workflow Id if last run failed.")
    ∧ ∀ otherNewRunID : String,
        (ResolveDuplicateWorkflowID d workflowID otherNewRunID currentRunID currentState
          currentStatus currentStartRequestID wfIDReusePolicy).2
        = (ResolveDuplicateWorkflowID d workflowID newRunID currentRunID currentState
          currentStatus currentStartRequestID wfIDReusePolicy).2 := by
  have hindep : ∀ otherNewRunID : String,
      (ResolveDuplicateWorkflowID d workflowID otherNewRunID currentRunID currentState
        currentStatus currentStartRequestID wfIDReusePolicy).2
      = (ResolveDuplicateWorkflowID d workflowID newRunID currentRunID currentState
        currentStatus currentStartRequestID wfIDReusePolicy).2 := by
    intro otherNewRunID
    unfold ResolveDuplicateWorkflowID
    split_ifs <;> rfl
  have hc1 : ¬ (WORKFLOW_EXECUTION_STATE_COMPLETED = WORKFLOW_EXECUTION_STATE_CREATED
      ∨ WORKFLOW_EXECUTION_STATE_COMPLETED = WORKFLOW_EXECUTION_STATE_RUNNING) := by decide
  have hc2 : ¬ (WORKFLOW_ID_REUSE_POLICY_ALLOW_DUPLICATE_FAILED_ONLY
      = WORKFLOW_ID_REUSE_POLICY_REJECT_DUPLICATE) := by decide
  have key : e = Error.WorkflowExecutionAlreadyStarted
      (if currentState = WORKFLOW_EXECUTION_STATE_CREATED
            ∨ currentState = WORKFLOW_EXECUTION_STATE_RUNNING then
          "Workflow execution is already running. WorkflowId: " ++ workflowID
            ++ ", RunId: " ++ currentRunID ++ "."
         else if wfIDReusePolicy = WORKFLOW_ID_REUSE_POLICY_REJECT_DUPLICATE then
          "Workflow execution already finished. WorkflowId: " ++ workflowID
            ++ ", RunId: " ++ currentRunID
            ++ ". Workflow Id reuse policy: reject duplicate workflow Id."
         else
          "Workflow execution already finished successfully. WorkflowId: " ++ workflowID
            ++ ", RunId: " ++ currentRunID
            ++ ". Workflow Id reuse policy: allow duplicate workflow Id if last run failed.")
      currentStartRequestID currentRunID := by
    unfold ResolveDuplicateWorkflowID at hres
    split_ifs at hres <;>
      simp only [terminateWorkflowAction, generateWorkflowAlreadyStartedError,
        NewWorkflowExecutionAlreadyStarted, NewInternal, Option.some.injEq,
        reduceCtorEq] at hres <;>
      subst hres <;>
      first
      | (simp [Error.isAlreadyStarted] at hkind; done)
      | simp [fmt.Sprintf_already_running, fmt.Sprintf_finished_successfully,
          fmt.Sprintf_finished_reject, hc1, hc2, *]
  rw [key]
  exact ⟨rfl, rfl, rfl, hindep⟩

end api

namespace api

open enumsspb enumspb serviceerror

set_option maxRecDepth 8000

/-- Witness of C14: a succeeded run under `AllowDuplicateFailedOnly`. -/
theorem already_started_error_contents_witness :
    (ResolveDuplicateWorkflowID specEnv "wf" "run-2" "run-1"
        WORKFLOW_EXECUTION_STATE_COMPLETED WORKFLOW_EXECUTION_STATUS_COMPLETED "req-1"
        WORKFLOW_ID_REUSE_POLICY_ALLOW_DUPLICATE_FAILED_ONLY).2
      = some (Error.WorkflowExecutionAlreadyStarted
          "Workflow execution already finished successfully. WorkflowId: wf, RunId: run-1. Workflow Id reuse policy: allow duplicate workflow Id if last run failed."
          "req-1" "run-1")
    ∧ (Error.WorkflowExecutionAlreadyStarted
          "Workflow execution already finished successfully. WorkflowId: wf, RunId: run-1. Workflow Id reuse policy: allow duplicate workflow Id if last run failed."
          "req-1" "run-1").isAlreadyStarted = true
    ∧ (Error.WorkflowExecutionAlreadyStarted
          "Workflow execution already finished successfully. WorkflowId: wf, RunId: run-1. Workflow Id reuse policy: allow duplicate workflow Id if last run failed."
          "req-1" "run-1").startRequestId = some "req-1"
    ∧ (Error.WorkflowExecutionAlreadyStarted
          "Workflow execution already finished successfully. WorkflowId: wf, RunId: run-1. Workflow Id reuse policy: allow duplicate workflow Id if last run failed."
          "req-1" "run-1").runId = some "run-1"
    ∧ ∀ otherNewRunID : String,
        (ResolveDuplicateWorkflowID specEnv "wf" otherNewRunID "run-1"
          WORKFLOW_EXECUTION_STATE_COMPLETED WORKFLOW_EXECUTION_STATUS_COMPLETED "req-1"
          WORKFLOW_ID_REUSE_POLICY_ALLOW_DUPLICATE_FAILED_ONLY).2
        = (ResolveDuplicateWorkflowID specEnv "wf" "run-2" "run-1"
          WORKFLOW_EXECUTION_STATE_COMPLETED WORKFLOW_EXECUTION_STATUS_COMPLETED "req-1"
          WORKFLOW_ID_REUSE_POLICY_ALLOW_DUPLICATE_FAILED_ONLY).2 :=
  have h := already_started_error_contents specEnv "wf" "run-2" "run-1"
    WORKFLOW_EXECUTION_STATE_COMPLETED WORKFLOW_EXECUTION_STATUS_COMPLETED "req-1"
    WORKFLOW_ID_REUSE_POLICY_ALLOW_DUPLICATE_FAILED_ONLY
    (Error.WorkflowExecutionAlreadyStarted
      "Workflow execution already finished successfully. WorkflowId: wf, RunId: run-1. Workflow Id reuse policy: allow duplicate workflow Id if last run failed."
      "req-1" "run-1") (by decide) (by decide)
  ⟨by decide, by decide, h.1, h.2.1, h.2.2.2⟩

/-- C15: on a running execution the terminate action calls `TerminateWorkflow`
with the reason "TerminateIfRunning WorkflowIdReusePolicy", details that encode
"terminated by new runID: " followed by `newRunID`, the identity
`IdentityHistoryService` and the flag false; the state and error it returns are
those of that call. -/
theorem terminate_action_call_arguments {MS : Type} (d : Env MS) (newRunID : String)
    (workflowLease : WorkflowLease MS)
    (hrunning : d.IsWorkflowExecutionRunning workflowLease.GetMutableState = true) :
    ∃ action : UpdateWorkflowActionFunc MS,
      terminateWorkflowAction d newRunID = (some action, none)
      ∧ (action workflowLease).mutableState
          = (d.TerminateWorkflow workflowLease.GetMutableState
              "TerminateIfRunning WorkflowIdReusePolicy"
              (payloads.EncodeString ("terminated by new runID: " ++ newRunID))
              consts.IdentityHistoryService false).1
      ∧ (action workflowLease).err
          = (d.TerminateWorkflow workflowLease.GetMutableState
              "TerminateIfRunning WorkflowIdReusePolicy"
              (payloads.EncodeString ("terminated by new runID: " ++ newRunID))
              consts.IdentityHistoryService false).2
      ∧ (payloads.EncodeString ("terminated by new runID: " ++ newRunID)).encoded
          = "terminated by new runID: " ++ newRunID := by
  refine ⟨terminateWorkflowActionFunc d newRunID, rfl, ?_⟩
  simp only [terminateWorkflowActionFunc, hrunning, fmt.Sprintf_terminated_by]
  exact ⟨rfl, rfl, rfl⟩

/-- Witness of C15: on the concrete mutable state, which records the calls of
`TerminateWorkflow`, the action leaves exactly one recorded call, with the four
arguments of the claim. -/
theorem terminate_action_call_arguments_witness :
    specEnv.IsWorkflowExecutionRunning
        (WorkflowLease.mk (MutableState.mk WORKFLOW_EXECUTION_STATE_RUNNING
          WORKFLOW_EXECUTION_STATUS_RUNNING [])).GetMutableState = true
    ∧ ∃ action : UpdateWorkflowActionFunc MutableState,
      terminateWorkflowAction specEnv "run-2" = (some action, none)
      ∧ (action (WorkflowLease.mk (MutableState.mk WORKFLOW_EXECUTION_STATE_RUNNING
          WORKFLOW_EXECUTION_STATUS_RUNNING []))).mutableState.terminations
          = [{ terminateReason := "TerminateIfRunning WorkflowIdReusePolicy",
               terminateDetails := { encoded := "terminated by new runID: run-2" },
               terminateIdentity := "history-service",
               deleteAfterTerminate := false }] := by
  refine ⟨by decide, ?_⟩
  obtain ⟨action, hact, hms, _, _⟩ :=
    terminate_action_call_arguments specEnv "run-2"
      (WorkflowLease.mk (MutableState.mk WORKFLOW_EXECUTION_STATE_RUNNING
        WORKFLOW_EXECUTION_STATUS_RUNNING [])) (by decide)
  exact ⟨action, hact, by rw [hms]; decide⟩

end api

/-! ### Two callers and one lease -/

namespace api

open enumsspb enumspb serviceerror

/-- The closure of `terminateWorkflowAction` is its liveness check followed by
its termination stage. -/
theorem terminateWorkflowActionFunc_stages {MS : Type} (d : Env MS) (newRunID : String)
    (workflowLease : WorkflowLease MS) :
    terminateWorkflowActionFunc d newRunID workflowLease
      = if !d.IsWorkflowExecutionRunning workflowLease.GetMutableState then
          { mutableState := workflowLease.GetMutableState, action := none,
            err := some consts.ErrWorkflowCompleted }
        else terminateStep d newRunID workflowLease.GetMutableState := rfl

/-- The closure on the concrete mutable state: on an execution that is not
running it fails with `ErrWorkflowCompleted` and leaves the state as it is; on a
running execution it returns the directive and a nil error, leaves the execution
not running and records one termination. -/
theorem terminateWorkflowActionFunc_specEnv (newRunID : String) (ms : MutableState) :
    (specEnv.IsWorkflowExecutionRunning ms = false →
      (terminateWorkflowActionFunc specEnv newRunID (WorkflowLease.mk ms)).mutableState = ms
      ∧ (terminateWorkflowActionFunc specEnv newRunID (WorkflowLease.mk ms)).action = none
      ∧ (terminateWorkflowActionFunc specEnv newRunID (WorkflowLease.mk ms)).err
        = some consts.ErrWorkflowCompleted)
    ∧ (specEnv.IsWorkflowExecutionRunning ms = true →
      (terminateWorkflowActionFunc specEnv newRunID (WorkflowLease.mk ms)).action
        = some UpdateWorkflowWithoutWorkflowTask
      ∧ (terminateWorkflowActionFunc specEnv newRunID (WorkflowLease.mk ms)).err = none
      ∧ specEnv.IsWorkflowExecutionRunning
          (terminateWorkflowActionFunc specEnv newRunID (WorkflowLease.mk ms)).mutableState
        = false
      ∧ (terminateWorkflowActionFunc specEnv newRunID
          (WorkflowLease.mk ms)).mutableState.terminations.length
        = ms.terminations.length + 1) := by
  constructor
  · intro hr
    simp [terminateWorkflowActionFunc, WorkflowLease.GetMutableState, hr]
  · intro hr
    have hgo : terminateWorkflowActionFunc specEnv newRunID (WorkflowLease.mk ms)
        = terminateStep specEnv newRunID ms := by
      simp [terminateWorkflowActionFunc, terminateStep, WorkflowLease.GetMutableState, hr]
    rw [hgo]
    refine ⟨rfl, rfl, ?_, ?_⟩
    · simp only [terminateStep, specEnv, MutableState.TerminateWorkflow,
        MutableState.IsWorkflowExecutionRunning]
      rfl
    · simp [terminateStep, specEnv, MutableState.TerminateWorkflow]

/-- The invariant holds before any caller has moved. -/
theorem LeasedExecution.Invariant.initial (mutableState : MutableState) :
    LeasedExecution.Invariant mutableState (LeasedExecution.initial mutableState) where
  lease := by intro c; simp [LeasedExecution.initial, Phase.holdsLease]
  fresh := by intro c ms h; simp [LeasedExecution.initial] at h
  shape := by intro c action err h; simp [LeasedExecution.initial, Phase.outcome] at h
  stopped := by intro c h; simp [LeasedExecution.initial, Phase.outcome] at h
  single := by
    intro c c' h
    simp [LeasedExecution.initial, Phase.terminated, Phase.outcome] at h
  untouched := by intro _; rfl
  applied := by
    intro c h
    simp [LeasedExecution.initial, Phase.terminated, Phase.outcome] at h

/-- Changing the phase of one caller, the holder and the mutable state keeps the
invariant when the new phase agrees with the new holder and mutable state and
the other callers are not disturbed. -/
theorem LeasedExecution.Invariant.update {initialState : MutableState}
    {s : LeasedExecution MutableState}
    (h : LeasedExecution.Invariant initialState s) (c : Caller) (p : Phase MutableState)
    (holder : Option Caller) (mutableState : MutableState)
    (hlease : p.holdsLease = true ↔ holder = some c)
    (hothers : ∀ c', c' ≠ c → ((s.phase c').holdsLease = true ↔ holder = some c'))
    (hfresh : ∀ ms, p = Phase.leased ms → ms = mutableState)
    (hfreshs : ∀ c' ms, c' ≠ c → s.phase c' = Phase.leased ms → ms = mutableState)
    (hshape : ∀ action err, p.outcome = some (action, err) →
      (action = none ∧ err = some consts.ErrWorkflowCompleted)
      ∨ (action = some UpdateWorkflowWithoutWorkflowTask ∧ err = none))
    (hstopped : p.outcome ≠ none → specEnv.IsWorkflowExecutionRunning mutableState = false)
    (hstoppeds : ∀ c', c' ≠ c → (s.phase c').outcome ≠ none →
      specEnv.IsWorkflowExecutionRunning mutableState = false)
    (hsingle : p.terminated = true → ∀ c', c' ≠ c → (s.phase c').terminated = false)
    (huntouched : p.terminated = false → (∀ c', c' ≠ c → (s.phase c').terminated = false) →
      mutableState = initialState)
    (happlied : p.terminated = true →
      mutableState.terminations.length = initialState.terminations.length + 1)
    (happlieds : ∀ c', c' ≠ c → (s.phase c').terminated = true →
      mutableState.terminations.length = initialState.terminations.length + 1) :
    LeasedExecution.Invariant initialState
      { mutableState := mutableState, holder := holder,
        phase := Function.update s.phase c p } where
  lease := by
    intro c'
    by_cases hc : c' = c
    · subst hc; simpa using hlease
    · simpa [Function.update_noteq hc] using hothers c' hc
  fresh := by
    intro c' ms hc'
    by_cases hc : c' = c
    · subst hc; exact hfresh ms (by simpa using hc')
    · exact hfreshs c' ms hc (by simpa [Function.update_noteq hc] using hc')
  shape := by
    intro c' action err hc'
    by_cases hc : c' = c
    · subst hc; exact hshape action err (by simpa using hc')
    · exact h.shape c' action err (by simpa [Function.update_noteq hc] using hc')
  stopped := by
    intro c' hc'
    by_cases hc : c' = c
    · subst hc; exact hstopped (by simpa using hc')
    · exact hstoppeds c' hc (by simpa [Function.update_noteq hc] using hc')
  single := by
    intro c' c'' hc' hc''
    by_cases h1 : c' = c
    · by_cases h2 : c'' = c
      · rw [h1, h2]
      · subst h1
        have hp : p.terminated = true := by simpa using hc'
        have := hsingle hp c'' h2
        simp [Function.update_noteq h2, this] at hc''
    · by_cases h2 : c'' = c
      · subst h2
        have hp : p.terminated = true := by simpa using hc''
        have := hsingle hp c' h1
        simp [Function.update_noteq h1, this] at hc'
      · exact h.single c' c'' (by simpa [Function.update_noteq h1] using hc')
          (by simpa [Function.update_noteq h2] using hc'')
  untouched := by
    intro hall
    apply huntouched
    · simpa using hall c
    · intro c' hc
      simpa [Function.update_noteq hc] using hall c'
  applied := by
    intro c' hc'
    by_cases hc : c' = c
    · subst hc; exact happlied (by simpa using hc')
    · exact happlieds c' hc (by simpa [Function.update_noteq hc] using hc')

/-- Every step of a caller preserves the invariant. -/
theorem LeasedExecution.Invariant.step {initialState : MutableState}
    (newRunID : Caller → String) {s : LeasedExecution MutableState} (c : Caller)
    (h : LeasedExecution.Invariant initialState s) :
    LeasedExecution.Invariant initialState (LeasedExecution.step specEnv newRunID s c) := by
  have hexcl : ∀ c', c' ≠ c → s.holder = some c → (s.phase c').holdsLease = false := by
    intro c' hne hc
    cases hl : (s.phase c').holdsLease
    · rfl
    · have := (h.lease c').mp hl
      rw [hc] at this
      exact absurd (Option.some.inj this).symm hne
  have hflag : ∀ c', (s.phase c').terminated = true → (s.phase c').outcome ≠ none := by
    intro c' ht hn
    simp [Phase.terminated, hn] at ht
  unfold LeasedExecution.step
  split
  next hp =>
    split
    next hfree =>
      apply h.update
      · simp [Phase.holdsLease]
      · intro c' hne
        constructor
        · intro hl
          have := (h.lease c').mp hl
          rw [hfree] at this
          cases this
        · intro hl
          exact absurd (Option.some.inj hl).symm hne
      · intro ms hl
        cases hl
        rfl
      · intro c' ms _ hc'; exact h.fresh c' ms hc'
      · intro action err hl; simp [Phase.outcome] at hl
      · intro hl; simp [Phase.outcome] at hl
      · intro c' _ hc'; exact h.stopped c' hc'
      · intro hl; simp [Phase.terminated, Phase.outcome] at hl
      · intro _ hall
        apply h.untouched
        intro c'
        by_cases hc : c' = c
        · subst hc; rw [hp]; rfl
        · exact hall c' hc
      · intro hl; simp [Phase.terminated, Phase.outcome] at hl
      · intro c' _ hc'; exact h.applied c' hc'
    next => exact h
  next ms hp =>
    have hheld : s.holder = some c := (h.lease c).mp (by rw [hp]; rfl)
    have hms : ms = s.mutableState := h.fresh c ms hp
    subst hms
    have hcnot : (s.phase c).terminated = false := by rw [hp]; rfl
    obtain ⟨hdead, hlive⟩ := terminateWorkflowActionFunc_specEnv (newRunID c) s.mutableState
    cases hr : specEnv.IsWorkflowExecutionRunning s.mutableState with
    | false =>
      obtain ⟨hstate, haction, herr⟩ := hdead hr
      simp only [hstate, haction, herr]
      apply h.update
      · simp [Phase.holdsLease, hheld]
      · intro c' _; exact h.lease c'
      · intro ms' hl; cases hl
      · intro c' ms' _ hc'; exact h.fresh c' ms' hc'
      · intro action err hl
        simp only [Phase.outcome, Option.some.injEq, Prod.mk.injEq] at hl
        exact Or.inl ⟨hl.1.symm, hl.2.symm⟩
      · intro _; exact hr
      · intro c' _ _; exact hr
      · intro hl; simp [Phase.terminated, Phase.outcome, consts.ErrWorkflowCompleted] at hl
      · intro _ hall
        apply h.untouched
        intro c'
        by_cases hc : c' = c
        · subst hc; exact hcnot
        · exact hall c' hc
      · intro hl; simp [Phase.terminated, Phase.outcome, consts.ErrWorkflowCompleted] at hl
      · intro c' _ hc'; exact h.applied c' hc'
    | true =>
      obtain ⟨haction, herr, hstop, hcount⟩ := hlive hr
      have hnone : ∀ c', (s.phase c').terminated = false := by
        intro c'
        cases ht : (s.phase c').terminated
        · rfl
        · have := h.stopped c' (hflag c' ht)
          rw [hr] at this
          cases this
      have hinit : s.mutableState = initialState := h.untouched hnone
      simp only [haction, herr]
      apply h.update
      · simp [Phase.holdsLease, hheld]
      · intro c' _; exact h.lease c'
      · intro ms' hl; cases hl
      · intro c' ms' hne hc'
        have := hexcl c' hne hheld
        rw [hc'] at this
        cases this
      · intro action err hl
        simp only [Phase.outcome, Option.some.injEq, Prod.mk.injEq] at hl
        exact Or.inr ⟨hl.1.symm, hl.2.symm⟩
      · intro _; exact hstop
      · intro c' _ _; exact hstop
      · intro _ c' _; exact hnone c'
      · intro hl; simp [Phase.terminated, Phase.outcome] at hl
      · intro _; rw [hcount, hinit]
      · intro c' _ hc'
        rw [hnone c'] at hc'
        cases hc'
  next action err hp =>
    have hheld : s.holder = some c := (h.lease c).mp (by rw [hp]; rfl)
    have hsame : (Phase.released action err : Phase MutableState).terminated
        = (s.phase c).terminated := by
      rw [hp]; rfl
    have hout : (Phase.released action err : Phase MutableState).outcome
        = (s.phase c).outcome := by
      rw [hp]; rfl
    apply h.update
    · simp [Phase.holdsLease]
    · intro c' hne
      constructor
      · intro hl
        have := hexcl c' hne hheld
        rw [hl] at this
        cases this
      · intro hl; cases hl
    · intro ms' hl; cases hl
    · intro c' ms' _ hc'; exact h.fresh c' ms' hc'
    · intro a e hl
      rw [hout] at hl
      exact h.shape c a e hl
    · intro hl
      rw [hout] at hl
      exact h.stopped c hl
    · intro c' _ hc'; exact h.stopped c' hc'
    · intro hl c' hne
      rw [hsame] at hl
      cases ht : (s.phase c').terminated
      · rfl
      · exact absurd (h.single c' c ht hl) hne
    · intro hl hall
      apply h.untouched
      intro c'
      by_cases hc : c' = c
      · subst hc; rw [← hsame]; exact hl
      · exact hall c' hc
    · intro hl
      rw [hsame] at hl
      exact h.applied c hl
    · intro c' _ hc'; exact h.applied c' hc'
  next => exact h

/-- The invariant holds after every interleaving of the two callers. -/
theorem LeasedExecution.Invariant.run {initialState : MutableState}
    (newRunID : Caller → String) (interleaving : List Caller)
    {s : LeasedExecution MutableState} (h : LeasedExecution.Invariant initialState s) :
    LeasedExecution.Invariant initialState
      (LeasedExecution.run specEnv newRunID s interleaving) := by
  induction interleaving generalizing s with
  | nil => exact h
  | cons c rest ih => exact ih (h.step newRunID c)

/-- Every step keeps the results of each caller among those the closure of
`terminateWorkflowAction`, built from the `newRunID` of that caller, returns on
some lease. -/
theorem LeasedExecution.outcome_step {MS : Type} (d : Env MS)
    (newRunID : Caller → String) (s : LeasedExecution MS) (c : Caller)
    (h : ∀ c' action err, (s.phase c').outcome = some (action, err) →
      ∃ ms, action = (terminateWorkflowActionFunc d (newRunID c') (WorkflowLease.mk ms)).action
        ∧ err = (terminateWorkflowActionFunc d (newRunID c') (WorkflowLease.mk ms)).err) :
    ∀ c' action err,
      ((LeasedExecution.step d newRunID s c).phase c').outcome = some (action, err) →
      ∃ ms, action = (terminateWorkflowActionFunc d (newRunID c') (WorkflowLease.mk ms)).action
        ∧ err = (terminateWorkflowActionFunc d (newRunID c') (WorkflowLease.mk ms)).err := by
  intro c' action err
  unfold LeasedExecution.step
  split
  next hp =>
    split
    · by_cases hc : c' = c
      · subst hc; simp [Phase.outcome]
      · simpa [Function.update_noteq hc] using h c' action err
    · exact h c' action err
  next ms hp =>
    by_cases hc : c' = c
    · subst hc
      simp only [Function.update_same, Phase.outcome, Option.some.injEq, Prod.mk.injEq]
      rintro ⟨rfl, rfl⟩
      exact ⟨ms, rfl, rfl⟩
    · simpa [Function.update_noteq hc] using h c' action err
  next a e hp =>
    by_cases hc : c' = c
    · subst hc
      simp only [Function.update_same, Phase.outcome]
      intro hout
      exact h c' action err (by rw [hp]; exact hout)
    · simpa [Function.update_noteq hc] using h c' action err
  next => exact h c' action err

/-- After every interleaving the results of each caller are those the closure
of `terminateWorkflowAction` returns on some lease. -/
theorem LeasedExecution.outcome_run {MS : Type} (d : Env MS)
    (newRunID : Caller → String) (interleaving : List Caller) (s : LeasedExecution MS)
    (h : ∀ c' action err, (s.phase c').outcome = some (action, err) →
      ∃ ms, action = (terminateWorkflowActionFunc d (newRunID c') (WorkflowLease.mk ms)).action
        ∧ err = (terminateWorkflowActionFunc d (newRunID c') (WorkflowLease.mk ms)).err) :
    ∀ c' action err,
      ((LeasedExecution.run d newRunID s interleaving).phase c').outcome
        = some (action, err) →
      ∃ ms, action = (terminateWorkflowActionFunc d (newRunID c') (WorkflowLease.mk ms)).action
        ∧ err = (terminateWorkflowActionFunc d (newRunID c') (WorkflowLease.mk ms)).err := by
  induction interleaving generalizing s with
  | nil => exact h
  | cons c rest ih => exact ih _ (LeasedExecution.outcome_step d newRunID s c h)

end api

namespace api

open enumsspb enumspb serviceerror

/-- C16: two callers that each acquire the exclusive lease of one execution,
invoke under it the closure of `terminateWorkflowAction` on the mutable state the
lease handed out, and release it, never both terminate the execution, whatever
the interleaving of their steps.  When one caller has terminated it and the
action of the other has returned, the other has a nil directive and
`ErrWorkflowCompleted`; the results of each caller are those of the closure on
some lease; the execution carries at most one termination more than at the
start; and on an execution that starts out running, once both actions have
returned, one caller has the directive with a nil error and the other a nil
directive with `ErrWorkflowCompleted`. -/
theorem lease_at_most_one_termination (newRunID : Caller → String)
    (mutableState : MutableState) (interleaving : List Caller) :
    ¬ (((LeasedExecution.run specEnv newRunID (LeasedExecution.initial mutableState)
          interleaving).phase Caller.first).terminated = true
      ∧ ((LeasedExecution.run specEnv newRunID (LeasedExecution.initial mutableState)
          interleaving).phase Caller.second).terminated = true)
    ∧ (∀ (c c' : Caller) (action : Option UpdateWorkflowAction) (err : Option Error),
        c' ≠ c →
        ((LeasedExecution.run specEnv newRunID (LeasedExecution.initial mutableState)
          interleaving).phase c).terminated = true →
        ((LeasedExecution.run specEnv newRunID (LeasedExecution.initial mutableState)
          interleaving).phase c').outcome = some (action, err) →
        action = none ∧ err = some consts.ErrWorkflowCompleted)
    ∧ (∀ (c : Caller) (action : Option UpdateWorkflowAction) (err : Option Error),
        ((LeasedExecution.run specEnv newRunID (LeasedExecution.initial mutableState)
          interleaving).phase c).outcome = some (action, err) →
        ∃ ms,
          action = (terminateWorkflowActionFunc specEnv (newRunID c)
            (WorkflowLease.mk ms)).action
          ∧ err = (terminateWorkflowActionFunc specEnv (newRunID c)
            (WorkflowLease.mk ms)).err)
    ∧ (LeasedExecution.run specEnv newRunID (LeasedExecution.initial mutableState)
          interleaving).mutableState.terminations.length
        ≤ mutableState.terminations.length + 1
    ∧ (specEnv.IsWorkflowExecutionRunning mutableState = true →
        ((LeasedExecution.run specEnv newRunID (LeasedExecution.initial mutableState)
          interleaving).phase Caller.first).outcome ≠ none →
        ((LeasedExecution.run specEnv newRunID (LeasedExecution.initial mutableState)
          interleaving).phase Caller.second).outcome ≠ none →
        (((LeasedExecution.run specEnv newRunID (LeasedExecution.initial mutableState)
            interleaving).phase Caller.first).outcome
            = some (some UpdateWorkflowWithoutWorkflowTask, none)
          ∧ ((LeasedExecution.run specEnv newRunID (LeasedExecution.initial mutableState)
            interleaving).phase Caller.second).outcome
            = some (none, some consts.ErrWorkflowCompleted))
        ∨ (((LeasedExecution.run specEnv newRunID (LeasedExecution.initial mutableState)
            interleaving).phase Caller.second).outcome
            = some (some UpdateWorkflowWithoutWorkflowTask, none)
          ∧ ((LeasedExecution.run specEnv newRunID (LeasedExecution.initial mutableState)
            interleaving).phase Caller.first).outcome
            = some (none, some consts.ErrWorkflowCompleted))) := by
  have hinv := (LeasedExecution.Invariant.initial mutableState).run newRunID interleaving
  have hout := LeasedExecution.outcome_run specEnv newRunID interleaving
    (LeasedExecution.initial mutableState)
    (by intro c' action err h; simp [LeasedExecution.initial, Phase.outcome] at h)
  generalize LeasedExecution.run specEnv newRunID (LeasedExecution.initial mutableState)
    interleaving = s at hinv hout ⊢
  have hother : ∀ (c c' : Caller) (action : Option UpdateWorkflowAction) (err : Option Error),
      c' ≠ c → (s.phase c).terminated = true → (s.phase c').outcome = some (action, err) →
      action = none ∧ err = some consts.ErrWorkflowCompleted := by
    intro c c' action err hne hc hc'
    rcases hinv.shape c' action err hc' with h | ⟨_, he⟩
    · exact h
    · exfalso
      have : (s.phase c').terminated = true := by
        simp [Phase.terminated, hc', he]
      exact hne (hinv.single c' c this hc)
  have hterm : ∀ (c : Caller) (action : Option UpdateWorkflowAction) (err : Option Error),
      (s.phase c).outcome = some (action, err) → (s.phase c).terminated = true →
      (s.phase c).outcome = some (some UpdateWorkflowWithoutWorkflowTask, none) := by
    intro c action err hc ht
    rcases hinv.shape c action err hc with ⟨_, he⟩ | ⟨ha, he⟩
    · simp [Phase.terminated, hc, he, consts.ErrWorkflowCompleted] at ht
    · rw [hc, ha, he]
  refine ⟨?_, hother, hout, ?_, ?_⟩
  · rintro ⟨h1, h2⟩
    have := hinv.single _ _ h1 h2
    cases this
  · by_cases hall : ∀ c, (s.phase c).terminated = false
    · rw [hinv.untouched hall]
      exact Nat.le_succ _
    · push_neg at hall
      obtain ⟨c, hc⟩ := hall
      have hc' : (s.phase c).terminated = true := by
        cases ht : (s.phase c).terminated
        · exact absurd ht hc
        · rfl
      exact le_of_eq (hinv.applied c hc')
  · intro hrun h1 h2
    have hsome : ∃ c, (s.phase c).terminated = true := by
      by_contra hno
      push_neg at hno
      have hall : ∀ c, (s.phase c).terminated = false := by
        intro c
        cases ht : (s.phase c).terminated
        · rfl
        · exact absurd ht (hno c)
      have hstop := hinv.stopped Caller.first h1
      rw [hinv.untouched hall, hrun] at hstop
      cases hstop
    obtain ⟨o1, ho1⟩ := Option.ne_none_iff_exists'.mp h1
    obtain ⟨o2, ho2⟩ := Option.ne_none_iff_exists'.mp h2
    obtain ⟨c, hc⟩ := hsome
    cases c with
    | first =>
      left
      refine ⟨hterm Caller.first o1.1 o1.2 ho1 hc, ?_⟩
      have := hother Caller.first Caller.second o2.1 o2.2 (by decide) hc ho2
      rw [ho2]
      obtain ⟨a, e⟩ := o2
      simp only at this
      rw [this.1, this.2]
    | second =>
      right
      refine ⟨hterm Caller.second o2.1 o2.2 ho2 hc, ?_⟩
      have := hother Caller.second Caller.first o1.1 o1.2 (by decide) hc ho1
      rw [ho1]
      obtain ⟨a, e⟩ := o1
      simp only at this
      rw [this.1, this.2]

/-- Witness of C16: on a running execution the first caller takes the lease
while the second waits, terminates the run and releases; the second then takes
the lease and finds the run completed. -/
theorem lease_at_most_one_termination_witness :
    specEnv.IsWorkflowExecutionRunning
        (MutableState.mk WORKFLOW_EXECUTION_STATE_RUNNING WORKFLOW_EXECUTION_STATUS_RUNNING [])
      = true
    ∧ (LeasedExecution.run specEnv (fun _ => "run-2")
          (LeasedExecution.initial (MutableState.mk WORKFLOW_EXECUTION_STATE_RUNNING
            WORKFLOW_EXECUTION_STATUS_RUNNING []))
          [Caller.first, Caller.second, Caller.first, Caller.second, Caller.first,
           Caller.second, Caller.second, Caller.second]).phase Caller.first
        = Phase.released (some UpdateWorkflowWithoutWorkflowTask) none
    ∧ (LeasedExecution.run specEnv (fun _ => "run-2")
          (LeasedExecution.initial (MutableState.mk WORKFLOW_EXECUTION_STATE_RUNNING
            WORKFLOW_EXECUTION_STATUS_RUNNING []))
          [Caller.first, Caller.second, Caller.first, Caller.second, Caller.first,
           Caller.second, Caller.second, Caller.second]).phase Caller.second
        = Phase.released none (some consts.ErrWorkflowCompleted)
    ∧ ((((LeasedExecution.run specEnv (fun _ => "run-2")
          (LeasedExecution.initial (MutableState.mk WORKFLOW_EXECUTION_STATE_RUNNING
            WORKFLOW_EXECUTION_STATUS_RUNNING []))
          [Caller.first, Caller.second, Caller.first, Caller.second, Caller.first,
           Caller.second, Caller.second, Caller.second]).phase Caller.first).outcome
            = some (some UpdateWorkflowWithoutWorkflowTask, none)
        ∧ ((LeasedExecution.run specEnv (fun _ => "run-2")
          (LeasedExecution.initial (MutableState.mk WORKFLOW_EXECUTION_STATE_RUNNING
            WORKFLOW_EXECUTION_STATUS_RUNNING []))
          [Caller.first, Caller.second, Caller.first, Caller.second, Caller.first,
           Caller.second, Caller.second, Caller.second]).phase Caller.second).outcome
            = some (none, some consts.ErrWorkflowCompleted))
      ∨ (((LeasedExecution.run specEnv (fun _ => "run-2")
          (LeasedExecution.initial (MutableState.mk WORKFLOW_EXECUTION_STATE_RUNNING
            WORKFLOW_EXECUTION_STATUS_RUNNING []))
          [Caller.first, Caller.second, Caller.first, Caller.second, Caller.first,
           Caller.second, Caller.second, Caller.second]).phase Caller.second).outcome
            = some (some UpdateWorkflowWithoutWorkflowTask, none)
        ∧ ((LeasedExecution.run specEnv (fun _ => "run-2")
          (LeasedExecution.initial (MutableState.mk WORKFLOW_EXECUTION_STATE_RUNNING
            WORKFLOW_EXECUTION_STATUS_RUNNING []))
          [Caller.first, Caller.second, Caller.first, Caller.second, Caller.first,
           Caller.second, Caller.second, Caller.second]).phase Caller.first).outcome
            = some (none, some consts.ErrWorkflowCompleted))) :=
  ⟨by decide, by decide, by decide,
   (lease_at_most_one_termination (fun _ => "run-2")
     (MutableState.mk WORKFLOW_EXECUTION_STATE_RUNNING WORKFLOW_EXECUTION_STATUS_RUNNING [])
     [Caller.first, Caller.second, Caller.first, Caller.second, Caller.first,
      Caller.second, Caller.second, Caller.second]).2.2.2.2
     (by decide) (by decide) (by decide)⟩

end api

/-! ### Generated Thrift helpers -/

namespace shared

open cadence matching

/-- C17: for both generated helpers `UnwrapResponse` undoes `WrapResponse`: a
non-nil success value wrapped with a nil error unwraps to that value and a nil
error, and a non-nil error of a declared exception type, wrapped with any
success value, unwraps to a nil value and that error. -/
theorem wrap_unwrap_round_trip (T : Types)
    (history : T.GetWorkflowExecutionHistoryResponse) (query : T.QueryWorkflowResponse)
    (historySuccess : Option T.GetWorkflowExecutionHistoryResponse)
    (querySuccess : Option T.QueryWorkflowResponse)
    (err : Error T) (hnonnil : err.isNilPointer = false) :
    (∃ result,
      WorkflowService_GetWorkflowExecutionHistory_Helper.WrapResponse (some history) none
        = (some result, none)
      ∧ WorkflowService_GetWorkflowExecutionHistory_Helper.UnwrapResponse result
        = (some history, none))
    ∧ (WorkflowService_GetWorkflowExecutionHistory_Helper.IsException (some err) = true →
      ∃ result,
        WorkflowService_GetWorkflowExecutionHistory_Helper.WrapResponse historySuccess (some err)
          = (some result, none)
        ∧ WorkflowService_GetWorkflowExecutionHistory_Helper.UnwrapResponse result
          = (none, some err))
    ∧ (∃ result,
      MatchingService_QueryWorkflow_Helper.WrapResponse (some query) none
        = (some result, none)
      ∧ MatchingService_QueryWorkflow_Helper.UnwrapResponse result = (some query, none))
    ∧ (MatchingService_QueryWorkflow_Helper.IsException (some err) = true →
      ∃ result,
        MatchingService_QueryWorkflow_Helper.WrapResponse querySuccess (some err)
          = (some result, none)
        ∧ MatchingService_QueryWorkflow_Helper.UnwrapResponse result = (none, some err)) := by
  refine ⟨⟨_, rfl, rfl⟩, ?_, ⟨_, rfl, rfl⟩, ?_⟩
  · intro hex
    cases err with
    | BadRequestError e | InternalServiceError e | EntityNotExistsError e
    | ServiceBusyError e =>
      cases e with
      | none => simp [Error.isNilPointer] at hnonnil
      | some x => exact ⟨_, rfl, rfl⟩
    | QueryFailedError e | LimitExceededError e | other m =>
      simp [WorkflowService_GetWorkflowExecutionHistory_Helper.IsException] at hex
  · intro hex
    cases err with
    | BadRequestError e | InternalServiceError e | EntityNotExistsError e
    | ServiceBusyError e | QueryFailedError e | LimitExceededError e =>
      cases e with
      | none => simp [Error.isNilPointer] at hnonnil
      | some x => exact ⟨_, rfl, rfl⟩
    | other m =>
      simp [MatchingService_QueryWorkflow_Helper.IsException] at hex

/-- Witness of C17: a non-nil service-busy error, which both functions declare. -/
theorem wrap_unwrap_round_trip_witness :
    (Error.ServiceBusyError (some "busy") : Error sampleTypes).isNilPointer = false
    ∧ (∃ result,
        WorkflowService_GetWorkflowExecutionHistory_Helper.WrapResponse
            (T := sampleTypes) (some "history") none = (some result, none)
        ∧ WorkflowService_GetWorkflowExecutionHistory_Helper.UnwrapResponse result
          = (some "history", none))
    ∧ (∃ result,
        WorkflowService_GetWorkflowExecutionHistory_Helper.WrapResponse
            (T := sampleTypes) (some "history") (some (Error.ServiceBusyError (some "busy")))
          = (some result, none)
        ∧ WorkflowService_GetWorkflowExecutionHistory_Helper.UnwrapResponse result
          = (none, some (Error.ServiceBusyError (some "busy"))))
    ∧ (∃ result,
        MatchingService_QueryWorkflow_Helper.WrapResponse
            (T := sampleTypes) none (some (Error.ServiceBusyError (some "busy")))
          = (some result, none)
        ∧ MatchingService_QueryWorkflow_Helper.UnwrapResponse result
          = (none, some (Error.ServiceBusyError (some "busy")))) :=
  have h := wrap_unwrap_round_trip sampleTypes "history" "query" (some "history") none
    (Error.ServiceBusyError (some "busy")) rfl
  ⟨rfl, h.1, h.2.1 rfl, h.2.2.2 rfl⟩

end shared

namespace shared

open cadence matching

/-- C18: `WrapResponse` hands back an error that the function cannot throw: when
`IsException` is false on a non-nil error the result is nil and the error is
returned itself; `WrapResponse` returns a non-nil error exactly when the error
given is non-nil and either `IsException` is false on it or it is a nil pointer
of a declared exception type; `IsException` is true exactly on the declared
exception types, four for `GetWorkflowExecutionHistory` and six for
`QueryWorkflow`. -/
theorem wrap_response_errors (T : Types)
    (historySuccess : Option T.GetWorkflowExecutionHistoryResponse)
    (querySuccess : Option T.QueryWorkflowResponse)
    (err : Option (Error T)) :
    (∀ e, err = some e →
      WorkflowService_GetWorkflowExecutionHistory_Helper.IsException err = false →
      WorkflowService_GetWorkflowExecutionHistory_Helper.WrapResponse historySuccess err
        = (none, some e))
    ∧ ((WorkflowService_GetWorkflowExecutionHistory_Helper.WrapResponse
          historySuccess err).2.isSome = true
      ↔ ∃ e, err = some e
          ∧ (WorkflowService_GetWorkflowExecutionHistory_Helper.IsException err = false
            ∨ (WorkflowService_GetWorkflowExecutionHistory_Helper.IsException err = true
              ∧ e.isNilPointer = true)))
    ∧ (WorkflowService_GetWorkflowExecutionHistory_Helper.IsException err = true
      ↔ (∃ p, err = some (Error.BadRequestError p))
        ∨ (∃ p, err = some (Error.InternalServiceError p))
        ∨ (∃ p, err = some (Error.EntityNotExistsError p))
        ∨ (∃ p, err = some (Error.ServiceBusyError p)))
    ∧ (∀ e, err = some e →
      MatchingService_QueryWorkflow_Helper.IsException err = false →
      MatchingService_QueryWorkflow_Helper.WrapResponse querySuccess err = (none, some e))
    ∧ ((MatchingService_QueryWorkflow_Helper.WrapResponse querySuccess err).2.isSome = true
      ↔ ∃ e, err = some e
          ∧ (MatchingService_QueryWorkflow_Helper.IsException err = false
            ∨ (MatchingService_QueryWorkflow_Helper.IsException err = true
              ∧ e.isNilPointer = true)))
    ∧ (MatchingService_QueryWorkflow_Helper.IsException err = true
      ↔ (∃ p, err = some (Error.BadRequestError p))
        ∨ (∃ p, err = some (Error.InternalServiceError p))
        ∨ (∃ p, err = some (Error.EntityNotExistsError p))
        ∨ (∃ p, err = some (Error.QueryFailedError p))
        ∨ (∃ p, err = some (Error.LimitExceededError p))
        ∨ (∃ p, err = some (Error.ServiceBusyError p))) := by
  cases err with
  | none =>
    simp [WorkflowService_GetWorkflowExecutionHistory_Helper.IsException,
      WorkflowService_GetWorkflowExecutionHistory_Helper.WrapResponse,
      MatchingService_QueryWorkflow_Helper.IsException,
      MatchingService_QueryWorkflow_Helper.WrapResponse]
  | some e =>
    cases e with
    | BadRequestError p | InternalServiceError p | EntityNotExistsError p
    | ServiceBusyError p | QueryFailedError p | LimitExceededError p =>
      cases p <;>
        simp [WorkflowService_GetWorkflowExecutionHistory_Helper.IsException,
          WorkflowService_GetWorkflowExecutionHistory_Helper.WrapResponse,
          MatchingService_QueryWorkflow_Helper.IsException,
          MatchingService_QueryWorkflow_Helper.WrapResponse, Error.isNilPointer]
    | other m =>
      simp [WorkflowService_GetWorkflowExecutionHistory_Helper.IsException,
        WorkflowService_GetWorkflowExecutionHistory_Helper.WrapResponse,
        MatchingService_QueryWorkflow_Helper.IsException,
        MatchingService_QueryWorkflow_Helper.WrapResponse, Error.isNilPointer]

/-- Witness of C18: a query-failed error, which `QueryWorkflow` declares and
`GetWorkflowExecutionHistory` does not. -/
theorem wrap_response_errors_witness :
    WorkflowService_GetWorkflowExecutionHistory_Helper.IsException
        (some (Error.QueryFailedError (some "failed") : Error sampleTypes)) = false
    ∧ WorkflowService_GetWorkflowExecutionHistory_Helper.WrapResponse
        (T := sampleTypes) (some "history") (some (Error.QueryFailedError (some "failed")))
      = (none, some (Error.QueryFailedError (some "failed")))
    ∧ MatchingService_QueryWorkflow_Helper.IsException
        (some (Error.QueryFailedError (some "failed") : Error sampleTypes)) = true := by
  have h := wrap_response_errors sampleTypes (some "history") none
    (some (Error.QueryFailedError (some "failed")))
  exact ⟨rfl, h.1 _ rfl rfl, h.2.2.2.2.2.mpr (Or.inr (Or.inr (Or.inr (Or.inl ⟨_, rfl⟩))))⟩

/-- C19: the claim fails at a result with no field set, the result that
`WrapResponse(nil, nil)` builds.  It has no exception field set, and both helpers
unwrap it to the non-nil error "expected a non-void result", although their doc
comment says the error is non-nil only if the function threw an exception. -/
theorem unwrap_empty_result_error :
    (({} : WorkflowService_GetWorkflowExecutionHistory_Result sampleTypes).BadRequestError
        = none
      ∧ ({} : WorkflowService_GetWorkflowExecutionHistory_Result sampleTypes).InternalServiceError
        = none
      ∧ ({} : WorkflowService_GetWorkflowExecutionHistory_Result sampleTypes).EntityNotExistError
        = none
      ∧ ({} : WorkflowService_GetWorkflowExecutionHistory_Result sampleTypes).ServiceBusyError
        = none)
    ∧ WorkflowService_GetWorkflowExecutionHistory_Helper.UnwrapResponse
        ({} : WorkflowService_GetWorkflowExecutionHistory_Result sampleTypes)
      = (none, some (Error.other "expected a non-void result"))
    ∧ MatchingService_QueryWorkflow_Helper.UnwrapResponse
        ({} : MatchingService_QueryWorkflow_Result sampleTypes)
      = (none, some (Error.other "expected a non-void result"))
    ∧ WorkflowService_GetWorkflowExecutionHistory_Helper.WrapResponse
        (T := sampleTypes) none none
      = (some {}, none) :=
  ⟨⟨rfl, rfl, rfl, rfl⟩, rfl, rfl, rfl⟩

/-- What `UnwrapResponse` returns, for every result: the error is non-nil exactly
when one of the exception fields of the result is set or the result has no
success value; a result with no exception field set unwraps to its success
value and a nil error when it has one, and to the error "expected a non-void
result" when it has none. -/
theorem unwrap_response_error (T : Types)
    (history : WorkflowService_GetWorkflowExecutionHistory_Result T)
    (query : MatchingService_QueryWorkflow_Result T) :
    ((WorkflowService_GetWorkflowExecutionHistory_Helper.UnwrapResponse history).2.isSome
        = true
      ↔ (history.BadRequestError.isSome = true ∨ history.InternalServiceError.isSome = true
          ∨ history.EntityNotExistError.isSome = true
          ∨ history.ServiceBusyError.isSome = true)
        ∨ history.Success = none)
    ∧ (history.BadRequestError = none → history.InternalServiceError = none →
        history.EntityNotExistError = none → history.ServiceBusyError = none →
        WorkflowService_GetWorkflowExecutionHistory_Helper.UnwrapResponse history
          = (if history.Success.isSome then (history.Success, none)
             else (none, some (Error.other "expected a non-void result"))))
    ∧ ((MatchingService_QueryWorkflow_Helper.UnwrapResponse query).2.isSome = true
      ↔ (query.BadRequestError.isSome = true ∨ query.InternalServiceError.isSome = true
          ∨ query.EntityNotExistError.isSome = true ∨ query.QueryFailedError.isSome = true
          ∨ query.LimitExceededError.isSome = true ∨ query.ServiceBusyError.isSome = true)
        ∨ query.Success = none)
    ∧ (query.BadRequestError = none → query.InternalServiceError = none →
        query.EntityNotExistError = none → query.QueryFailedError = none →
        query.LimitExceededError = none → query.ServiceBusyError = none →
        MatchingService_QueryWorkflow_Helper.UnwrapResponse query
          = (if query.Success.isSome then (query.Success, none)
             else (none, some (Error.other "expected a non-void result")))) := by
  refine ⟨?_, ?_, ?_, ?_⟩
  · rcases history with ⟨_ | s, _ | b, _ | i, _ | e, _ | sb⟩ <;>
      simp [WorkflowService_GetWorkflowExecutionHistory_Helper.UnwrapResponse, errors_New]
  · intro h1 h2 h3 h4
    simp [WorkflowService_GetWorkflowExecutionHistory_Helper.UnwrapResponse, h1, h2, h3, h4,
      errors_New]
  · rcases query with ⟨_ | s, _ | b, _ | i, _ | e, _ | q, _ | l, _ | sb⟩ <;>
      simp [MatchingService_QueryWorkflow_Helper.UnwrapResponse, errors_New]
  · intro h1 h2 h3 h4 h5 h6
    simp [MatchingService_QueryWorkflow_Helper.UnwrapResponse, h1, h2, h3, h4, h5, h6,
      errors_New]

/-- The characterisation of `UnwrapResponse` at a result that carries only a
success value. -/
theorem unwrap_response_error_witness :
    WorkflowService_GetWorkflowExecutionHistory_Helper.UnwrapResponse
        ({ Success := some "history" } :
          WorkflowService_GetWorkflowExecutionHistory_Result sampleTypes)
      = (if (some "history" : Option String).isSome then (some "history", none)
         else (none, some (Error.other "expected a non-void result")))
    ∧ MatchingService_QueryWorkflow_Helper.UnwrapResponse
        ({ Success := some "answer" } : MatchingService_QueryWorkflow_Result sampleTypes)
      = (if (some "answer" : Option String).isSome then (some "answer", none)
         else (none, some (Error.other "expected a non-void result"))) :=
  have h := unwrap_response_error sampleTypes { Success := some "history" }
    { Success := some "answer" }
  ⟨h.2.1 rfl rfl rfl rfl, h.2.2.2 rfl rfl rfl rfl rfl rfl⟩

end shared

namespace wire

/-- A block of `ToWire` on a field whose own `ToWire` succeeds when it is set
appends what `written` says and goes on. -/
theorem putField_ok {α E : Type} (toWire : α → Value × Option E) (x : Option α) (id : Int)
    (fields : List (Field Value)) (h : ∀ a, x = some a → (toWire a).2 = none) :
    putField toWire x id fields = Except.ok (fields ++ written toWire x id) := by
  cases x with
  | none => simp [putField, written]
  | some a =>
    have ha := h a rfl
    rcases hw : toWire a with ⟨w, e⟩
    rw [hw] at ha
    cases e with
    | none => simp [putField, written, hw]
    | some err => cases ha

end wire

namespace shared

open cadence matching

/-- C20: when the `ToWire` of every set field succeeds, `ToWire` of either result
struct returns an error exactly when the number of non-nil fields is not 1; with
exactly one field set it returns a wire struct with that single field, under its
Thrift ID: 0 for `Success`, then the exception fields from 1 in declaration
order. -/
theorem result_ToWire_exactly_one_field (T : Types) (enc : Encoders T)
    (history : WorkflowService_GetWorkflowExecutionHistory_Result T)
    (query : MatchingService_QueryWorkflow_Result T)
    (hhistory :
      (∀ x, history.Success = some x →
        (enc.GetWorkflowExecutionHistoryResponse_ToWire x).2 = none)
      ∧ (∀ x, history.BadRequestError = some x → (enc.BadRequestError_ToWire x).2 = none)
      ∧ (∀ x, history.InternalServiceError = some x →
        (enc.InternalServiceError_ToWire x).2 = none)
      ∧ (∀ x, history.EntityNotExistError = some x →
        (enc.EntityNotExistsError_ToWire x).2 = none)
      ∧ (∀ x, history.ServiceBusyError = some x → (enc.ServiceBusyError_ToWire x).2 = none))
    (hquery :
      (∀ x, query.Success = some x → (enc.QueryWorkflowResponse_ToWire x).2 = none)
      ∧ (∀ x, query.BadRequestError = some x → (enc.BadRequestError_ToWire x).2 = none)
      ∧ (∀ x, query.InternalServiceError = some x →
        (enc.InternalServiceError_ToWire x).2 = none)
      ∧ (∀ x, query.EntityNotExistError = some x →
        (enc.EntityNotExistsError_ToWire x).2 = none)
      ∧ (∀ x, query.QueryFailedError = some x → (enc.QueryFailedError_ToWire x).2 = none)
      ∧ (∀ x, query.LimitExceededError = some x → (enc.LimitExceededError_ToWire x).2 = none)
      ∧ (∀ x, query.ServiceBusyError = some x → (enc.ServiceBusyError_ToWire x).2 = none)) :
    ((history.ToWire enc).2.isSome = true ↔ history.count ≠ 1)
    ∧ (history.count = 1 →
        (∀ x, history.Success = some x → history.ToWire enc
          = (wire.Value.struct
              [{ ID := 0, Value := (enc.GetWorkflowExecutionHistoryResponse_ToWire x).1 }],
             none))
        ∧ (∀ x, history.BadRequestError = some x → history.ToWire enc
          = (wire.Value.struct [{ ID := 1, Value := (enc.BadRequestError_ToWire x).1 }], none))
        ∧ (∀ x, history.InternalServiceError = some x → history.ToWire enc
          = (wire.Value.struct [{ ID := 2, Value := (enc.InternalServiceError_ToWire x).1 }],
             none))
        ∧ (∀ x, history.EntityNotExistError = some x → history.ToWire enc
          = (wire.Value.struct [{ ID := 3, Value := (enc.EntityNotExistsError_ToWire x).1 }],
             none))
        ∧ (∀ x, history.ServiceBusyError = some x → history.ToWire enc
          = (wire.Value.struct [{ ID := 4, Value := (enc.ServiceBusyError_ToWire x).1 }],
             none)))
    ∧ ((query.ToWire enc).2.isSome = true ↔ query.count ≠ 1)
    ∧ (query.count = 1 →
        (∀ x, query.Success = some x → query.ToWire enc
          = (wire.Value.struct [{ ID := 0, Value := (enc.QueryWorkflowResponse_ToWire x).1 }],
             none))
        ∧ (∀ x, query.BadRequestError = some x → query.ToWire enc
          = (wire.Value.struct [{ ID := 1, Value := (enc.BadRequestError_ToWire x).1 }], none))
        ∧ (∀ x, query.InternalServiceError = some x → query.ToWire enc
          = (wire.Value.struct [{ ID := 2, Value := (enc.InternalServiceError_ToWire x).1 }],
             none))
        ∧ (∀ x, query.EntityNotExistError = some x → query.ToWire enc
          = (wire.Value.struct [{ ID := 3, Value := (enc.EntityNotExistsError_ToWire x).1 }],
             none))
        ∧ (∀ x, query.QueryFailedError = some x → query.ToWire enc
          = (wire.Value.struct [{ ID := 4, Value := (enc.QueryFailedError_ToWire x).1 }], none))
        ∧ (∀ x, query.LimitExceededError = some x → query.ToWire enc
          = (wire.Value.struct [{ ID := 5, Value := (enc.LimitExceededError_ToWire x).1 }],
             none))
        ∧ (∀ x, query.ServiceBusyError = some x → query.ToWire enc
          = (wire.Value.struct [{ ID := 6, Value := (enc.ServiceBusyError_ToWire x).1 }],
             none))) := by
  obtain ⟨h0, h1, h2, h3, h4⟩ := hhistory
  obtain ⟨q0, q1, q2, q3, q4, q5, q6⟩ := hquery
  have hkey : history.ToWire enc
      = (if (wire.written enc.GetWorkflowExecutionHistoryResponse_ToWire history.Success 0
            ++ wire.written enc.BadRequestError_ToWire history.BadRequestError 1
            ++ wire.written enc.InternalServiceError_ToWire history.InternalServiceError 2
            ++ wire.written enc.EntityNotExistsError_ToWire history.EntityNotExistError 3
            ++ wire.written enc.ServiceBusyError_ToWire history.ServiceBusyError 4).length ≠ 1
         then
          (wire.Value.zero,
            some (fmt_Errorf "WorkflowService_GetWorkflowExecutionHistory_Result should have exactly one field: got %v fields"
              [toString
                (wire.written enc.GetWorkflowExecutionHistoryResponse_ToWire history.Success 0
                  ++ wire.written enc.BadRequestError_ToWire history.BadRequestError 1
                  ++ wire.written enc.InternalServiceError_ToWire history.InternalServiceError 2
                  ++ wire.written enc.EntityNotExistsError_ToWire history.EntityNotExistError 3
                  ++ wire.written enc.ServiceBusyError_ToWire history.ServiceBusyError 4).length]))
         else
          (wire.Value.struct
            (wire.written enc.GetWorkflowExecutionHistoryResponse_ToWire history.Success 0
              ++ wire.written enc.BadRequestError_ToWire history.BadRequestError 1
              ++ wire.written enc.InternalServiceError_ToWire history.InternalServiceError 2
              ++ wire.written enc.EntityNotExistsError_ToWire history.EntityNotExistError 3
              ++ wire.written enc.ServiceBusyError_ToWire history.ServiceBusyError 4), none)) := by
    simp only [WorkflowService_GetWorkflowExecutionHistory_Result.ToWire,
      wire.putField_ok _ _ _ _ h0, wire.putField_ok _ _ _ _ h1, wire.putField_ok _ _ _ _ h2,
      wire.putField_ok _ _ _ _ h3, wire.putField_ok _ _ _ _ h4, bind, Except.bind, pure,
      Except.pure, wire.NewValueStruct, List.nil_append]
  have qkey : query.ToWire enc
      = (if (wire.written enc.QueryWorkflowResponse_ToWire query.Success 0
            ++ wire.written enc.BadRequestError_ToWire query.BadRequestError 1
            ++ wire.written enc.InternalServiceError_ToWire query.InternalServiceError 2
            ++ wire.written enc.EntityNotExistsError_ToWire query.EntityNotExistError 3
            ++ wire.written enc.QueryFailedError_ToWire query.QueryFailedError 4
            ++ wire.written enc.LimitExceededError_ToWire query.LimitExceededError 5
            ++ wire.written enc.ServiceBusyError_ToWire query.ServiceBusyError 6).length ≠ 1
         then
          (wire.Value.zero,
            some (fmt_Errorf "MatchingService_QueryWorkflow_Result should have exactly one field: got %v fields"
              [toString
                (wire.written enc.QueryWorkflowResponse_ToWire query.Success 0
                  ++ wire.written enc.BadRequestError_ToWire query.BadRequestError 1
                  ++ wire.written enc.InternalServiceError_ToWire query.InternalServiceError 2
                  ++ wire.written enc.EntityNotExistsError_ToWire query.EntityNotExistError 3
                  ++ wire.written enc.QueryFailedError_ToWire query.QueryFailedError 4
                  ++ wire.written enc.LimitExceededError_ToWire query.LimitExceededError 5
                  ++ wire.written enc.ServiceBusyError_ToWire query.ServiceBusyError 6).length]))
         else
          (wire.Value.struct
            (wire.written enc.QueryWorkflowResponse_ToWire query.Success 0
              ++ wire.written enc.BadRequestError_ToWire query.BadRequestError 1
              ++ wire.written enc.InternalServiceError_ToWire query.InternalServiceError 2
              ++ wire.written enc.EntityNotExistsError_ToWire query.EntityNotExistError 3
              ++ wire.written enc.QueryFailedError_ToWire query.QueryFailedError 4
              ++ wire.written enc.LimitExceededError_ToWire query.LimitExceededError 5
              ++ wire.written enc.ServiceBusyError_ToWire query.ServiceBusyError 6), none)) := by
    simp only [MatchingService_QueryWorkflow_Result.ToWire,
      wire.putField_ok _ _ _ _ q0, wire.putField_ok _ _ _ _ q1, wire.putField_ok _ _ _ _ q2,
      wire.putField_ok _ _ _ _ q3, wire.putField_ok _ _ _ _ q4, wire.putField_ok _ _ _ _ q5,
      wire.putField_ok _ _ _ _ q6, bind, Except.bind, pure, Except.pure, wire.NewValueStruct,
      List.nil_append]
  rw [hkey, qkey]
  clear hkey qkey h0 h1 h2 h3 h4 q0 q1 q2 q3 q4 q5 q6
  refine ⟨?_, ?_, ?_, ?_⟩
  · rcases history with ⟨_ | s, _ | b, _ | i, _ | e, _ | sb⟩ <;>
      simp [WorkflowService_GetWorkflowExecutionHistory_Result.count, wire.written]
  · rcases history with ⟨_ | s, _ | b, _ | i, _ | e, _ | sb⟩ <;>
      simp [WorkflowService_GetWorkflowExecutionHistory_Result.count, wire.written]
  · rcases query with ⟨_ | s, _ | b, _ | i, _ | e, _ | q, _ | l, _ | sb⟩ <;>
      simp [MatchingService_QueryWorkflow_Result.count, wire.written]
  · rcases query with ⟨_ | s, _ | b, _ | i, _ | e, _ | q, _ | l, _ | sb⟩ <;>
      simp [MatchingService_QueryWorkflow_Result.count, wire.written]

/-- Witness of C20: a history result that carries only `Success` and a query
result that carries only `ServiceBusyError`, with encoders that succeed. -/
theorem result_ToWire_exactly_one_field_witness :
    (({ Success := some "history" } :
        WorkflowService_GetWorkflowExecutionHistory_Result sampleTypes).ToWire
        sampleEncoders).2.isSome = false
    ∧ ({ Success := some "history" } :
        WorkflowService_GetWorkflowExecutionHistory_Result sampleTypes).ToWire sampleEncoders
      = (wire.Value.struct
          [{ ID := 0,
             Value := (sampleEncoders.GetWorkflowExecutionHistoryResponse_ToWire
               "history").1 }],
         none)
    ∧ ({ ServiceBusyError := some "busy" } :
        MatchingService_QueryWorkflow_Result sampleTypes).ToWire sampleEncoders
      = (wire.Value.struct
          [{ ID := 6, Value := (sampleEncoders.ServiceBusyError_ToWire "busy").1 }], none) :=
  have h := result_ToWire_exactly_one_field sampleTypes sampleEncoders
    { Success := some "history" } { ServiceBusyError := some "busy" }
    ⟨fun _ _ => rfl, fun _ _ => rfl, fun _ _ => rfl, fun _ _ => rfl, fun _ _ => rfl⟩
    ⟨fun _ _ => rfl, fun _ _ => rfl, fun _ _ => rfl, fun _ _ => rfl, fun _ _ => rfl,
     fun _ _ => rfl, fun _ _ => rfl⟩
  ⟨by
    cases hs : (({ Success := some "history" } :
        WorkflowService_GetWorkflowExecutionHistory_Result sampleTypes).ToWire
        sampleEncoders).2.isSome
    · rfl
    · exact absurd rfl (h.1.mp hs),
   (h.2.1 rfl).1 _ rfl,
   (h.2.2.2 rfl).2.2.2.2.2.2 _ rfl⟩

end shared

/-! ### Outcome kinds, atomicity and sequences of terminate actions -/

namespace api

open enumsspb enumspb serviceerror

/-- The kind of outcome of the resolver as a function of the state, the policy
and the membership of the status in `FailedWorkflowStatuses`. -/
theorem outcomeKind_resolve {MS : Type} (d : Env MS)
    (workflowID newRunID currentRunID : String)
    (currentState : WorkflowExecutionState) (currentStatus : WorkflowExecutionStatus)
    (currentStartRequestID : String) (wfIDReusePolicy : WorkflowIdReusePolicy) :
    outcomeKind (ResolveDuplicateWorkflowID d workflowID newRunID currentRunID currentState
        currentStatus currentStartRequestID wfIDReusePolicy)
      = (if currentState = WORKFLOW_EXECUTION_STATE_CREATED
            ∨ currentState = WORKFLOW_EXECUTION_STATE_RUNNING then
          if wfIDReusePolicy = WORKFLOW_ID_REUSE_POLICY_TERMINATE_IF_RUNNING then
            OutcomeKind.terminateAction
          else OutcomeKind.alreadyStarted
         else if currentState = WORKFLOW_EXECUTION_STATE_COMPLETED then
          if wfIDReusePolicy = WORKFLOW_ID_REUSE_POLICY_ALLOW_DUPLICATE
              ∨ wfIDReusePolicy = WORKFLOW_ID_REUSE_POLICY_TERMINATE_IF_RUNNING then
            OutcomeKind.proceed
          else if wfIDReusePolicy = WORKFLOW_ID_REUSE_POLICY_ALLOW_DUPLICATE_FAILED_ONLY then
            if currentStatus ∈ consts.FailedWorkflowStatuses then OutcomeKind.proceed
            else OutcomeKind.alreadyStarted
          else if wfIDReusePolicy = WORKFLOW_ID_REUSE_POLICY_REJECT_DUPLICATE then
            OutcomeKind.alreadyStarted
          else OutcomeKind.internal
         else OutcomeKind.internal) := by
  unfold ResolveDuplicateWorkflowID
  split_ifs <;> rfl

/-- C23: the kind of outcome of `ResolveDuplicateWorkflowID` (proceed,
already-started, internal, terminate action) is the same for any two inputs
that agree on the state and the policy, and on the status when the state is
`Completed` and the policy `AllowDuplicateFailedOnly`, whatever the strings
and, elsewhere, the status are. -/
theorem outcome_kind_determined {MS : Type} (d : Env MS)
    (workflowID newRunID currentRunID : String)
    (currentState : WorkflowExecutionState) (currentStatus : WorkflowExecutionStatus)
    (currentStartRequestID : String) (wfIDReusePolicy : WorkflowIdReusePolicy)
    (workflowID' newRunID' currentRunID' : String)
    (currentState' : WorkflowExecutionState) (currentStatus' : WorkflowExecutionStatus)
    (currentStartRequestID' : String) (wfIDReusePolicy' : WorkflowIdReusePolicy)
    (hstate : currentState' = currentState) (hpolicy : wfIDReusePolicy' = wfIDReusePolicy)
    (hstatus : currentState = WORKFLOW_EXECUTION_STATE_COMPLETED →
      wfIDReusePolicy = WORKFLOW_ID_REUSE_POLICY_ALLOW_DUPLICATE_FAILED_ONLY →
      currentStatus' = currentStatus) :
    outcomeKind (ResolveDuplicateWorkflowID d workflowID' newRunID' currentRunID'
        currentState' currentStatus' currentStartRequestID' wfIDReusePolicy')
      = outcomeKind (ResolveDuplicateWorkflowID d workflowID newRunID currentRunID
        currentState currentStatus currentStartRequestID wfIDReusePolicy) := by
  subst hstate hpolicy
  rw [outcomeKind_resolve, outcomeKind_resolve]
  by_cases hc : currentState' = WORKFLOW_EXECUTION_STATE_COMPLETED
  · by_cases hp : wfIDReusePolicy' = WORKFLOW_ID_REUSE_POLICY_ALLOW_DUPLICATE_FAILED_ONLY
    · rw [hstatus hc hp]
    · simp [hp]
  · simp [hc]

/-- Witness of C23: two running runs under `RejectDuplicate` that differ in
every string and in the status. -/
theorem outcome_kind_determined_witness :
    outcomeKind (ResolveDuplicateWorkflowID specEnv "a" "b" "c"
        WORKFLOW_EXECUTION_STATE_RUNNING WORKFLOW_EXECUTION_STATUS_FAILED "d"
        WORKFLOW_ID_REUSE_POLICY_REJECT_DUPLICATE)
      = outcomeKind (ResolveDuplicateWorkflowID specEnv "wf" "run-2" "run-1"
        WORKFLOW_EXECUTION_STATE_RUNNING WORKFLOW_EXECUTION_STATUS_RUNNING "req-1"
        WORKFLOW_ID_REUSE_POLICY_REJECT_DUPLICATE)
    ∧ outcomeKind (ResolveDuplicateWorkflowID specEnv "wf" "run-2" "run-1"
        WORKFLOW_EXECUTION_STATE_RUNNING WORKFLOW_EXECUTION_STATUS_RUNNING "req-1"
        WORKFLOW_ID_REUSE_POLICY_REJECT_DUPLICATE) = OutcomeKind.alreadyStarted :=
  ⟨outcome_kind_determined specEnv "wf" "run-2" "run-1"
      WORKFLOW_EXECUTION_STATE_RUNNING WORKFLOW_EXECUTION_STATUS_RUNNING "req-1"
      WORKFLOW_ID_REUSE_POLICY_REJECT_DUPLICATE "a" "b" "c"
      WORKFLOW_EXECUTION_STATE_RUNNING WORKFLOW_EXECUTION_STATUS_FAILED "d"
      WORKFLOW_ID_REUSE_POLICY_REJECT_DUPLICATE rfl rfl
      (fun h => absurd h (by decide)),
   by decide⟩

end api

namespace api

open enumsspb enumspb serviceerror

/-- Counterexample of C24: on a running execution whose `TerminateWorkflow`
fails, the terminate action returns the directive
`UpdateWorkflowWithoutWorkflowTask` together with the error of the call. -/
theorem terminate_action_directive_with_error_counterexample :
    (terminateWorkflowActionFunc
        ({ specEnv with
            TerminateWorkflow := fun ms _ _ _ _ =>
              (ms, some (Error.Internal "unable to add terminated event")) } :
          Env MutableState)
        "run-2"
        (WorkflowLease.mk (MutableState.mk WORKFLOW_EXECUTION_STATE_RUNNING
          WORKFLOW_EXECUTION_STATUS_RUNNING []))).action
      = some UpdateWorkflowWithoutWorkflowTask
    ∧ (terminateWorkflowActionFunc
        ({ specEnv with
            TerminateWorkflow := fun ms _ _ _ _ =>
              (ms, some (Error.Internal "unable to add terminated event")) } :
          Env MutableState)
        "run-2"
        (WorkflowLease.mk (MutableState.mk WORKFLOW_EXECUTION_STATE_RUNNING
          WORKFLOW_EXECUTION_STATUS_RUNNING []))).err
      = some (Error.Internal "unable to add terminated event") := by
  constructor <;> decide

/-- C24 as amended: the terminate action returns a nil directive with
`ErrWorkflowCompleted` when the execution is not running, and the directive
`UpdateWorkflowWithoutWorkflowTask` with a nil error when `TerminateWorkflow`
succeeds; it returns a non-nil directive together with a non-nil error exactly
when the execution is running and `TerminateWorkflow` fails, the error being
that of the call. -/
theorem terminate_action_directive_and_error {MS : Type} (d : Env MS) (newRunID : String)
    (workflowLease : WorkflowLease MS) :
    (terminateWorkflowAction d newRunID).1 = some (terminateWorkflowActionFunc d newRunID)
    ∧ (((terminateWorkflowActionFunc d newRunID workflowLease).action.isSome = true
        ∧ (terminateWorkflowActionFunc d newRunID workflowLease).err.isSome = true)
      ↔ (d.IsWorkflowExecutionRunning workflowLease.GetMutableState = true
        ∧ (terminateStep d newRunID workflowLease.GetMutableState).err.isSome = true))
    ∧ (d.IsWorkflowExecutionRunning workflowLease.GetMutableState = false →
        (terminateWorkflowActionFunc d newRunID workflowLease).action = none
        ∧ (terminateWorkflowActionFunc d newRunID workflowLease).err
          = some consts.ErrWorkflowCompleted)
    ∧ (d.IsWorkflowExecutionRunning workflowLease.GetMutableState = true →
        (terminateWorkflowActionFunc d newRunID workflowLease).action
          = some UpdateWorkflowWithoutWorkflowTask
        ∧ (terminateWorkflowActionFunc d newRunID workflowLease).err
          = (d.TerminateWorkflow workflowLease.GetMutableState
              "TerminateIfRunning WorkflowIdReusePolicy"
              (payloads.EncodeString
                (fmt.Sprintf "terminated by new runID: %s" [newRunID]))
              consts.IdentityHistoryService false).2) := by
  refine ⟨rfl, ?_, ?_, ?_⟩
  · cases hr : d.IsWorkflowExecutionRunning workflowLease.GetMutableState <;>
      simp [terminateWorkflowActionFunc, terminateStep, hr]
  · intro hr
    simp [terminateWorkflowActionFunc, hr]
  · intro hr
    simp [terminateWorkflowActionFunc, hr]

/-- Witness of C24 as amended: a running execution on the concrete mutable
state, whose `TerminateWorkflow` succeeds. -/
theorem terminate_action_directive_and_error_witness :
    specEnv.IsWorkflowExecutionRunning
        (WorkflowLease.mk (MutableState.mk WORKFLOW_EXECUTION_STATE_RUNNING
          WORKFLOW_EXECUTION_STATUS_RUNNING [])).GetMutableState = true
    ∧ (terminateWorkflowActionFunc specEnv "run-2"
        (WorkflowLease.mk (MutableState.mk WORKFLOW_EXECUTION_STATE_RUNNING
          WORKFLOW_EXECUTION_STATUS_RUNNING []))).action
      = some UpdateWorkflowWithoutWorkflowTask
    ∧ (terminateWorkflowActionFunc specEnv "run-2"
        (WorkflowLease.mk (MutableState.mk WORKFLOW_EXECUTION_STATE_RUNNING
          WORKFLOW_EXECUTION_STATUS_RUNNING []))).err = none := by
  have h := (terminate_action_directive_and_error specEnv "run-2"
    (WorkflowLease.mk (MutableState.mk WORKFLOW_EXECUTION_STATE_RUNNING
      WORKFLOW_EXECUTION_STATUS_RUNNING []))).2.2.2 (by decide)
  exact ⟨by decide, h.1, by rw [h.2]; rfl⟩

/-- C25: on a lease whose execution is no longer running the terminate action
leaves the leased mutable state exactly as it was, and returns a nil directive
and `ErrWorkflowCompleted`: the liveness check comes before any mutation. -/
theorem terminate_action_not_running_unchanged {MS : Type} (d : Env MS)
    (newRunID : String) (workflowLease : WorkflowLease MS)
    (hstopped : d.IsWorkflowExecutionRunning workflowLease.GetMutableState = false) :
    ∃ action : UpdateWorkflowActionFunc MS,
      terminateWorkflowAction d newRunID = (some action, none)
      ∧ (action workflowLease).mutableState = workflowLease.GetMutableState
      ∧ (action workflowLease).action = none
      ∧ (action workflowLease).err = some consts.ErrWorkflowCompleted := by
  refine ⟨terminateWorkflowActionFunc d newRunID, rfl, ?_⟩
  simp [terminateWorkflowActionFunc, hstopped]

/-- Witness of C25: a completed execution on the concrete mutable state, which
records the calls of `TerminateWorkflow`; none is recorded. -/
theorem terminate_action_not_running_unchanged_witness :
    specEnv.IsWorkflowExecutionRunning
        (WorkflowLease.mk (MutableState.mk WORKFLOW_EXECUTION_STATE_COMPLETED
          WORKFLOW_EXECUTION_STATUS_FAILED [])).GetMutableState = false
    ∧ ∃ action : UpdateWorkflowActionFunc MutableState,
      terminateWorkflowAction specEnv "run-2" = (some action, none)
      ∧ (action (WorkflowLease.mk (MutableState.mk WORKFLOW_EXECUTION_STATE_COMPLETED
          WORKFLOW_EXECUTION_STATUS_FAILED []))).mutableState
        = MutableState.mk WORKFLOW_EXECUTION_STATE_COMPLETED
            WORKFLOW_EXECUTION_STATUS_FAILED [] := by
  refine ⟨by decide, ?_⟩
  obtain ⟨action, hact, hms, _, _⟩ :=
    terminate_action_not_running_unchanged specEnv "run-2"
      (WorkflowLease.mk (MutableState.mk WORKFLOW_EXECUTION_STATE_COMPLETED
        WORKFLOW_EXECUTION_STATUS_FAILED [])) (by decide)
  exact ⟨action, hact, hms⟩

/-- C27: `ResolveDuplicateWorkflowID` returns a result for every combination of
arguments, and the result is always of one of the four kinds; it is an
`Internal` error value exactly for a state outside `Created`, `Running`,
`Completed`, or for state `Completed` with a policy outside the four declared
values; in those cases the action is nil and the error is returned as a
value. -/
theorem resolve_total {MS : Type} (d : Env MS)
    (workflowID newRunID currentRunID : String)
    (currentState : WorkflowExecutionState) (currentStatus : WorkflowExecutionStatus)
    (currentStartRequestID : String) (wfIDReusePolicy : WorkflowIdReusePolicy) :
    (∃ action err,
      ResolveDuplicateWorkflowID d workflowID newRunID currentRunID currentState
        currentStatus currentStartRequestID wfIDReusePolicy = (action, err))
    ∧ outcomeKind (ResolveDuplicateWorkflowID d workflowID newRunID currentRunID
        currentState currentStatus currentStartRequestID wfIDReusePolicy)
      ≠ OutcomeKind.other
    ∧ (outcomeKind (ResolveDuplicateWorkflowID d workflowID newRunID currentRunID
        currentState currentStatus currentStartRequestID wfIDReusePolicy)
        = OutcomeKind.internal
      ↔ (currentState ≠ WORKFLOW_EXECUTION_STATE_CREATED
          ∧ currentState ≠ WORKFLOW_EXECUTION_STATE_RUNNING
          ∧ currentState ≠ WORKFLOW_EXECUTION_STATE_COMPLETED)
        ∨ (currentState = WORKFLOW_EXECUTION_STATE_COMPLETED
          ∧ wfIDReusePolicy ≠ WORKFLOW_ID_REUSE_POLICY_ALLOW_DUPLICATE
          ∧ wfIDReusePolicy ≠ WORKFLOW_ID_REUSE_POLICY_ALLOW_DUPLICATE_FAILED_ONLY
          ∧ wfIDReusePolicy ≠ WORKFLOW_ID_REUSE_POLICY_REJECT_DUPLICATE
          ∧ wfIDReusePolicy ≠ WORKFLOW_ID_REUSE_POLICY_TERMINATE_IF_RUNNING))
    ∧ (outcomeKind (ResolveDuplicateWorkflowID d workflowID newRunID currentRunID
        currentState currentStatus currentStartRequestID wfIDReusePolicy)
        = OutcomeKind.internal
      ↔ ∃ message,
          ResolveDuplicateWorkflowID d workflowID newRunID currentRunID currentState
            currentStatus currentStartRequestID wfIDReusePolicy
          = (none, some (Error.Internal message))) := by
  refine ⟨⟨_, _, rfl⟩, ?_, ?_, ?_⟩
  · rw [outcomeKind_resolve]
    split_ifs <;> simp
  · rw [outcomeKind_resolve]
    have hcc : currentState = WORKFLOW_EXECUTION_STATE_COMPLETED →
        ¬ (currentState = WORKFLOW_EXECUTION_STATE_CREATED
          ∨ currentState = WORKFLOW_EXECUTION_STATE_RUNNING) := by
      rintro h (h' | h') <;> rw [h] at h' <;> exact absurd h' (by decide)
    split_ifs with h1 h2 h3 h4 h5 h6 h7 <;>
      simp only [reduceCtorEq, false_iff, true_iff, ne_eq] <;> tauto
  · unfold ResolveDuplicateWorkflowID
    split_ifs <;>
      simp [outcomeKind, terminateWorkflowAction, generateWorkflowAlreadyStartedError,
        NewWorkflowExecutionAlreadyStarted, NewInternal]

end api

namespace api

open enumsspb enumspb serviceerror

/-- On an execution that is not running every invocation of a sequence fails
with `ErrWorkflowCompleted` and the mutable state stays as it is. -/
theorem invokeInSequence_not_running {MS : Type} (d : Env MS) (mutableState : MS)
    (newRunIDs : List String)
    (hstopped : d.IsWorkflowExecutionRunning mutableState = false) :
    invokeInSequence d mutableState newRunIDs
      = (mutableState, newRunIDs.map (fun _ => (none, some consts.ErrWorkflowCompleted))) := by
  induction newRunIDs with
  | nil => rfl
  | cons n rest ih =>
    simp [invokeInSequence, terminateWorkflowActionFunc, WorkflowLease.GetMutableState,
      hstopped, ih]

/-- In a sequence of invocations at most one returns a nil error, when a
successful `TerminateWorkflow` leaves the execution not running. -/
theorem invokeInSequence_successes {MS : Type} (d : Env MS)
    (hstop : ∀ (ms : MS) (reason : String) (details : payloads.Payloads)
        (identity : String) (flag : Bool),
      (d.TerminateWorkflow ms reason details identity flag).2 = none →
      d.IsWorkflowExecutionRunning (d.TerminateWorkflow ms reason details identity flag).1
        = false)
    (mutableState : MS) (newRunIDs : List String) :
    ((invokeInSequence d mutableState newRunIDs).2.filter (fun r => r.2.isNone)).length ≤ 1 := by
  induction newRunIDs generalizing mutableState with
  | nil => simp [invokeInSequence]
  | cons n rest ih =>
    cases hr : d.IsWorkflowExecutionRunning mutableState with
    | false =>
      have := ih mutableState
      simpa [invokeInSequence, terminateWorkflowActionFunc, WorkflowLease.GetMutableState,
        hr] using this
    | true =>
      cases he : (d.TerminateWorkflow mutableState "TerminateIfRunning WorkflowIdReusePolicy"
          (payloads.EncodeString (fmt.Sprintf "terminated by new runID: %s" [n]))
          consts.IdentityHistoryService false).2 with
      | none =>
        have hs := hstop _ _ _ _ _ he
        simp [invokeInSequence, terminateWorkflowActionFunc, WorkflowLease.GetMutableState,
          hr, he, invokeInSequence_not_running d _ rest hs, List.filter_map]
      | some e =>
        have := ih (d.TerminateWorkflow mutableState "TerminateIfRunning WorkflowIdReusePolicy"
          (payloads.EncodeString (fmt.Sprintf "terminated by new runID: %s" [n]))
          consts.IdentityHistoryService false).1
        simpa [invokeInSequence, terminateWorkflowActionFunc, WorkflowLease.GetMutableState,
          hr, he] using this

/-- In a sequence of invocations `TerminateWorkflow` is called at most once, when
it never fails and leaves the execution not running. -/
theorem invokeInSequence_applications {MS : Type} (d : Env MS)
    (hstop : ∀ (ms : MS) (reason : String) (details : payloads.Payloads)
        (identity : String) (flag : Bool),
      (d.TerminateWorkflow ms reason details identity flag).2 = none →
      d.IsWorkflowExecutionRunning (d.TerminateWorkflow ms reason details identity flag).1
        = false)
    (hnofail : ∀ (ms : MS) (reason : String) (details : payloads.Payloads)
        (identity : String) (flag : Bool),
      (d.TerminateWorkflow ms reason details identity flag).2 = none)
    (mutableState : MS) (newRunIDs : List String) :
    ((invokeInSequence d mutableState newRunIDs).2.filter (fun r => r.1.isSome)).length ≤ 1 := by
  induction newRunIDs generalizing mutableState with
  | nil => simp [invokeInSequence]
  | cons n rest ih =>
    cases hr : d.IsWorkflowExecutionRunning mutableState with
    | false =>
      have := ih mutableState
      simpa [invokeInSequence, terminateWorkflowActionFunc, WorkflowLease.GetMutableState,
        hr] using this
    | true =>
      have hs := hstop _ _ _ _ _ (hnofail mutableState
        "TerminateIfRunning WorkflowIdReusePolicy"
        (payloads.EncodeString (fmt.Sprintf "terminated by new runID: %s" [n]))
        consts.IdentityHistoryService false)
      simp [invokeInSequence, terminateWorkflowActionFunc, WorkflowLease.GetMutableState,
        hr, invokeInSequence_not_running d _ rest hs, List.filter_map]

/-- A sequence of invocations in two parts: the second part starts from the
mutable state the first part leaves. -/
theorem invokeInSequence_append {MS : Type} (d : Env MS) (mutableState : MS)
    (earlier later : List String) :
    invokeInSequence d mutableState (earlier ++ later)
      = ((invokeInSequence d (invokeInSequence d mutableState earlier).1 later).1,
         (invokeInSequence d mutableState earlier).2
           ++ (invokeInSequence d (invokeInSequence d mutableState earlier).1 later).2) := by
  induction earlier generalizing mutableState with
  | nil => simp [invokeInSequence]
  | cons n rest ih => simp [invokeInSequence, ih]

/-- An invocation that returns a nil error has called `TerminateWorkflow` with
success; when that leaves the execution not running, every later invocation
fails with `ErrWorkflowCompleted` and the mutable state stays as it is. -/
theorem invokeInSequence_after_success {MS : Type} (d : Env MS)
    (hstop : ∀ (ms : MS) (reason : String) (details : payloads.Payloads)
        (identity : String) (flag : Bool),
      (d.TerminateWorkflow ms reason details identity flag).2 = none →
      d.IsWorkflowExecutionRunning (d.TerminateWorkflow ms reason details identity flag).1
        = false)
    (mutableState : MS) (n : String) (later : List String)
    (herr : (terminateWorkflowActionFunc d n (WorkflowLease.mk mutableState)).err = none) :
    invokeInSequence d mutableState (n :: later)
      = ((terminateWorkflowActionFunc d n (WorkflowLease.mk mutableState)).mutableState,
         (some UpdateWorkflowWithoutWorkflowTask, none)
           :: later.map (fun _ => (none, some consts.ErrWorkflowCompleted))) := by
  cases hr : d.IsWorkflowExecutionRunning mutableState with
  | false =>
    simp [terminateWorkflowActionFunc, WorkflowLease.GetMutableState, hr] at herr
  | true =>
    have herr' : (d.TerminateWorkflow mutableState "TerminateIfRunning WorkflowIdReusePolicy"
        (payloads.EncodeString (fmt.Sprintf "terminated by new runID: %s" [n]))
        consts.IdentityHistoryService false).2 = none := by
      simpa [terminateWorkflowActionFunc, WorkflowLease.GetMutableState, hr] using herr
    have hs := hstop _ _ _ _ _ herr'
    simp [invokeInSequence, terminateWorkflowActionFunc, WorkflowLease.GetMutableState,
      hr, herr', invokeInSequence_not_running d _ later hs]

/-- Counterexample of C26: the environment whose `TerminateWorkflow` fails meets
the assumption of the claim, since no call of it succeeds.  On a running
execution two terminate actions invoked one after the other both call
`TerminateWorkflow`: two calls are recorded, and the second action returns the
directive with the error of its call, not `ErrWorkflowCompleted`. -/
theorem termination_applied_twice_counterexample :
    (∀ (ms : MutableState) (reason : String) (details : payloads.Payloads)
        (identity : String) (flag : Bool),
      (failingEnv.TerminateWorkflow ms reason details identity flag).2 = none →
      failingEnv.IsWorkflowExecutionRunning
        (failingEnv.TerminateWorkflow ms reason details identity flag).1 = false)
    ∧ failingEnv.IsWorkflowExecutionRunning
        (MutableState.mk WORKFLOW_EXECUTION_STATE_RUNNING
          WORKFLOW_EXECUTION_STATUS_RUNNING []) = true
    ∧ (invokeInSequence failingEnv
        (MutableState.mk WORKFLOW_EXECUTION_STATE_RUNNING WORKFLOW_EXECUTION_STATUS_RUNNING [])
        ["run-2", "run-3"]).2
      = [(some UpdateWorkflowWithoutWorkflowTask,
            some (Error.Internal "unable to add terminated event")),
         (some UpdateWorkflowWithoutWorkflowTask,
            some (Error.Internal "unable to add terminated event"))]
    ∧ (invokeInSequence failingEnv
        (MutableState.mk WORKFLOW_EXECUTION_STATE_RUNNING WORKFLOW_EXECUTION_STATUS_RUNNING [])
        ["run-2", "run-3"]).1.terminations.length = 2 := by
  refine ⟨?_, by decide, by decide, by decide⟩
  intro ms reason details identity flag h
  simp [failingEnv] at h

/-- C26 as amended: when a successful `TerminateWorkflow` leaves the execution
not running, of two terminate actions invoked one after the other on a running
execution the first calls `TerminateWorkflow`, and when that call succeeds the
second returns a nil directive and `ErrWorkflowCompleted` and leaves the mutable
state as the first left it.  Over any sequence of invocations at most one
returns a nil error, and after an invocation that has returned a nil error
every later one returns a nil directive and `ErrWorkflowCompleted` and leaves the
mutable state as it is. -/
theorem termination_not_double_applied {MS : Type} (d : Env MS)
    (mutableState : MS) (first second : String) (newRunIDs : List String)
    (hstop : ∀ (ms : MS) (reason : String) (details : payloads.Payloads)
        (identity : String) (flag : Bool),
      (d.TerminateWorkflow ms reason details identity flag).2 = none →
      d.IsWorkflowExecutionRunning (d.TerminateWorkflow ms reason details identity flag).1
        = false)
    (hrunning : d.IsWorkflowExecutionRunning mutableState = true) :
    (terminateWorkflowActionFunc d first (WorkflowLease.mk mutableState)).action
      = some UpdateWorkflowWithoutWorkflowTask
    ∧ ((terminateWorkflowActionFunc d first (WorkflowLease.mk mutableState)).err = none →
      (invokeInSequence d mutableState [first, second]).2
        = [(some UpdateWorkflowWithoutWorkflowTask, none),
           (none, some consts.ErrWorkflowCompleted)]
      ∧ (invokeInSequence d mutableState [first, second]).1
        = (terminateWorkflowActionFunc d first (WorkflowLease.mk mutableState)).mutableState)
    ∧ ((invokeInSequence d mutableState newRunIDs).2.filter
        (fun r => r.2.isNone)).length ≤ 1
    ∧ (∀ (earlier later : List String) (n : String),
        (terminateWorkflowActionFunc d n
          (WorkflowLease.mk (invokeInSequence d mutableState earlier).1)).err = none →
        invokeInSequence d mutableState (earlier ++ n :: later)
          = ((terminateWorkflowActionFunc d n
                (WorkflowLease.mk (invokeInSequence d mutableState earlier).1)).mutableState,
             (invokeInSequence d mutableState earlier).2
               ++ (some UpdateWorkflowWithoutWorkflowTask, none)
                 :: later.map (fun _ => (none, some consts.ErrWorkflowCompleted)))) := by
  refine ⟨?_, ?_, invokeInSequence_successes d hstop mutableState newRunIDs, ?_⟩
  · simp [terminateWorkflowActionFunc, WorkflowLease.GetMutableState, hrunning]
  · intro herr
    rw [invokeInSequence_after_success d hstop mutableState first [second] herr]
    exact ⟨rfl, rfl⟩
  · intro earlier later n herr
    rw [invokeInSequence_append,
      invokeInSequence_after_success d hstop _ n later herr]

/-- Witness of C26 as amended: on the concrete mutable state, which records the
calls of `TerminateWorkflow`, the second of two actions fails with
`ErrWorkflowCompleted`, and three actions in sequence leave one recorded call. -/
theorem termination_not_double_applied_witness :
    (∀ (ms : MutableState) (reason : String) (details : payloads.Payloads)
        (identity : String) (flag : Bool),
      (specEnv.TerminateWorkflow ms reason details identity flag).2 = none →
      specEnv.IsWorkflowExecutionRunning
        (specEnv.TerminateWorkflow ms reason details identity flag).1 = false)
    ∧ specEnv.IsWorkflowExecutionRunning
        (MutableState.mk WORKFLOW_EXECUTION_STATE_RUNNING
          WORKFLOW_EXECUTION_STATUS_RUNNING []) = true
    ∧ (invokeInSequence specEnv
        (MutableState.mk WORKFLOW_EXECUTION_STATE_RUNNING WORKFLOW_EXECUTION_STATUS_RUNNING [])
        ["run-2", "run-3"]).2
      = [(some UpdateWorkflowWithoutWorkflowTask, none),
         (none, some consts.ErrWorkflowCompleted)]
    ∧ ((invokeInSequence specEnv
        (MutableState.mk WORKFLOW_EXECUTION_STATE_RUNNING WORKFLOW_EXECUTION_STATUS_RUNNING [])
        ["run-2", "run-3", "run-4"]).2.filter (fun r => r.2.isNone)).length ≤ 1
    ∧ (invokeInSequence specEnv
        (MutableState.mk WORKFLOW_EXECUTION_STATE_RUNNING WORKFLOW_EXECUTION_STATUS_RUNNING [])
        ["run-2", "run-3", "run-4"]).1.terminations.length = 1 :=
  have hstop : ∀ (ms : MutableState) (reason : String) (details : payloads.Payloads)
      (identity : String) (flag : Bool),
      (specEnv.TerminateWorkflow ms reason details identity flag).2 = none →
      specEnv.IsWorkflowExecutionRunning
        (specEnv.TerminateWorkflow ms reason details identity flag).1 = false :=
    fun _ _ _ _ _ _ => rfl
  have h := termination_not_double_applied specEnv
    (MutableState.mk WORKFLOW_EXECUTION_STATE_RUNNING WORKFLOW_EXECUTION_STATUS_RUNNING [])
    "run-2" "run-3" ["run-2", "run-3", "run-4"] hstop (by decide)
  ⟨hstop, by decide, (h.2.1 rfl).1, h.2.2.1, by decide⟩

end api

/-! ### Reading results from the wire -/

namespace cadence

open shared

/-- The loop of `FromWire` over fields whose readers succeed ends without error,
and sets exactly the fields whose ID occurs with a struct value. -/
theorem WorkflowService_GetWorkflowExecutionHistory_Result.history_result_forFields_readField {T : Types}
    (dec : Decoders T) (fields : List (wire.Field wire.Value))
    (v : WorkflowService_GetWorkflowExecutionHistory_Result T)
    (hread : ∀ f ∈ fields,
      (f.ID = 0 → f.Value.typ = wire.TStruct →
        (dec.GetWorkflowExecutionHistoryResponse_FromWire f.Value).2 = none)
      ∧ (f.ID = 1 → f.Value.typ = wire.TStruct →
        (dec.BadRequestError_FromWire f.Value).2 = none)
      ∧ (f.ID = 2 → f.Value.typ = wire.TStruct →
        (dec.InternalServiceError_FromWire f.Value).2 = none)
      ∧ (f.ID = 3 → f.Value.typ = wire.TStruct →
        (dec.EntityNotExistsError_FromWire f.Value).2 = none)
      ∧ (f.ID = 4 → f.Value.typ = wire.TStruct →
        (dec.ServiceBusyError_FromWire f.Value).2 = none)) :
    (wire.forFields (readField dec) v fields).2 = none
    ∧ (wire.forFields (readField dec) v fields).1.Success.isSome
      = (v.Success.isSome || (wire.Value.struct fields).occurs 0)
    ∧ (wire.forFields (readField dec) v fields).1.BadRequestError.isSome
      = (v.BadRequestError.isSome || (wire.Value.struct fields).occurs 1)
    ∧ (wire.forFields (readField dec) v fields).1.InternalServiceError.isSome
      = (v.InternalServiceError.isSome || (wire.Value.struct fields).occurs 2)
    ∧ (wire.forFields (readField dec) v fields).1.EntityNotExistError.isSome
      = (v.EntityNotExistError.isSome || (wire.Value.struct fields).occurs 3)
    ∧ (wire.forFields (readField dec) v fields).1.ServiceBusyError.isSome
      = (v.ServiceBusyError.isSome || (wire.Value.struct fields).occurs 4) := by
  induction fields generalizing v with
  | nil => simp [wire.forFields, wire.Value.occurs, wire.Value.GetStruct]
  | cons f rest ih =>
    obtain ⟨h0, h1, h2, h3, h4⟩ := hread f (List.mem_cons_self _ _)
    have hstep : (readField dec v f).2 = none
        ∧ (readField dec v f).1.Success.isSome
          = (v.Success.isSome
            || (decide (f.ID = 0) && decide (f.Value.typ = wire.TStruct)))
        ∧ (readField dec v f).1.BadRequestError.isSome
          = (v.BadRequestError.isSome
            || (decide (f.ID = 1) && decide (f.Value.typ = wire.TStruct)))
        ∧ (readField dec v f).1.InternalServiceError.isSome
          = (v.InternalServiceError.isSome
            || (decide (f.ID = 2) && decide (f.Value.typ = wire.TStruct)))
        ∧ (readField dec v f).1.EntityNotExistError.isSome
          = (v.EntityNotExistError.isSome
            || (decide (f.ID = 3) && decide (f.Value.typ = wire.TStruct)))
        ∧ (readField dec v f).1.ServiceBusyError.isSome
          = (v.ServiceBusyError.isSome
            || (decide (f.ID = 4) && decide (f.Value.typ = wire.TStruct))) := by
      unfold readField
      by_cases ht : f.Value.typ = wire.TStruct
      · by_cases i0 : f.ID = 0
        · have hok := h0 i0 ht
          simp [i0, ht, wire.Read, hok]
        · by_cases i1 : f.ID = 1
          · have hok := h1 i1 ht
            simp [i1, ht, wire.Read, hok]
          · by_cases i2 : f.ID = 2
            · have hok := h2 i2 ht
              simp [i2, ht, wire.Read, hok]
            · by_cases i3 : f.ID = 3
              · have hok := h3 i3 ht
                simp [i3, ht, wire.Read, hok]
              · by_cases i4 : f.ID = 4
                · have hok := h4 i4 ht
                  simp [i4, ht, wire.Read, hok]
                · simp [i0, i1, i2, i3, i4, ht]
      · simp [ht]
    obtain ⟨s, s0, s1, s2, s3, s4⟩ := hstep
    obtain ⟨r, r0, r1, r2, r3, r4⟩ :=
      ih (readField dec v f).1 (fun g hg => hread g (List.mem_cons_of_mem _ hg))
    have hloop : wire.forFields (readField dec) v (f :: rest)
        = wire.forFields (readField dec) (readField dec v f).1 rest := by
      rcases hrf : readField dec v f with ⟨v1, e⟩
      rw [hrf] at s
      simp only at s
      subst s
      simp [wire.forFields, hrf]
    rw [hloop]
    refine ⟨r, ?_, ?_, ?_, ?_, ?_⟩
    · rw [r0, s0]; simp [wire.Value.occurs, wire.Value.GetStruct, Bool.or_assoc]
    · rw [r1, s1]; simp [wire.Value.occurs, wire.Value.GetStruct, Bool.or_assoc]
    · rw [r2, s2]; simp [wire.Value.occurs, wire.Value.GetStruct, Bool.or_assoc]
    · rw [r3, s3]; simp [wire.Value.occurs, wire.Value.GetStruct, Bool.or_assoc]
    · rw [r4, s4]; simp [wire.Value.occurs, wire.Value.GetStruct, Bool.or_assoc]

/-- A wire field with an ID the struct does not know, or with a value that is
not a struct, is skipped by the loop of `FromWire`. -/
theorem WorkflowService_GetWorkflowExecutionHistory_Result.history_result_readField_ignored {T : Types}
    (dec : Decoders T) (v : WorkflowService_GetWorkflowExecutionHistory_Result T) (f : wire.Field wire.Value)
    (h : (f.ID < 0 ∨ 4 < f.ID) ∨ f.Value.typ ≠ wire.TStruct) :
    readField dec v f = (v, none) := by
  unfold readField
  rcases h with h | h
  · split_ifs <;> first | rfl | omega
  · simp [h]

end cadence

namespace matching

open shared

/-- The loop of `FromWire` over fields whose readers succeed ends without error,
and sets exactly the fields whose ID occurs with a struct value. -/
theorem MatchingService_QueryWorkflow_Result.query_result_forFields_readField {T : Types}
    (dec : Decoders T) (fields : List (wire.Field wire.Value))
    (v : MatchingService_QueryWorkflow_Result T)
    (hread : ∀ f ∈ fields,
      (f.ID = 0 → f.Value.typ = wire.TStruct →
        (dec.QueryWorkflowResponse_FromWire f.Value).2 = none)
      ∧ (f.ID = 1 → f.Value.typ = wire.TStruct →
        (dec.BadRequestError_FromWire f.Value).2 = none)
      ∧ (f.ID = 2 → f.Value.typ = wire.TStruct →
        (dec.InternalServiceError_FromWire f.Value).2 = none)
      ∧ (f.ID = 3 → f.Value.typ = wire.TStruct →
        (dec.EntityNotExistsError_FromWire f.Value).2 = none)
      ∧ (f.ID = 4 → f.Value.typ = wire.TStruct →
        (dec.QueryFailedError_FromWire f.Value).2 = none)
      ∧ (f.ID = 5 → f.Value.typ = wire.TStruct →
        (dec.LimitExceededError_FromWire f.Value).2 = none)
      ∧ (f.ID = 6 → f.Value.typ = wire.TStruct →
        (dec.ServiceBusyError_FromWire f.Value).2 = none)) :
    (wire.forFields (readField dec) v fields).2 = none
    ∧ (wire.forFields (readField dec) v fields).1.Success.isSome
      = (v.Success.isSome || (wire.Value.struct fields).occurs 0)
    ∧ (wire.forFields (readField dec) v fields).1.BadRequestError.isSome
      = (v.BadRequestError.isSome || (wire.Value.struct fields).occurs 1)
    ∧ (wire.forFields (readField dec) v fields).1.InternalServiceError.isSome
      = (v.InternalServiceError.isSome || (wire.Value.struct fields).occurs 2)
    ∧ (wire.forFields (readField dec) v fields).1.EntityNotExistError.isSome
      = (v.EntityNotExistError.isSome || (wire.Value.struct fields).occurs 3)
    ∧ (wire.forFields (readField dec) v fields).1.QueryFailedError.isSome
      = (v.QueryFailedError.isSome || (wire.Value.struct fields).occurs 4)
    ∧ (wire.forFields (readField dec) v fields).1.LimitExceededError.isSome
      = (v.LimitExceededError.isSome || (wire.Value.struct fields).occurs 5)
    ∧ (wire.forFields (readField dec) v fields).1.ServiceBusyError.isSome
      = (v.ServiceBusyError.isSome || (wire.Value.struct fields).occurs 6) := by
  induction fields generalizing v with
  | nil => simp [wire.forFields, wire.Value.occurs, wire.Value.GetStruct]
  | cons f rest ih =>
    obtain ⟨h0, h1, h2, h3, h4, h5, h6⟩ := hread f (List.mem_cons_self _ _)
    have hstep : (readField dec v f).2 = none
        ∧ (readField dec v f).1.Success.isSome
          = (v.Success.isSome
            || (decide (f.ID = 0) && decide (f.Value.typ = wire.TStruct)))
        ∧ (readField dec v f).1.BadRequestError.isSome
          = (v.BadRequestError.isSome
            || (decide (f.ID = 1) && decide (f.Value.typ = wire.TStruct)))
        ∧ (readField dec v f).1.InternalServiceError.isSome
          = (v.InternalServiceError.isSome
            || (decide (f.ID = 2) && decide (f.Value.typ = wire.TStruct)))
        ∧ (readField dec v f).1.EntityNotExistError.isSome
          = (v.EntityNotExistError.isSome
            || (decide (f.ID = 3) && decide (f.Value.typ = wire.TStruct)))
        ∧ (readField dec v f).1.QueryFailedError.isSome
          = (v.QueryFailedError.isSome
            || (decide (f.ID = 4) && decide (f.Value.typ = wire.TStruct)))
        ∧ (readField dec v f).1.LimitExceededError.isSome
          = (v.LimitExceededError.isSome
            || (decide (f.ID = 5) && decide (f.Value.typ = wire.TStruct)))
        ∧ (readField dec v f).1.ServiceBusyError.isSome
          = (v.ServiceBusyError.isSome
            || (decide (f.ID = 6) && decide (f.Value.typ = wire.TStruct))) := by
      unfold readField
      by_cases ht : f.Value.typ = wire.TStruct
      · by_cases i0 : f.ID = 0
        · have hok := h0 i0 ht
          simp [i0, ht, wire.Read, hok]
        · by_cases i1 : f.ID = 1
          · have hok := h1 i1 ht
            simp [i1, ht, wire.Read, hok]
          · by_cases i2 : f.ID = 2
            · have hok := h2 i2 ht
              simp [i2, ht, wire.Read, hok]
            · by_cases i3 : f.ID = 3
              · have hok := h3 i3 ht
                simp [i3, ht, wire.Read, hok]
              · by_cases i4 : f.ID = 4
                · have hok := h4 i4 ht
                  simp [i4, ht, wire.Read, hok]
                · by_cases i5 : f.ID = 5
                  · have hok := h5 i5 ht
                    simp [i5, ht, wire.Read, hok]
                  · by_cases i6 : f.ID = 6
                    · have hok := h6 i6 ht
                      simp [i6, ht, wire.Read, hok]
                    · simp [i0, i1, i2, i3, i4, i5, i6, ht]
      · simp [ht]
    obtain ⟨s, s0, s1, s2, s3, s4, s5, s6⟩ := hstep
    obtain ⟨r, r0, r1, r2, r3, r4, r5, r6⟩ :=
      ih (readField dec v f).1 (fun g hg => hread g (List.mem_cons_of_mem _ hg))
    have hloop : wire.forFields (readField dec) v (f :: rest)
        = wire.forFields (readField dec) (readField dec v f).1 rest := by
      rcases hrf : readField dec v f with ⟨v1, e⟩
      rw [hrf] at s
      simp only at s
      subst s
      simp [wire.forFields, hrf]
    rw [hloop]
    refine ⟨r, ?_, ?_, ?_, ?_, ?_, ?_, ?_⟩
    · rw [r0, s0]; simp [wire.Value.occurs, wire.Value.GetStruct, Bool.or_assoc]
    · rw [r1, s1]; simp [wire.Value.occurs, wire.Value.GetStruct, Bool.or_assoc]
    · rw [r2, s2]; simp [wire.Value.occurs, wire.Value.GetStruct, Bool.or_assoc]
    · rw [r3, s3]; simp [wire.Value.occurs, wire.Value.GetStruct, Bool.or_assoc]
    · rw [r4, s4]; simp [wire.Value.occurs, wire.Value.GetStruct, Bool.or_assoc]
    · rw [r5, s5]; simp [wire.Value.occurs, wire.Value.GetStruct, Bool.or_assoc]
    · rw [r6, s6]; simp [wire.Value.occurs, wire.Value.GetStruct, Bool.or_assoc]

/-- A wire field with an ID the struct does not know, or with a value that is
not a struct, is skipped by the loop of `FromWire`. -/
theorem MatchingService_QueryWorkflow_Result.query_result_readField_ignored {T : Types}
    (dec : Decoders T) (v : MatchingService_QueryWorkflow_Result T) (f : wire.Field wire.Value)
    (h : (f.ID < 0 ∨ 6 < f.ID) ∨ f.Value.typ ≠ wire.TStruct) :
    readField dec v f = (v, none) := by
  unfold readField
  rcases h with h | h
  · split_ifs <;> first | rfl | omega
  · simp [h]

end matching


namespace shared

open cadence matching

/-- C21: `FromWire` of either result struct into a fresh struct, when the nested
readers succeed on the fields they are called on, returns a nil error exactly
when one and only one of the known field IDs occurs in the wire value with a
struct value; it sets the fields whose ID so occurs, skips fields with an
unknown ID or a value that is not a struct, and for zero or several known fields
returns the "should have exactly one field" error with their number. -/
theorem result_FromWire_exactly_one_field (T : Types) (dec : Decoders T) (w : wire.Value)
    (hread : ∀ f ∈ w.GetStruct, f.Value.typ = wire.TStruct →
      (f.ID = 0 → (dec.GetWorkflowExecutionHistoryResponse_FromWire f.Value).2 = none
        ∧ (dec.QueryWorkflowResponse_FromWire f.Value).2 = none)
      ∧ (f.ID = 1 → (dec.BadRequestError_FromWire f.Value).2 = none)
      ∧ (f.ID = 2 → (dec.InternalServiceError_FromWire f.Value).2 = none)
      ∧ (f.ID = 3 → (dec.EntityNotExistsError_FromWire f.Value).2 = none)
      ∧ (f.ID = 4 → (dec.ServiceBusyError_FromWire f.Value).2 = none
        ∧ (dec.QueryFailedError_FromWire f.Value).2 = none)
      ∧ (f.ID = 5 → (dec.LimitExceededError_FromWire f.Value).2 = none)
      ∧ (f.ID = 6 → (dec.ServiceBusyError_FromWire f.Value).2 = none)) :
    (((WorkflowService_GetWorkflowExecutionHistory_Result.FromWire dec {} w).2 = none
        ↔ (([0, 1, 2, 3, 4] : List Int).filter w.occurs).length = 1)
      ∧ (WorkflowService_GetWorkflowExecutionHistory_Result.FromWire dec {} w).2
        = (if (([0, 1, 2, 3, 4] : List Int).filter w.occurs).length ≠ 1 then
            some (fmt_Errorf "WorkflowService_GetWorkflowExecutionHistory_Result should have exactly one field: got %v fields"
              [toString (([0, 1, 2, 3, 4] : List Int).filter w.occurs).length])
           else none)
      ∧ (WorkflowService_GetWorkflowExecutionHistory_Result.FromWire dec {} w).1.Success.isSome
        = w.occurs 0
      ∧ (WorkflowService_GetWorkflowExecutionHistory_Result.FromWire dec {}
          w).1.BadRequestError.isSome = w.occurs 1
      ∧ (WorkflowService_GetWorkflowExecutionHistory_Result.FromWire dec {}
          w).1.InternalServiceError.isSome = w.occurs 2
      ∧ (WorkflowService_GetWorkflowExecutionHistory_Result.FromWire dec {}
          w).1.EntityNotExistError.isSome = w.occurs 3
      ∧ (WorkflowService_GetWorkflowExecutionHistory_Result.FromWire dec {}
          w).1.ServiceBusyError.isSome = w.occurs 4
      ∧ ∀ (v : WorkflowService_GetWorkflowExecutionHistory_Result T)
          (f : wire.Field wire.Value),
          (f.ID < 0 ∨ 4 < f.ID) ∨ f.Value.typ ≠ wire.TStruct →
          WorkflowService_GetWorkflowExecutionHistory_Result.readField dec v f = (v, none))
    ∧ (((MatchingService_QueryWorkflow_Result.FromWire dec {} w).2 = none
        ↔ (([0, 1, 2, 3, 4, 5, 6] : List Int).filter w.occurs).length = 1)
      ∧ (MatchingService_QueryWorkflow_Result.FromWire dec {} w).2
        = (if (([0, 1, 2, 3, 4, 5, 6] : List Int).filter w.occurs).length ≠ 1 then
            some (fmt_Errorf "MatchingService_QueryWorkflow_Result should have exactly one field: got %v fields"
              [toString (([0, 1, 2, 3, 4, 5, 6] : List Int).filter w.occurs).length])
           else none)
      ∧ (MatchingService_QueryWorkflow_Result.FromWire dec {} w).1.Success.isSome
        = w.occurs 0
      ∧ (MatchingService_QueryWorkflow_Result.FromWire dec {} w).1.BadRequestError.isSome
        = w.occurs 1
      ∧ (MatchingService_QueryWorkflow_Result.FromWire dec {} w).1.InternalServiceError.isSome
        = w.occurs 2
      ∧ (MatchingService_QueryWorkflow_Result.FromWire dec {} w).1.EntityNotExistError.isSome
        = w.occurs 3
      ∧ (MatchingService_QueryWorkflow_Result.FromWire dec {} w).1.QueryFailedError.isSome
        = w.occurs 4
      ∧ (MatchingService_QueryWorkflow_Result.FromWire dec {} w).1.LimitExceededError.isSome
        = w.occurs 5
      ∧ (MatchingService_QueryWorkflow_Result.FromWire dec {} w).1.ServiceBusyError.isSome
        = w.occurs 6
      ∧ ∀ (v : MatchingService_QueryWorkflow_Result T) (f : wire.Field wire.Value),
          (f.ID < 0 ∨ 6 < f.ID) ∨ f.Value.typ ≠ wire.TStruct →
          MatchingService_QueryWorkflow_Result.readField dec v f = (v, none)) := by
  have hocc : ∀ k, (wire.Value.struct w.GetStruct).occurs k = w.occurs k := fun _ => rfl
  constructor
  · obtain ⟨e, f0, f1, f2, f3, f4⟩ :=
      WorkflowService_GetWorkflowExecutionHistory_Result.history_result_forFields_readField dec w.GetStruct {}
        (fun f hf =>
          ⟨fun hi ht => ((hread f hf ht).1 hi).1, fun hi ht => (hread f hf ht).2.1 hi,
           fun hi ht => (hread f hf ht).2.2.1 hi, fun hi ht => (hread f hf ht).2.2.2.1 hi,
           fun hi ht => ((hread f hf ht).2.2.2.2.1 hi).1⟩)
    simp only [hocc, Option.isSome_none, Bool.false_or] at f0 f1 f2 f3 f4
    have hcount : (wire.forFields
        (WorkflowService_GetWorkflowExecutionHistory_Result.readField dec) {} w.GetStruct).1.count
        = (([0, 1, 2, 3, 4] : List Int).filter w.occurs).length := by
      unfold WorkflowService_GetWorkflowExecutionHistory_Result.count
      rw [f0, f1, f2, f3, f4]
      simp only [List.filter_cons, List.filter_nil]
      cases w.occurs 0 <;> cases w.occurs 1 <;> cases w.occurs 2 <;> cases w.occurs 3 <;>
        cases w.occurs 4 <;> rfl
    have hres : WorkflowService_GetWorkflowExecutionHistory_Result.FromWire dec {} w
        = ((wire.forFields
            (WorkflowService_GetWorkflowExecutionHistory_Result.readField dec) {}
            w.GetStruct).1,
          if (([0, 1, 2, 3, 4] : List Int).filter w.occurs).length ≠ 1 then
            some (fmt_Errorf "WorkflowService_GetWorkflowExecutionHistory_Result should have exactly one field: got %v fields"
              [toString (([0, 1, 2, 3, 4] : List Int).filter w.occurs).length])
          else none) := by
      unfold WorkflowService_GetWorkflowExecutionHistory_Result.FromWire
      rcases hl : wire.forFields
        (WorkflowService_GetWorkflowExecutionHistory_Result.readField dec) {} w.GetStruct
        with ⟨v', e'⟩
      rw [hl] at e hcount
      simp only at e hcount
      subst e
      simp only [hcount]
      split_ifs <;> rfl
    rw [hres]
    refine ⟨?_, rfl, f0, f1, f2, f3, f4, ?_⟩
    · simp only
      split_ifs with h <;> simp_all
    · intro v f h
      exact WorkflowService_GetWorkflowExecutionHistory_Result.history_result_readField_ignored dec v f h
  · obtain ⟨e, f0, f1, f2, f3, f4, f5, f6⟩ :=
      MatchingService_QueryWorkflow_Result.query_result_forFields_readField dec w.GetStruct {}
        (fun f hf =>
          ⟨fun hi ht => ((hread f hf ht).1 hi).2, fun hi ht => (hread f hf ht).2.1 hi,
           fun hi ht => (hread f hf ht).2.2.1 hi, fun hi ht => (hread f hf ht).2.2.2.1 hi,
           fun hi ht => ((hread f hf ht).2.2.2.2.1 hi).2,
           fun hi ht => (hread f hf ht).2.2.2.2.2.1 hi,
           fun hi ht => (hread f hf ht).2.2.2.2.2.2 hi⟩)
    simp only [hocc, Option.isSome_none, Bool.false_or] at f0 f1 f2 f3 f4 f5 f6
    have hcount : (wire.forFields
        (MatchingService_QueryWorkflow_Result.readField dec) {} w.GetStruct).1.count
        = (([0, 1, 2, 3, 4, 5, 6] : List Int).filter w.occurs).length := by
      unfold MatchingService_QueryWorkflow_Result.count
      rw [f0, f1, f2, f3, f4, f5, f6]
      simp only [List.filter_cons, List.filter_nil]
      cases w.occurs 0 <;> cases w.occurs 1 <;> cases w.occurs 2 <;> cases w.occurs 3 <;>
        cases w.occurs 4 <;> cases w.occurs 5 <;> cases w.occurs 6 <;> rfl
    have hres : MatchingService_QueryWorkflow_Result.FromWire dec {} w
        = ((wire.forFields
            (MatchingService_QueryWorkflow_Result.readField dec) {} w.GetStruct).1,
          if (([0, 1, 2, 3, 4, 5, 6] : List Int).filter w.occurs).length ≠ 1 then
            some (fmt_Errorf "MatchingService_QueryWorkflow_Result should have exactly one field: got %v fields"
              [toString (([0, 1, 2, 3, 4, 5, 6] : List Int).filter w.occurs).length])
          else none) := by
      unfold MatchingService_QueryWorkflow_Result.FromWire
      rcases hl : wire.forFields
        (MatchingService_QueryWorkflow_Result.readField dec) {} w.GetStruct
        with ⟨v', e'⟩
      rw [hl] at e hcount
      simp only at e hcount
      subst e
      simp only [hcount]
      split_ifs <;> rfl
    rw [hres]
    refine ⟨?_, rfl, f0, f1, f2, f3, f4, f5, f6, ?_⟩
    · simp only
      split_ifs with h <;> simp_all
    · intro v f h
      exact MatchingService_QueryWorkflow_Result.query_result_readField_ignored dec v f h

/-- Witness of C21: a wire struct with one known struct field, a field with an
unknown ID and a known ID with a value that is not a struct; both results read
it without error and set `Success` alone. -/
theorem result_FromWire_exactly_one_field_witness :
    (WorkflowService_GetWorkflowExecutionHistory_Result.FromWire sampleDecoders {}
        (wire.Value.struct
          [{ ID := 0, Value := (sampleEncoders.QueryWorkflowResponse_ToWire "answer").1 },
           { ID := 9, Value := wire.Value.struct [] },
           { ID := 2, Value := wire.Value.i32 5 }])).2 = none
    ∧ (WorkflowService_GetWorkflowExecutionHistory_Result.FromWire sampleDecoders {}
        (wire.Value.struct
          [{ ID := 0, Value := (sampleEncoders.QueryWorkflowResponse_ToWire "answer").1 },
           { ID := 9, Value := wire.Value.struct [] },
           { ID := 2, Value := wire.Value.i32 5 }])).1.Success.isSome = true
    ∧ (MatchingService_QueryWorkflow_Result.FromWire sampleDecoders {}
        (wire.Value.struct
          [{ ID := 0, Value := (sampleEncoders.QueryWorkflowResponse_ToWire "answer").1 },
           { ID := 9, Value := wire.Value.struct [] },
           { ID := 2, Value := wire.Value.i32 5 }])).1.InternalServiceError.isSome = false := by
  have h := result_FromWire_exactly_one_field sampleTypes sampleDecoders
    (wire.Value.struct
      [{ ID := 0, Value := (sampleEncoders.QueryWorkflowResponse_ToWire "answer").1 },
       { ID := 9, Value := wire.Value.struct [] },
       { ID := 2, Value := wire.Value.i32 5 }])
    (by
      intro f hf ht
      simp only [wire.Value.GetStruct, List.mem_cons, List.mem_singleton,
        List.not_mem_nil, or_false] at hf
      rcases hf with rfl | rfl | rfl
      · exact ⟨fun _ => ⟨rfl, rfl⟩, fun h => absurd h (by decide), fun h => absurd h (by decide),
          fun h => absurd h (by decide), fun h => absurd h (by decide),
          fun h => absurd h (by decide), fun h => absurd h (by decide)⟩
      · exact ⟨fun h => absurd h (by decide), fun h => absurd h (by decide),
          fun h => absurd h (by decide), fun h => absurd h (by decide),
          fun h => absurd h (by decide), fun h => absurd h (by decide),
          fun h => absurd h (by decide)⟩
      · exact absurd ht (by decide))
  refine ⟨h.1.1.mpr (by decide), ?_, ?_⟩
  · rw [h.1.2.2.1]; decide
  · rw [h.2.2.2.2.2.1]; decide

end shared

/-! ### Round trip through the wire -/

namespace cadence

open shared

/-- A history result with exactly one field set round-trips. -/
theorem WorkflowService_GetWorkflowExecutionHistory_Result.history_result_round_trip {T : Types}
    (enc : Encoders T) (dec : Decoders T) (eq : Comparers T)
    (v : WorkflowService_GetWorkflowExecutionHistory_Result T)
    (hrt : RoundTrip enc dec eq) (hcount : v.count = 1) :
    (v.ToWire enc).2 = none
    ∧ (WorkflowService_GetWorkflowExecutionHistory_Result.FromWire dec {} (v.ToWire enc).1).2
      = none
    ∧ WorkflowService_GetWorkflowExecutionHistory_Result.Equals eq
        (WorkflowService_GetWorkflowExecutionHistory_Result.FromWire dec {}
          (v.ToWire enc).1).1 v = true := by
  obtain ⟨r0, _, r1, r2, r3, r4, _, _⟩ := hrt
  have p0 := fun x fields => wire.putField_ok enc.GetWorkflowExecutionHistoryResponse_ToWire
    x 0 fields (fun a _ => (r0 a).1)
  have p1 := fun x fields => wire.putField_ok enc.BadRequestError_ToWire
    x 1 fields (fun a _ => (r1 a).1)
  have p2 := fun x fields => wire.putField_ok enc.InternalServiceError_ToWire
    x 2 fields (fun a _ => (r2 a).1)
  have p3 := fun x fields => wire.putField_ok enc.EntityNotExistsError_ToWire
    x 3 fields (fun a _ => (r3 a).1)
  have p4 := fun x fields => wire.putField_ok enc.ServiceBusyError_ToWire
    x 4 fields (fun a _ => (r4 a).1)
  rcases v with ⟨_ | s, _ | b, _ | i, _ | e, _ | sb⟩ <;>
    simp [WorkflowService_GetWorkflowExecutionHistory_Result.count] at hcount
  · obtain ⟨_, h2, h3, h4⟩ := r4 sb
    simp [WorkflowService_GetWorkflowExecutionHistory_Result.ToWire, p0, p1, p2, p3, p4,
      wire.written, h2, h3, h4, bind, Except.bind, pure, Except.pure, wire.NewValueStruct,
      WorkflowService_GetWorkflowExecutionHistory_Result.FromWire, wire.forFields,
      WorkflowService_GetWorkflowExecutionHistory_Result.readField, wire.Read,
      wire.Value.GetStruct, WorkflowService_GetWorkflowExecutionHistory_Result.count,
      WorkflowService_GetWorkflowExecutionHistory_Result.Equals, equalsPointer]
  · obtain ⟨_, h2, h3, h4⟩ := r3 e
    simp [WorkflowService_GetWorkflowExecutionHistory_Result.ToWire, p0, p1, p2, p3, p4,
      wire.written, h2, h3, h4, bind, Except.bind, pure, Except.pure, wire.NewValueStruct,
      WorkflowService_GetWorkflowExecutionHistory_Result.FromWire, wire.forFields,
      WorkflowService_GetWorkflowExecutionHistory_Result.readField, wire.Read,
      wire.Value.GetStruct, WorkflowService_GetWorkflowExecutionHistory_Result.count,
      WorkflowService_GetWorkflowExecutionHistory_Result.Equals, equalsPointer]
  · obtain ⟨_, h2, h3, h4⟩ := r2 i
    simp [WorkflowService_GetWorkflowExecutionHistory_Result.ToWire, p0, p1, p2, p3, p4,
      wire.written, h2, h3, h4, bind, Except.bind, pure, Except.pure, wire.NewValueStruct,
      WorkflowService_GetWorkflowExecutionHistory_Result.FromWire, wire.forFields,
      WorkflowService_GetWorkflowExecutionHistory_Result.readField, wire.Read,
      wire.Value.GetStruct, WorkflowService_GetWorkflowExecutionHistory_Result.count,
      WorkflowService_GetWorkflowExecutionHistory_Result.Equals, equalsPointer]
  · obtain ⟨_, h2, h3, h4⟩ := r1 b
    simp [WorkflowService_GetWorkflowExecutionHistory_Result.ToWire, p0, p1, p2, p3, p4,
      wire.written, h2, h3, h4, bind, Except.bind, pure, Except.pure, wire.NewValueStruct,
      WorkflowService_GetWorkflowExecutionHistory_Result.FromWire, wire.forFields,
      WorkflowService_GetWorkflowExecutionHistory_Result.readField, wire.Read,
      wire.Value.GetStruct, WorkflowService_GetWorkflowExecutionHistory_Result.count,
      WorkflowService_GetWorkflowExecutionHistory_Result.Equals, equalsPointer]
  · obtain ⟨_, h2, h3, h4⟩ := r0 s
    simp [WorkflowService_GetWorkflowExecutionHistory_Result.ToWire, p0, p1, p2, p3, p4,
      wire.written, h2, h3, h4, bind, Except.bind, pure, Except.pure, wire.NewValueStruct,
      WorkflowService_GetWorkflowExecutionHistory_Result.FromWire, wire.forFields,
      WorkflowService_GetWorkflowExecutionHistory_Result.readField, wire.Read,
      wire.Value.GetStruct, WorkflowService_GetWorkflowExecutionHistory_Result.count,
      WorkflowService_GetWorkflowExecutionHistory_Result.Equals, equalsPointer]

end cadence

namespace matching

open shared

/-- A query result with exactly one field set round-trips. -/
theorem MatchingService_QueryWorkflow_Result.query_result_round_trip {T : Types}
    (enc : Encoders T) (dec : Decoders T) (eq : Comparers T)
    (v : MatchingService_QueryWorkflow_Result T)
    (hrt : RoundTrip enc dec eq) (hcount : v.count = 1) :
    (v.ToWire enc).2 = none
    ∧ (MatchingService_QueryWorkflow_Result.FromWire dec {} (v.ToWire enc).1).2
      = none
    ∧ MatchingService_QueryWorkflow_Result.Equals eq
        (MatchingService_QueryWorkflow_Result.FromWire dec {}
          (v.ToWire enc).1).1 v = true := by
  obtain ⟨_, r0, r1, r2, r3, r6, r4, r5⟩ := hrt
  have p0 := fun x fields => wire.putField_ok enc.QueryWorkflowResponse_ToWire
    x 0 fields (fun a _ => (r0 a).1)
  have p1 := fun x fields => wire.putField_ok enc.BadRequestError_ToWire
    x 1 fields (fun a _ => (r1 a).1)
  have p2 := fun x fields => wire.putField_ok enc.InternalServiceError_ToWire
    x 2 fields (fun a _ => (r2 a).1)
  have p3 := fun x fields => wire.putField_ok enc.EntityNotExistsError_ToWire
    x 3 fields (fun a _ => (r3 a).1)
  have p4 := fun x fields => wire.putField_ok enc.QueryFailedError_ToWire
    x 4 fields (fun a _ => (r4 a).1)
  have p5 := fun x fields => wire.putField_ok enc.LimitExceededError_ToWire
    x 5 fields (fun a _ => (r5 a).1)
  have p6 := fun x fields => wire.putField_ok enc.ServiceBusyError_ToWire
    x 6 fields (fun a _ => (r6 a).1)
  rcases v with ⟨_ | s, _ | b, _ | i, _ | e, _ | q, _ | l, _ | sb⟩ <;>
    simp [MatchingService_QueryWorkflow_Result.count] at hcount
  · obtain ⟨_, h2, h3, h4⟩ := r6 sb
    simp [MatchingService_QueryWorkflow_Result.ToWire, p0, p1, p2, p3, p4, p5, p6,
      wire.written, h2, h3, h4, bind, Except.bind, pure, Except.pure, wire.NewValueStruct,
      MatchingService_QueryWorkflow_Result.FromWire, wire.forFields,
      MatchingService_QueryWorkflow_Result.readField, wire.Read,
      wire.Value.GetStruct, MatchingService_QueryWorkflow_Result.count,
      MatchingService_QueryWorkflow_Result.Equals, equalsPointer]
  · obtain ⟨_, h2, h3, h4⟩ := r5 l
    simp [MatchingService_QueryWorkflow_Result.ToWire, p0, p1, p2, p3, p4, p5, p6,
      wire.written, h2, h3, h4, bind, Except.bind, pure, Except.pure, wire.NewValueStruct,
      MatchingService_QueryWorkflow_Result.FromWire, wire.forFields,
      MatchingService_QueryWorkflow_Result.readField, wire.Read,
      wire.Value.GetStruct, MatchingService_QueryWorkflow_Result.count,
      MatchingService_QueryWorkflow_Result.Equals, equalsPointer]
  · obtain ⟨_, h2, h3, h4⟩ := r4 q
    simp [MatchingService_QueryWorkflow_Result.ToWire, p0, p1, p2, p3, p4, p5, p6,
      wire.written, h2, h3, h4, bind, Except.bind, pure, Except.pure, wire.NewValueStruct,
      MatchingService_QueryWorkflow_Result.FromWire, wire.forFields,
      MatchingService_QueryWorkflow_Result.readField, wire.Read,
      wire.Value.GetStruct, MatchingService_QueryWorkflow_Result.count,
      MatchingService_QueryWorkflow_Result.Equals, equalsPointer]
  · obtain ⟨_, h2, h3, h4⟩ := r3 e
    simp [MatchingService_QueryWorkflow_Result.ToWire, p0, p1, p2, p3, p4, p5, p6,
      wire.written, h2, h3, h4, bind, Except.bind, pure, Except.pure, wire.NewValueStruct,
      MatchingService_QueryWorkflow_Result.FromWire, wire.forFields,
      MatchingService_QueryWorkflow_Result.readField, wire.Read,
      wire.Value.GetStruct, MatchingService_QueryWorkflow_Result.count,
      MatchingService_QueryWorkflow_Result.Equals, equalsPointer]
  · obtain ⟨_, h2, h3, h4⟩ := r2 i
    simp [MatchingService_QueryWorkflow_Result.ToWire, p0, p1, p2, p3, p4, p5, p6,
      wire.written, h2, h3, h4, bind, Except.bind, pure, Except.pure, wire.NewValueStruct,
      MatchingService_QueryWorkflow_Result.FromWire, wire.forFields,
      MatchingService_QueryWorkflow_Result.readField, wire.Read,
      wire.Value.GetStruct, MatchingService_QueryWorkflow_Result.count,
      MatchingService_QueryWorkflow_Result.Equals, equalsPointer]
  · obtain ⟨_, h2, h3, h4⟩ := r1 b
    simp [MatchingService_QueryWorkflow_Result.ToWire, p0, p1, p2, p3, p4, p5, p6,
      wire.written, h2, h3, h4, bind, Except.bind, pure, Except.pure, wire.NewValueStruct,
      MatchingService_QueryWorkflow_Result.FromWire, wire.forFields,
      MatchingService_QueryWorkflow_Result.readField, wire.Read,
      wire.Value.GetStruct, MatchingService_QueryWorkflow_Result.count,
      MatchingService_QueryWorkflow_Result.Equals, equalsPointer]
  · obtain ⟨_, h2, h3, h4⟩ := r0 s
    simp [MatchingService_QueryWorkflow_Result.ToWire, p0, p1, p2, p3, p4, p5, p6,
      wire.written, h2, h3, h4, bind, Except.bind, pure, Except.pure, wire.NewValueStruct,
      MatchingService_QueryWorkflow_Result.FromWire, wire.forFields,
      MatchingService_QueryWorkflow_Result.readField, wire.Read,
      wire.Value.GetStruct, MatchingService_QueryWorkflow_Result.count,
      MatchingService_QueryWorkflow_Result.Equals, equalsPointer]

end matching

namespace cadence

open shared

/-- The history arguments round-trip, with the request set or nil. -/
theorem WorkflowService_GetWorkflowExecutionHistory_Args.history_args_round_trip {T : Types} {Req : Type}
    (toWire : Req → wire.Value × Option (Error T))
    (fromWire : wire.Value → Req × Option (Error T)) (equals : Req → Req → Bool)
    (v : WorkflowService_GetWorkflowExecutionHistory_Args Req)
    (hrt : ∀ x, roundTrips toWire fromWire equals x) :
    (v.ToWire toWire).2 = none
    ∧ (WorkflowService_GetWorkflowExecutionHistory_Args.FromWire fromWire {} (v.ToWire toWire).1).2 = none
    ∧ WorkflowService_GetWorkflowExecutionHistory_Args.Equals equals
        (WorkflowService_GetWorkflowExecutionHistory_Args.FromWire fromWire {} (v.ToWire toWire).1).1 v = true := by
  have p := fun x fields => wire.putField_ok toWire x 1 fields (fun a _ => (hrt a).1)
  rcases v with ⟨_ | r⟩
  · simp [WorkflowService_GetWorkflowExecutionHistory_Args.ToWire, p, wire.written, bind, Except.bind, pure, Except.pure,
      wire.NewValueStruct, WorkflowService_GetWorkflowExecutionHistory_Args.FromWire, wire.forFields, wire.Value.GetStruct,
      WorkflowService_GetWorkflowExecutionHistory_Args.Equals, equalsPointer]
  · obtain ⟨_, h2, h3, h4⟩ := hrt r
    simp [WorkflowService_GetWorkflowExecutionHistory_Args.ToWire, p, wire.written, h2, h3, h4, bind, Except.bind, pure,
      Except.pure, wire.NewValueStruct, WorkflowService_GetWorkflowExecutionHistory_Args.FromWire, wire.forFields, wire.Read,
      wire.Value.GetStruct, WorkflowService_GetWorkflowExecutionHistory_Args.Equals, equalsPointer]

end cadence

namespace matching

open shared

/-- The query arguments round-trip, with the request set or nil. -/
theorem MatchingService_QueryWorkflow_Args.query_args_round_trip {T : Types} {Req : Type}
    (toWire : Req → wire.Value × Option (Error T))
    (fromWire : wire.Value → Req × Option (Error T)) (equals : Req → Req → Bool)
    (v : MatchingService_QueryWorkflow_Args Req)
    (hrt : ∀ x, roundTrips toWire fromWire equals x) :
    (v.ToWire toWire).2 = none
    ∧ (MatchingService_QueryWorkflow_Args.FromWire fromWire {} (v.ToWire toWire).1).2 = none
    ∧ MatchingService_QueryWorkflow_Args.Equals equals
        (MatchingService_QueryWorkflow_Args.FromWire fromWire {} (v.ToWire toWire).1).1 v = true := by
  have p := fun x fields => wire.putField_ok toWire x 1 fields (fun a _ => (hrt a).1)
  rcases v with ⟨_ | r⟩
  · simp [MatchingService_QueryWorkflow_Args.ToWire, p, wire.written, bind, Except.bind, pure, Except.pure,
      wire.NewValueStruct, MatchingService_QueryWorkflow_Args.FromWire, wire.forFields, wire.Value.GetStruct,
      MatchingService_QueryWorkflow_Args.Equals, equalsPointer]
  · obtain ⟨_, h2, h3, h4⟩ := hrt r
    simp [MatchingService_QueryWorkflow_Args.ToWire, p, wire.written, h2, h3, h4, bind, Except.bind, pure,
      Except.pure, wire.NewValueStruct, MatchingService_QueryWorkflow_Args.FromWire, wire.forFields, wire.Read,
      wire.Value.GetStruct, MatchingService_QueryWorkflow_Args.Equals, equalsPointer]

end matching


namespace shared

open cadence matching

/-- The sample encoders, decoders and comparers round-trip. -/
theorem sample_RoundTrip : RoundTrip sampleEncoders sampleDecoders sampleComparers := by
  have h : ∀ x : String,
      String.mk ((x.toList.map Char.toNat).map Char.ofNat) = x := by
    intro x
    apply String.ext
    simp [List.map_map, Function.comp_def, String.toList]
  refine ⟨?_, ?_, ?_, ?_, ?_, ?_, ?_, ?_⟩ <;> intro x <;>
    exact ⟨rfl, rfl, rfl, decide_eq_true (h x)⟩

/-- C22: `FromWire` undoes `ToWire`: when the nested request, response and
exception structs round-trip, for the argument structs of both functions (request
set or nil) and for the result structs of both functions with exactly one field
set, `ToWire` succeeds, `FromWire` of the wire value into a fresh struct succeeds,
and the struct read `Equals` the original. -/
theorem FromWire_ToWire_round_trip (T : Types) (enc : Encoders T) (dec : Decoders T)
    (eq : Comparers T) {HistoryRequest QueryRequest : Type}
    (historyToWire : HistoryRequest → wire.Value × Option (Error T))
    (historyFromWire : wire.Value → HistoryRequest × Option (Error T))
    (historyEquals : HistoryRequest → HistoryRequest → Bool)
    (queryToWire : QueryRequest → wire.Value × Option (Error T))
    (queryFromWire : wire.Value → QueryRequest × Option (Error T))
    (queryEquals : QueryRequest → QueryRequest → Bool)
    (historyArgs : WorkflowService_GetWorkflowExecutionHistory_Args HistoryRequest)
    (queryArgs : MatchingService_QueryWorkflow_Args QueryRequest)
    (history : WorkflowService_GetWorkflowExecutionHistory_Result T)
    (query : MatchingService_QueryWorkflow_Result T)
    (hrt : RoundTrip enc dec eq)
    (hhistory : ∀ x, roundTrips historyToWire historyFromWire historyEquals x)
    (hquery : ∀ x, roundTrips queryToWire queryFromWire queryEquals x)
    (hhistoryCount : history.count = 1) (hqueryCount : query.count = 1) :
    ((historyArgs.ToWire historyToWire).2 = none
      ∧ (WorkflowService_GetWorkflowExecutionHistory_Args.FromWire historyFromWire {}
          (historyArgs.ToWire historyToWire).1).2 = none
      ∧ WorkflowService_GetWorkflowExecutionHistory_Args.Equals historyEquals
          (WorkflowService_GetWorkflowExecutionHistory_Args.FromWire historyFromWire {}
            (historyArgs.ToWire historyToWire).1).1 historyArgs = true)
    ∧ ((queryArgs.ToWire queryToWire).2 = none
      ∧ (MatchingService_QueryWorkflow_Args.FromWire queryFromWire {}
          (queryArgs.ToWire queryToWire).1).2 = none
      ∧ MatchingService_QueryWorkflow_Args.Equals queryEquals
          (MatchingService_QueryWorkflow_Args.FromWire queryFromWire {}
            (queryArgs.ToWire queryToWire).1).1 queryArgs = true)
    ∧ ((history.ToWire enc).2 = none
      ∧ (WorkflowService_GetWorkflowExecutionHistory_Result.FromWire dec {}
          (history.ToWire enc).1).2 = none
      ∧ WorkflowService_GetWorkflowExecutionHistory_Result.Equals eq
          (WorkflowService_GetWorkflowExecutionHistory_Result.FromWire dec {}
            (history.ToWire enc).1).1 history = true)
    ∧ ((query.ToWire enc).2 = none
      ∧ (MatchingService_QueryWorkflow_Result.FromWire dec {} (query.ToWire enc).1).2 = none
      ∧ MatchingService_QueryWorkflow_Result.Equals eq
          (MatchingService_QueryWorkflow_Result.FromWire dec {} (query.ToWire enc).1).1 query
        = true) :=
  ⟨WorkflowService_GetWorkflowExecutionHistory_Args.history_args_round_trip historyToWire historyFromWire
      historyEquals historyArgs hhistory,
   MatchingService_QueryWorkflow_Args.query_args_round_trip queryToWire queryFromWire queryEquals
      queryArgs hquery,
   WorkflowService_GetWorkflowExecutionHistory_Result.history_result_round_trip enc dec eq history hrt
      hhistoryCount,
   MatchingService_QueryWorkflow_Result.query_result_round_trip enc dec eq query hrt hqueryCount⟩

/-- Witness of C22: arguments with a request and without, a history result with
a bad-request error and a query result with a success value, on the sample
structs. -/
theorem FromWire_ToWire_round_trip_witness :
    RoundTrip sampleEncoders sampleDecoders sampleComparers
    ∧ ({ BadRequestError := some "bad" } :
        WorkflowService_GetWorkflowExecutionHistory_Result sampleTypes).count = 1
    ∧ ({ Success := some "answer" } : MatchingService_QueryWorkflow_Result sampleTypes).count
      = 1
    ∧ (WorkflowService_GetWorkflowExecutionHistory_Args.FromWire
          sampleDecoders.BadRequestError_FromWire {}
          (({ GetRequest := some "request" } :
            WorkflowService_GetWorkflowExecutionHistory_Args String).ToWire
            sampleEncoders.BadRequestError_ToWire).1).2 = none
    ∧ MatchingService_QueryWorkflow_Args.Equals sampleComparers.BadRequestError_Equals
          (MatchingService_QueryWorkflow_Args.FromWire
            sampleDecoders.BadRequestError_FromWire {}
            (({} : MatchingService_QueryWorkflow_Args String).ToWire
              sampleEncoders.BadRequestError_ToWire).1).1 {} = true
    ∧ WorkflowService_GetWorkflowExecutionHistory_Result.Equals sampleComparers
          (WorkflowService_GetWorkflowExecutionHistory_Result.FromWire sampleDecoders {}
            (({ BadRequestError := some "bad" } :
              WorkflowService_GetWorkflowExecutionHistory_Result sampleTypes).ToWire
              sampleEncoders).1).1 { BadRequestError := some "bad" } = true
    ∧ MatchingService_QueryWorkflow_Result.Equals sampleComparers
          (MatchingService_QueryWorkflow_Result.FromWire sampleDecoders {}
            (({ Success := some "answer" } :
              MatchingService_QueryWorkflow_Result sampleTypes).ToWire sampleEncoders).1).1
          { Success := some "answer" } = true :=
  have h := FromWire_ToWire_round_trip sampleTypes sampleEncoders sampleDecoders
    sampleComparers sampleEncoders.BadRequestError_ToWire
    sampleDecoders.BadRequestError_FromWire sampleComparers.BadRequestError_Equals
    sampleEncoders.BadRequestError_ToWire sampleDecoders.BadRequestError_FromWire
    sampleComparers.BadRequestError_Equals
    { GetRequest := some "request" } {} { BadRequestError := some "bad" }
    { Success := some "answer" } sample_RoundTrip sample_RoundTrip.2.2.1
    sample_RoundTrip.2.2.1 rfl rfl
  ⟨sample_RoundTrip, rfl, rfl, h.1.2.1, h.2.1.2.2, h.2.2.1.2.2, h.2.2.2.2.2⟩

end shared

/-! ### Visibility query interceptors -/

/-- An exact value inside the `int64` range is not changed by wrapping. -/
theorem int64.wrap_of_range (x : Int) (hlo : -9223372036854775808 ≤ x)
    (hhi : x < 9223372036854775808) : int64.wrap x = x := by
  unfold int64.wrap
  omega

/-- The sum computed by `parseHHMMSSDuration` does not wrap for hours up to
2562046 and minutes and seconds up to 59. -/
theorem int64.hhmmss_sum (h m s : Int) (hh0 : 0 ≤ h) (hh1 : h ≤ 2562046)
    (hm0 : 0 ≤ m) (hm1 : m ≤ 59) (hs0 : 0 ≤ s) (hs1 : s ≤ 59) :
    int64.add
        (int64.add
          (int64.add (int64.mul h time.Hour) (int64.mul m time.Minute))
          (int64.mul s time.Second))
        0
      = (3600 * h + 60 * m + s) * 1000000000 := by
  simp only [int64.add, int64.mul, time.Hour, time.Minute, time.Second]
  rw [int64.wrap_of_range (h * _) (by omega) (by omega),
    int64.wrap_of_range (m * _) (by omega) (by omega),
    int64.wrap_of_range (s * _) (by omega) (by omega),
    int64.wrap_of_range (h * _ + m * _) (by omega) (by omega),
    int64.wrap_of_range (h * _ + m * _ + s * _) (by omega) (by omega),
    int64.wrap_of_range (h * _ + m * _ + s * _ + 0) (by omega) (by omega)]
  ring

/-- C28: for every string that scans under `%d:%d:%d` to integers h, m, s with
0 ≤ h ≤ 2562046, 0 ≤ m ≤ 59 and 0 ≤ s ≤ 59, `parseHHMMSSDuration` returns exactly
(3600*h + 60*m + s) * 10^9 nanoseconds and a nil error; in particular hours = 0
is accepted. -/
theorem elasticsearch.parseHHMMSSDuration_in_range (env : elasticsearch.Env) (d : String)
    (h m s : Int) (hscan : env.Sscanf d = some (h, m, s))
    (hh0 : 0 ≤ h) (hh1 : h ≤ 2562046) (hm0 : 0 ≤ m) (hm1 : m ≤ 59)
    (hs0 : 0 ≤ s) (hs1 : s ≤ 59) :
    elasticsearch.parseHHMMSSDuration env d
      = ((3600 * h + 60 * m + s) * 10 ^ 9, none) := by
  unfold elasticsearch.parseHHMMSSDuration
  rw [hscan]
  simp only
  rw [if_neg (by omega), if_neg (by omega), if_neg (by omega),
    int64.hhmmss_sum h m s hh0 hh1 hm0 hm1 hs0 hs1]
  norm_num

/-- C28 at the string "00:00:07" of the sample environment, whose hours are 0:
seven seconds, no error. -/
theorem elasticsearch.parseHHMMSSDuration_in_range_witness :
    elasticsearch.sampleEnv.Sscanf "00:00:07" = some (0, 0, 7)
    ∧ elasticsearch.parseHHMMSSDuration elasticsearch.sampleEnv "00:00:07"
      = ((3600 * 0 + 60 * 0 + 7) * 10 ^ 9, none) :=
  ⟨by decide,
   elasticsearch.parseHHMMSSDuration_in_range elasticsearch.sampleEnv "00:00:07" 0 0 7
     (by decide) (by decide) (by decide) (by decide) (by decide) (by decide) (by decide)⟩

/-- What `parseHHMMSSDuration` returns, by the result of the scan and the range
of the three numbers. -/
theorem elasticsearch.parseHHMMSSDuration_cases (env : elasticsearch.Env) (d : String) :
    (env.Sscanf d = none →
      elasticsearch.parseHHMMSSDuration env d
        = (0, some (elasticsearch.Error.errorString "value is not a duration")))
    ∧ (∀ h m s : Int, env.Sscanf d = some (h, m, s) →
        (h < 0 ∨ m < 0 ∨ m > 59 ∨ s < 0 ∨ s > 59) →
        ∃ message, elasticsearch.parseHHMMSSDuration env d
          = (0, some (elasticsearch.Error.ConverterError message)))
    ∧ (∀ h m s : Int, env.Sscanf d = some (h, m, s) →
        ¬ (h < 0 ∨ m < 0 ∨ m > 59 ∨ s < 0 ∨ s > 59) →
        (elasticsearch.parseHHMMSSDuration env d).2 = none) := by
  refine ⟨?_, ?_, ?_⟩
  · intro hscan
    unfold elasticsearch.parseHHMMSSDuration
    rw [hscan]
  · intro h m s hscan hout
    unfold elasticsearch.parseHHMMSSDuration
    rw [hscan]
    simp only [elasticsearch.NewConverterError]
    split_ifs with h1 h2 h3
    · exact ⟨_, rfl⟩
    · exact ⟨_, rfl⟩
    · exact ⟨_, rfl⟩
    · omega
  · intro h m s hscan hin
    unfold elasticsearch.parseHHMMSSDuration
    rw [hscan]
    simp only
    rw [if_neg (by omega), if_neg (by omega), if_neg (by omega)]

/-- C29: for the ExecutionDuration attribute given as a string s,
`parseSystemSearchAttributeValues` returns the int64 nanoseconds of
`ParseDuration` when that succeeds; otherwise the nanoseconds of
`parseHHMMSSDuration` when s scans as hh:mm:ss in range; otherwise, when s scans
but a component is out of range, a nil value and the ConverterError of
`parseHHMMSSDuration`; otherwise the string s itself and a nil error.  And for any
name and value, an error is returned exactly in the out-of-range case. -/
theorem elasticsearch.execution_duration_string (env : elasticsearch.Env) (s : String)
    (name : String) (value : elasticsearch.Value) :
    (∀ n, env.ParseDuration s = some n →
      elasticsearch.parseSystemSearchAttributeValues env searchattribute.ExecutionDuration
          (elasticsearch.Value.string s)
        = (some (elasticsearch.Value.int64 n), none))
    ∧ (∀ h m sec : Int, env.ParseDuration s = none → env.Sscanf s = some (h, m, sec) →
        ¬ (h < 0 ∨ m < 0 ∨ m > 59 ∨ sec < 0 ∨ sec > 59) →
        (elasticsearch.parseHHMMSSDuration env s).2 = none
        ∧ elasticsearch.parseSystemSearchAttributeValues env searchattribute.ExecutionDuration
            (elasticsearch.Value.string s)
          = (some (elasticsearch.Value.int64 (elasticsearch.parseHHMMSSDuration env s).1), none))
    ∧ (∀ h m sec : Int, env.ParseDuration s = none → env.Sscanf s = some (h, m, sec) →
        (h < 0 ∨ m < 0 ∨ m > 59 ∨ sec < 0 ∨ sec > 59) →
        ∃ message,
          elasticsearch.parseHHMMSSDuration env s
            = (0, some (elasticsearch.Error.ConverterError message))
          ∧ elasticsearch.parseSystemSearchAttributeValues env searchattribute.ExecutionDuration
              (elasticsearch.Value.string s)
            = (none, some (elasticsearch.Error.ConverterError message)))
    ∧ (env.ParseDuration s = none → env.Sscanf s = none →
        elasticsearch.parseSystemSearchAttributeValues env searchattribute.ExecutionDuration
            (elasticsearch.Value.string s)
          = (some (elasticsearch.Value.string s), none))
    ∧ ((elasticsearch.parseSystemSearchAttributeValues env name value).2 ≠ none ↔
        name = searchattribute.ExecutionDuration
        ∧ ∃ t, value = elasticsearch.Value.string t ∧ env.ParseDuration t = none
          ∧ ∃ h m sec : Int, env.Sscanf t = some (h, m, sec)
            ∧ (h < 0 ∨ m < 0 ∨ m > 59 ∨ sec < 0 ∨ sec > 59)) := by
  have hname : ¬ (searchattribute.ExecutionDuration = searchattribute.StartTime
      ∨ searchattribute.ExecutionDuration = searchattribute.CloseTime
      ∨ searchattribute.ExecutionDuration = searchattribute.ExecutionTime) := by decide
  have hname2 : ¬ (searchattribute.ExecutionDuration = searchattribute.ExecutionStatus) := by
    decide
  have key : ∀ t : String,
      elasticsearch.parseSystemSearchAttributeValues env searchattribute.ExecutionDuration
          (elasticsearch.Value.string t)
        = match env.ParseDuration t with
          | some duration => (some (elasticsearch.Value.int64 duration), none)
          | none =>
            match (elasticsearch.parseHHMMSSDuration env t).2 with
            | some (elasticsearch.Error.ConverterError message) =>
              (none, some (elasticsearch.Error.ConverterError message))
            | some (elasticsearch.Error.errorString _) =>
              (some (elasticsearch.Value.string t), none)
            | none =>
              (some (elasticsearch.Value.int64 (elasticsearch.parseHHMMSSDuration env t).1),
                none) := by
    intro t
    unfold elasticsearch.parseSystemSearchAttributeValues
    rw [if_neg hname, if_neg hname2, if_pos rfl]
  refine ⟨?_, ?_, ?_, ?_, ?_⟩
  · intro n hn
    rw [key, hn]
  · intro h m sec hpd hscan hin
    have hok := (elasticsearch.parseHHMMSSDuration_cases env s).2.2 h m sec hscan hin
    refine ⟨hok, ?_⟩
    rw [key, hpd]
    simp only [hok]
  · intro h m sec hpd hscan hout
    obtain ⟨message, hmsg⟩ :=
      (elasticsearch.parseHHMMSSDuration_cases env s).2.1 h m sec hscan hout
    refine ⟨message, hmsg, ?_⟩
    rw [key, hpd]
    simp only [hmsg]
  · intro hpd hscan
    have hplain := (elasticsearch.parseHHMMSSDuration_cases env s).1 hscan
    rw [key, hpd]
    simp only [hplain]
  · constructor
    · intro herr
      by_cases hn : name = searchattribute.ExecutionDuration
      · subst hn
        refine ⟨rfl, ?_⟩
        cases value with
        | string t =>
          refine ⟨t, rfl, ?_⟩
          rw [key] at herr
          cases hpd : env.ParseDuration t with
          | some n => rw [hpd] at herr; exact absurd rfl herr
          | none =>
            refine ⟨rfl, ?_⟩
            rw [hpd] at herr
            cases hscan : env.Sscanf t with
            | none =>
              have hplain := (elasticsearch.parseHHMMSSDuration_cases env t).1 hscan
              simp only [hplain] at herr
              exact absurd rfl herr
            | some hms =>
              obtain ⟨h, m, sec⟩ := hms
              refine ⟨h, m, sec, rfl, ?_⟩
              by_contra hin
              have hok := (elasticsearch.parseHHMMSSDuration_cases env t).2.2 h m sec hscan hin
              simp only [hok] at herr
              exact absurd rfl herr
        | int64 n =>
          exfalso; apply herr
          unfold elasticsearch.parseSystemSearchAttributeValues
          rw [if_neg hname, if_neg hname2, if_pos rfl]
        | float64 n =>
          exfalso; apply herr
          unfold elasticsearch.parseSystemSearchAttributeValues
          rw [if_neg hname, if_neg hname2, if_pos rfl]
        | bool n =>
          exfalso; apply herr
          unfold elasticsearch.parseSystemSearchAttributeValues
          rw [if_neg hname, if_neg hname2, if_pos rfl]
        | other n =>
          exfalso; apply herr
          unfold elasticsearch.parseSystemSearchAttributeValues
          rw [if_neg hname, if_neg hname2, if_pos rfl]
      · exfalso; apply herr
        unfold elasticsearch.parseSystemSearchAttributeValues
        rw [if_neg hn]
        split_ifs <;> (cases value <;> rfl)
    · rintro ⟨hn, t, hv, hpd, h, m, sec, hscan, hout⟩
      subst hn; subst hv
      obtain ⟨message, hmsg⟩ :=
        (elasticsearch.parseHHMMSSDuration_cases env t).2.1 h m sec hscan hout
      rw [key, hpd]
      simp only [hmsg]
      exact fun hc => nomatch hc

/-- C29 on the sample environment: "01:99:03" is no Go duration and scans with
minutes out of range, so the call fails with the ConverterError of
`parseHHMMSSDuration`. -/
theorem elasticsearch.execution_duration_string_witness :
    elasticsearch.parseSystemSearchAttributeValues elasticsearch.sampleEnv
        searchattribute.ExecutionDuration (elasticsearch.Value.string "01:99:03")
      = (none, some (elasticsearch.Error.ConverterError
          "invalid duration: minutes must be from 0 to 59"))
    ∧ (elasticsearch.parseSystemSearchAttributeValues elasticsearch.sampleEnv
        searchattribute.ExecutionDuration (elasticsearch.Value.string "01:99:03")).2 ≠ none := by
  have hpd : elasticsearch.sampleEnv.ParseDuration "01:99:03" = none := by decide
  have hscan : elasticsearch.sampleEnv.Sscanf "01:99:03" = some (1, 99, 3) := by decide
  have hout : ((1 : Int) < 0 ∨ (99 : Int) < 0 ∨ (99 : Int) > 59 ∨ (3 : Int) < 0 ∨ (3 : Int) > 59) := by
    decide
  have hall := elasticsearch.execution_duration_string elasticsearch.sampleEnv "01:99:03"
    searchattribute.ExecutionDuration (elasticsearch.Value.string "01:99:03")
  refine ⟨?_, hall.2.2.2.2.mpr ⟨rfl, "01:99:03", rfl, hpd, 1, 99, 3, hscan, hout⟩⟩
  obtain ⟨message, hmsg, hres⟩ := hall.2.2.1 1 99 3 hpd hscan hout
  rw [hres]
  have hval : elasticsearch.parseHHMMSSDuration elasticsearch.sampleEnv "01:99:03"
      = (0, some (elasticsearch.Error.ConverterError
          "invalid duration: minutes must be from 0 to 59")) := by
    decide
  rw [hval] at hmsg
  injection hmsg with _ h2
  injection h2 with h3
  rw [← h3]

/-- C30: for a field of type INT or DOUBLE, `validateValueType` returns int64 and
float64 values unchanged with a nil error; returns a string value itself,
unconverted, with a nil error when `strconv.ParseFloat` accepts it and a nil
value with a ConverterError when it does not; and returns a nil value with a
ConverterError for a value of any other dynamic type.  So a string is accepted
if and only if it parses as a floating-point number. -/
theorem elasticsearch.validate_numeric_field (env : elasticsearch.Env) (name : String)
    (value : elasticsearch.Value) (fieldType : enumspb.IndexedValueType)
    (hnum : fieldType = enumspb.INDEXED_VALUE_TYPE_INT
      ∨ fieldType = enumspb.INDEXED_VALUE_TYPE_DOUBLE) :
    (∀ n, value = elasticsearch.Value.int64 n →
      elasticsearch.validateValueType env name value fieldType = (some value, none))
    ∧ (∀ bits, value = elasticsearch.Value.float64 bits →
      elasticsearch.validateValueType env name value fieldType = (some value, none))
    ∧ (∀ v, value = elasticsearch.Value.string v →
      ((elasticsearch.validateValueType env name value fieldType).2 = none ↔
        env.ParseFloat v = true)
      ∧ (env.ParseFloat v = true →
        elasticsearch.validateValueType env name value fieldType
          = (some (elasticsearch.Value.string v), none))
      ∧ (env.ParseFloat v = false →
        elasticsearch.validateValueType env name value fieldType
          = (none, some (elasticsearch.Error.ConverterError
              (env.invalidValue name fieldType value)))))
    ∧ ((∀ n, value ≠ elasticsearch.Value.int64 n) →
      (∀ bits, value ≠ elasticsearch.Value.float64 bits) →
      (∀ v, value ≠ elasticsearch.Value.string v) →
      elasticsearch.validateValueType env name value fieldType
        = (none, some (elasticsearch.Error.ConverterError
            (env.invalidValue name fieldType value)))) := by
  unfold elasticsearch.validateValueType
  rw [if_pos hnum]
  refine ⟨?_, ?_, ?_, ?_⟩
  · rintro n rfl
    rfl
  · rintro bits rfl
    rfl
  · rintro v rfl
    cases hpf : env.ParseFloat v <;> simp [hpf]
  · intro h1 h2 h3
    cases value with
    | int64 n => exact absurd rfl (h1 n)
    | float64 bits => exact absurd rfl (h2 bits)
    | string v => exact absurd rfl (h3 v)
    | bool b => rfl
    | other t => rfl

/-- C30 on the sample environment, for a field of type INT: the string "1.5"
parses as a floating-point number and is returned as it is. -/
theorem elasticsearch.validate_numeric_field_witness :
    (enumspb.INDEXED_VALUE_TYPE_INT = enumspb.INDEXED_VALUE_TYPE_INT
      ∨ enumspb.INDEXED_VALUE_TYPE_INT = enumspb.INDEXED_VALUE_TYPE_DOUBLE)
    ∧ elasticsearch.sampleEnv.ParseFloat "1.5" = true
    ∧ elasticsearch.validateValueType elasticsearch.sampleEnv "CustomIntField"
        (elasticsearch.Value.string "1.5") enumspb.INDEXED_VALUE_TYPE_INT
      = (some (elasticsearch.Value.string "1.5"), none) :=
  ⟨Or.inl rfl, by decide,
   ((elasticsearch.validate_numeric_field elasticsearch.sampleEnv "CustomIntField"
      (elasticsearch.Value.string "1.5") enumspb.INDEXED_VALUE_TYPE_INT (Or.inl rfl)).2.2.1
      "1.5" rfl).2.1 (by decide)⟩

/-- The three messages of `parseHHMMSSDuration` have no verb: `fmt.Sprintf`
returns them as they are. -/
theorem elasticsearch.NewConverterError_messages :
    elasticsearch.NewConverterError "invalid duration: hours must be positive number" []
      = elasticsearch.Error.ConverterError "invalid duration: hours must be positive number"
    ∧ elasticsearch.NewConverterError "invalid duration: minutes must be from 0 to 59" []
      = elasticsearch.Error.ConverterError "invalid duration: minutes must be from 0 to 59"
    ∧ elasticsearch.NewConverterError "invalid duration: seconds must be from 0 to 59" []
      = elasticsearch.Error.ConverterError "invalid duration: seconds must be from 0 to 59" := by
  refine ⟨?_, ?_, ?_⟩ <;> decide

/-- C31: `parseHHMMSSDuration` returns the plain error "value is not a duration"
(and a plain error at all) if and only if the string does not scan; when it
scans to h, m, s it returns a ConverterError if and only if h < 0 or m is
outside 0..59 or s is outside 0..59, the one about hours when h < 0, else the
one about minutes when m is out of range, else the one about seconds; and on
every error the returned number is 0. -/
theorem elasticsearch.parseHHMMSSDuration_rejects (env : elasticsearch.Env) (d : String) :
    ((elasticsearch.parseHHMMSSDuration env d).2
        = some (elasticsearch.Error.errorString "value is not a duration")
      ↔ env.Sscanf d = none)
    ∧ ((∃ text, (elasticsearch.parseHHMMSSDuration env d).2
          = some (elasticsearch.Error.errorString text))
      ↔ env.Sscanf d = none)
    ∧ (∀ h m s : Int, env.Sscanf d = some (h, m, s) →
        ((∃ message, (elasticsearch.parseHHMMSSDuration env d).2
            = some (elasticsearch.Error.ConverterError message))
          ↔ (h < 0 ∨ m < 0 ∨ m > 59 ∨ s < 0 ∨ s > 59))
        ∧ (h < 0 → elasticsearch.parseHHMMSSDuration env d
            = (0, some (elasticsearch.Error.ConverterError
                "invalid duration: hours must be positive number")))
        ∧ (¬ h < 0 → (m < 0 ∨ m > 59) → elasticsearch.parseHHMMSSDuration env d
            = (0, some (elasticsearch.Error.ConverterError
                "invalid duration: minutes must be from 0 to 59")))
        ∧ (¬ h < 0 → ¬ (m < 0 ∨ m > 59) → (s < 0 ∨ s > 59) →
            elasticsearch.parseHHMMSSDuration env d
              = (0, some (elasticsearch.Error.ConverterError
                  "invalid duration: seconds must be from 0 to 59"))))
    ∧ ((elasticsearch.parseHHMMSSDuration env d).2 ≠ none →
        (elasticsearch.parseHHMMSSDuration env d).1 = 0) := by
  obtain ⟨hhours, hminutes, hseconds⟩ := elasticsearch.NewConverterError_messages
  cases hscan : env.Sscanf d with
  | none =>
    have hres : elasticsearch.parseHHMMSSDuration env d
        = (0, some (elasticsearch.Error.errorString "value is not a duration")) := by
      unfold elasticsearch.parseHHMMSSDuration
      rw [hscan]
    rw [hres]
    refine ⟨⟨fun _ => rfl, fun _ => rfl⟩, ⟨fun _ => rfl, fun _ => ⟨_, rfl⟩⟩, ?_, fun _ => rfl⟩
    intro h m s hc
    exact absurd hc (by simp)
  | some hms =>
    obtain ⟨h, m, s⟩ := hms
    have hres : elasticsearch.parseHHMMSSDuration env d
        = if h < 0 then
            (0, some (elasticsearch.Error.ConverterError
              "invalid duration: hours must be positive number"))
          else if m < 0 ∨ m > 59 then
            (0, some (elasticsearch.Error.ConverterError
              "invalid duration: minutes must be from 0 to 59"))
          else if s < 0 ∨ s > 59 then
            (0, some (elasticsearch.Error.ConverterError
              "invalid duration: seconds must be from 0 to 59"))
          else
            (int64.add
              (int64.add
                (int64.add (int64.mul h time.Hour) (int64.mul m time.Minute))
                (int64.mul s time.Second))
              0,
             none) := by
      unfold elasticsearch.parseHHMMSSDuration
      rw [hscan]
      simp only [hhours, hminutes, hseconds]
    rw [hres]
    refine ⟨?_, ?_, ?_, ?_⟩
    · constructor
      · intro herr
        split_ifs at herr <;> simp at herr
      · intro hc
        exact absurd hc (by simp)
    · constructor
      · rintro ⟨text, herr⟩
        split_ifs at herr <;> simp at herr
      · intro hc
        exact absurd hc (by simp)
    · intro h' m' s' heq
      simp only [Option.some.injEq, Prod.mk.injEq] at heq
      obtain ⟨rfl, rfl, rfl⟩ := heq
      refine ⟨?_, ?_, ?_, ?_⟩
      · constructor
        · rintro ⟨message, herr⟩
          by_contra hin
          rw [if_neg (by omega), if_neg (by omega), if_neg (by omega)] at herr
          exact absurd herr (by simp)
        · intro hout
          split_ifs with h1 h2 h3
          · exact ⟨_, rfl⟩
          · exact ⟨_, rfl⟩
          · exact ⟨_, rfl⟩
          · omega
      · intro h1
        rw [if_pos h1]
      · intro h1 h2
        rw [if_neg h1, if_pos h2]
      · intro h1 h2 h3
        rw [if_neg h1, if_neg h2, if_pos h3]
    · intro herr
      split_ifs at herr ⊢ <;> first | rfl | exact absurd rfl herr

/-- C31 on the sample environment: "01:99:03" scans to 1, 99, 3; hours are not
negative and minutes are out of range, so the result is 0 with the
ConverterError about minutes. -/
theorem elasticsearch.parseHHMMSSDuration_rejects_witness :
    elasticsearch.sampleEnv.Sscanf "01:99:03" = some (1, 99, 3)
    ∧ elasticsearch.parseHHMMSSDuration elasticsearch.sampleEnv "01:99:03"
      = (0, some (elasticsearch.Error.ConverterError
          "invalid duration: minutes must be from 0 to 59")) :=
  ⟨by decide,
   ((elasticsearch.parseHHMMSSDuration_rejects elasticsearch.sampleEnv "01:99:03").2.2.1
      1 99 3 (by decide)).2.2.1 (by decide) (by decide)⟩

/-- C32: the claim fails at the string "2562048:00:00".  It scans to 2562048, 0,
0, every range check passes, and the `int64` product of the hours with
`time.Hour` (exactly 9223372800000000000, above 2^63 - 1) wraps to
-9223371273709551616, which is returned with a nil error: an accepted input
with a negative nanosecond count. -/
theorem elasticsearch.parseHHMMSSDuration_hours_overflow :
    elasticsearch.sampleEnv.Sscanf "2562048:00:00" = some (2562048, 0, 0)
    ∧ int64.mul 2562048 time.Hour = -9223371273709551616
    ∧ elasticsearch.parseHHMMSSDuration elasticsearch.sampleEnv "2562048:00:00"
      = (-9223371273709551616, none)
    ∧ (elasticsearch.parseHHMMSSDuration elasticsearch.sampleEnv "2562048:00:00").1 < 0 := by
  refine ⟨by decide, by decide, by decide, by decide⟩
